import Mathlib

/-!
# GC0307 sensor driver and boot0 header: a shallow embedding

Source files embedded here:

* `linux-3.10/drivers/media/platform/sunxi-vfe/device/gc0307.c`
* `brandy/pack_tools/include/boot0_head.h`

Conventions of the embedding.

* C `int`, `__s32` and enum values are `Int`; `unsigned`, `__u32`, register
  addresses and register data are `Nat`.  No arithmetic of the embedded code
  can overflow: the only additions are the bounded table indices `value + 4`.
* The per-device structure `sensor_info` and the bus are passed explicitly:
  a function takes the current `sensor_info` and bus state and returns its
  C return code together with the new `sensor_info` and bus state.
* `sensor_read`, `sensor_write` and `sensor_write_array` live in
  `sensor_helper.h`, outside the embedded sources.  They are the fields of the
  parameter `cci β`, so every theorem holds for every implementation of
  the bus, failing ones included.
* Reading a C array outside its bounds is undefined behaviour; functions that
  index a table with an unchecked value return `Option`, and `none` is that
  undefined behaviour.
* `msleep`, `usleep_range` and the log macros change neither `sensor_info`
  nor the bus and are left out.
* The platform calls of `sensor_power` (`cci_lock`, `vfe_gpio_write`,
  `vfe_set_mclk`, ...) are defined outside the embedded sources and their
  results are never looked at; `sensor_power` returns the list of the calls
  it makes, in program order.
* A C structure of boot0_head.h is the list of its members, each with its
  element size and element count.
-/

namespace gc0307

/-! ## Kernel constants -/

/-- Errno `EINVAL`. -/
def EINVAL : Int := 22

/-- Errno `ERANGE`. -/
def ERANGE : Int := 34

/-- Errno `ENODEV`. -/
def ENODEV : Int := 19

/-- The control identifiers named in gc0307.c; `other` stands for every
identifier the file does not name.  The numeric values of the `V4L2_CID_*`
macros are not needed: the code only switches on them. -/
inductive v4l2_cid where
  | V4L2_CID_BRIGHTNESS
  | V4L2_CID_CONTRAST
  | V4L2_CID_SATURATION
  | V4L2_CID_HUE
  | V4L2_CID_VFLIP
  | V4L2_CID_HFLIP
  | V4L2_CID_GAIN
  | V4L2_CID_AUTOGAIN
  | V4L2_CID_EXPOSURE
  | V4L2_CID_AUTO_EXPOSURE_BIAS
  | V4L2_CID_EXPOSURE_AUTO
  | V4L2_CID_AUTO_N_PRESET_WHITE_BALANCE
  | V4L2_CID_AUTO_WHITE_BALANCE
  | V4L2_CID_COLORFX
  | V4L2_CID_FLASH_LED_MODE
  | other (n : Nat)
deriving DecidableEq

/-- The `enum v4l2_ctrl_type` values gc0307.c tests for; `other` is every
other control type (button, integer menu, bitmask, ...). -/
inductive v4l2_ctrl_type where
  | V4L2_CTRL_TYPE_INTEGER
  | V4L2_CTRL_TYPE_BOOLEAN
  | V4L2_CTRL_TYPE_MENU
  | other (n : Nat)
deriving DecidableEq

/-- The `enum v4l2_mbus_pixelcode` values named in gc0307.c; `other` is every
other media-bus pixel code. -/
inductive v4l2_mbus_pixelcode where
  | V4L2_MBUS_FMT_YUYV8_2X8
  | V4L2_MBUS_FMT_YVYU8_2X8
  | V4L2_MBUS_FMT_UYVY8_2X8
  | V4L2_MBUS_FMT_VYUY8_2X8
  | other (n : Nat)
deriving DecidableEq

/-- The `enum v4l2_field` value named in gc0307.c and all the others. -/
inductive v4l2_field where
  | V4L2_FIELD_NONE
  | other (n : Nat)
deriving DecidableEq

/-- The frame-size kind named in gc0307.c and all the others. -/
inductive v4l2_frmsizetypes where
  | V4L2_FRMSIZE_TYPE_DISCRETE
  | other (n : Nat)
deriving DecidableEq

/-- Enumerator `V4L2_EXPOSURE_AUTO` of `enum v4l2_exposure_auto_type`. -/
def V4L2_EXPOSURE_AUTO : Int := 0

/-- Enumerator `V4L2_EXPOSURE_MANUAL` of `enum v4l2_exposure_auto_type`. -/
def V4L2_EXPOSURE_MANUAL : Int := 1

/-- Enumerator `V4L2_WHITE_BALANCE_AUTO`, index 1 of table `sensor_wb`. -/
def V4L2_WHITE_BALANCE_AUTO : Int := 1

/-- Modelled from the spec: `VGA_WIDTH` of camera.h, which is not among the
embedded sources; the one capture window is 640 pixels wide. -/
def VGA_WIDTH : Nat := 640

/-- Modelled from the spec: `VGA_HEIGHT` of camera.h, which is not among the
embedded sources; the one capture window is 480 lines high. -/
def VGA_HEIGHT : Nat := 480

/-! ## Data model -/

/-- One entry of a register table: `struct regval_list`. -/
structure regval_list where
  addr : Nat
  data : Nat
deriving DecidableEq

/-- One preset of a control: `struct cfg_array`. -/
structure cfg_array where
  regs : List regval_list
  size : Int
deriving DecidableEq

/-- The kernel macro `ARRAY_SIZE`. -/
def ARRAY_SIZE {α : Type} (arr : List α) : Nat := arr.length

/-- Entry of the format table: `struct sensor_format_struct`. -/
structure sensor_format_struct where
  desc : String
  mbus_code : v4l2_mbus_pixelcode
  regs : List regval_list
  regs_size : Int
  bpp : Int
deriving DecidableEq

/-- Entry of the window table: `struct sensor_win_size`, with the fields
gc0307.c initialises.  `regs` and `set_size` are pointers; `none` is `NULL`. -/
structure sensor_win_size where
  width : Nat
  height : Nat
  hoffset : Nat
  voffset : Nat
  regs : Option (List regval_list)
  regs_size : Int
  set_size : Option (Unit → Int)

/-- Frame format request: `struct v4l2_mbus_framefmt`. -/
structure v4l2_mbus_framefmt where
  width : Nat
  height : Nat
  code : v4l2_mbus_pixelcode
  field : v4l2_field
  colorspace : Nat
deriving DecidableEq

/-- Frame size enumeration request: `struct v4l2_frmsizeenum`. -/
structure v4l2_frmsizeenum where
  index : Nat
  pixel_format : Nat
  type : v4l2_frmsizetypes
  width : Nat
  height : Nat
deriving DecidableEq

/-- Control request: `struct v4l2_control`. -/
structure v4l2_control where
  id : v4l2_cid
  value : Int
deriving DecidableEq

/-- Control description: `struct v4l2_queryctrl`. -/
structure v4l2_queryctrl where
  id : v4l2_cid
  type : v4l2_ctrl_type
  minimum : Int
  maximum : Int
  step : Int
  default_value : Int
deriving DecidableEq

/-- Per-device state: the fields of `struct sensor_info` that gc0307.c reads
or writes.  `fmt` points into `sensor_formats` and is kept as an index. -/
structure sensor_info where
  fmt : Nat
  width : Nat
  height : Nat
  brightness : Int
  contrast : Int
  saturation : Int
  hue : Int
  hflip : Int
  vflip : Int
  gain : Int
  autogain : Int
  exp : Int
  autoexp : Int
  autowb : Int
  wb : Int
  clrfx : Int
  flash_mode : Int
  exp_bias : Int
  capture_mode : Int
deriving DecidableEq

/-- The bus helpers of sensor_helper.h, which gc0307.c calls and does not
define.  Each takes the bus state and returns its C return code (negative on
failure) and the new bus state; `sensor_read` also returns the data read. -/
structure cci (β : Type) where
  sensor_write : β → Nat → Nat → Int × β
  sensor_read : β → Nat → Int × Nat × β
  sensor_write_array : β → List regval_list → Int → Int × β

/-- What the kernel outside gc0307.c fixes: the type `v4l2_ctrl_query_fill`
gives each control and the vendor constant `V4L2_MODE_IMAGE`. -/
structure v4l2_env where
  ctrl_type : v4l2_cid → v4l2_ctrl_type
  V4L2_MODE_IMAGE : Int

/-! ## Register tables -/

/-- Register table `sensor_default_regs`. -/
def sensor_default_regs : List regval_list :=
  [⟨0xf0, 0x00⟩, ⟨0x43, 0x00⟩, ⟨0x44, 0xa2⟩, ⟨0x40, 0x10⟩, ⟨0x41, 0x00⟩, ⟨0x42, 0x10⟩,
   ⟨0x47, 0x00⟩, ⟨0x48, 0xc1⟩, ⟨0x49, 0x00⟩, ⟨0x4a, 0x00⟩, ⟨0x4b, 0x00⟩, ⟨0x4E, 0x23⟩,
   ⟨0x4F, 0x01⟩, ⟨0x01, 0x6a⟩, ⟨0x02, 0x70⟩, ⟨0x1C, 0x00⟩, ⟨0x1D, 0x00⟩, ⟨0x10, 0x00⟩,
   ⟨0x11, 0x05⟩, ⟨0x03, 0x01⟩, ⟨0x04, 0x2c⟩, ⟨0x05, 0x00⟩, ⟨0x06, 0x00⟩, ⟨0x07, 0x00⟩,
   ⟨0x08, 0x00⟩, ⟨0x09, 0x01⟩, ⟨0x0A, 0xE8⟩, ⟨0x0B, 0x02⟩, ⟨0x0C, 0x80⟩, ⟨0x0D, 0x22⟩] ++
  [⟨0x0E, 0x02⟩, ⟨0x0F, 0xb2⟩, ⟨0x12, 0x70⟩, ⟨0x13, 0x00⟩, ⟨0x14, 0x00⟩, ⟨0x15, 0xba⟩,
   ⟨0x16, 0x13⟩, ⟨0x17, 0x52⟩, ⟨0x18, 0x00⟩, ⟨0x1E, 0x0d⟩, ⟨0x1F, 0x32⟩, ⟨0x47, 0x00⟩,
   ⟨0x19, 0x06⟩, ⟨0x1a, 0x06⟩, ⟨0x31, 0x00⟩, ⟨0x3B, 0x00⟩, ⟨0x59, 0x0f⟩, ⟨0x58, 0x88⟩,
   ⟨0x57, 0x08⟩, ⟨0x56, 0x77⟩, ⟨0x35, 0xd8⟩, ⟨0x36, 0x40⟩, ⟨0x3C, 0x00⟩, ⟨0x3D, 0x00⟩,
   ⟨0x3E, 0x00⟩, ⟨0x3F, 0x00⟩, ⟨0xb5, 0x70⟩, ⟨0xb6, 0x40⟩, ⟨0xb7, 0x00⟩, ⟨0xb8, 0x38⟩] ++
  [⟨0xb9, 0xc3⟩, ⟨0xba, 0x0f⟩, ⟨0x7e, 0x45⟩, ⟨0x7f, 0x66⟩, ⟨0x5c, 0x48⟩, ⟨0x5d, 0x58⟩,
   ⟨0x61, 0x80⟩, ⟨0x63, 0x80⟩, ⟨0x65, 0x98⟩, ⟨0x67, 0x80⟩, ⟨0x68, 0x18⟩, ⟨0x69, 0x58⟩,
   ⟨0x6A, 0xf6⟩, ⟨0x6B, 0xfb⟩, ⟨0x6C, 0xf4⟩, ⟨0x6D, 0x5a⟩, ⟨0x6E, 0xe6⟩, ⟨0x6f, 0x00⟩,
   ⟨0x70, 0x14⟩, ⟨0x71, 0x1c⟩, ⟨0x72, 0x20⟩, ⟨0x73, 0x10⟩, ⟨0x74, 0x3c⟩, ⟨0x75, 0x52⟩,
   ⟨0x7d, 0x2f⟩, ⟨0x80, 0x0c⟩, ⟨0x81, 0x0c⟩, ⟨0x82, 0x44⟩, ⟨0x83, 0x18⟩, ⟨0x84, 0x18⟩] ++
  [⟨0x85, 0x04⟩, ⟨0x87, 0x34⟩, ⟨0x88, 0x04⟩, ⟨0x89, 0x01⟩, ⟨0x8a, 0x50⟩, ⟨0x8b, 0x50⟩,
   ⟨0x8c, 0x07⟩, ⟨0x50, 0x0c⟩, ⟨0x5f, 0x3c⟩, ⟨0x8e, 0x02⟩, ⟨0x86, 0x02⟩, ⟨0x51, 0x20⟩,
   ⟨0x52, 0x08⟩, ⟨0x53, 0x00⟩, ⟨0x77, 0x80⟩, ⟨0x78, 0x00⟩, ⟨0x79, 0x00⟩, ⟨0x7a, 0x00⟩,
   ⟨0x7b, 0x40⟩, ⟨0x7c, 0x00⟩, ⟨0xa0, 0x40⟩, ⟨0xa1, 0x40⟩, ⟨0xa2, 0x34⟩, ⟨0xa3, 0x32⟩,
   ⟨0xa4, 0xc8⟩, ⟨0xa5, 0x02⟩, ⟨0xa6, 0x28⟩, ⟨0xa7, 0x02⟩, ⟨0xa8, 0xee⟩, ⟨0xa9, 0x12⟩] ++
  [⟨0xaa, 0x01⟩, ⟨0xab, 0x20⟩, ⟨0xac, 0xf0⟩, ⟨0xad, 0x10⟩, ⟨0xae, 0x18⟩, ⟨0xaf, 0x74⟩,
   ⟨0xb0, 0xe0⟩, ⟨0xb1, 0x20⟩, ⟨0xb2, 0x6c⟩, ⟨0xb3, 0x40⟩, ⟨0xb4, 0x04⟩, ⟨0xbb, 0x42⟩,
   ⟨0xbc, 0x60⟩, ⟨0xbd, 0x50⟩, ⟨0xbe, 0x50⟩, ⟨0xbf, 0x0c⟩, ⟨0xc0, 0x06⟩, ⟨0xc1, 0x60⟩,
   ⟨0xc2, 0xf1⟩, ⟨0xc3, 0x40⟩, ⟨0xc4, 0x1c⟩, ⟨0xc5, 0x56⟩, ⟨0xc6, 0x1d⟩, ⟨0xca, 0x70⟩,
   ⟨0xcb, 0x70⟩, ⟨0xcc, 0x78⟩, ⟨0xcd, 0x80⟩, ⟨0xce, 0x80⟩, ⟨0xcf, 0x80⟩, ⟨0x20, 0x06⟩] ++
  [⟨0x21, 0xc0⟩, ⟨0x22, 0x40⟩, ⟨0x23, 0x88⟩, ⟨0x24, 0x96⟩, ⟨0x25, 0x30⟩, ⟨0x26, 0xd0⟩,
   ⟨0x27, 0x00⟩, ⟨0x28, 0x02⟩, ⟨0x29, 0x58⟩, ⟨0x2a, 0x02⟩, ⟨0x2b, 0x58⟩, ⟨0x2c, 0x02⟩,
   ⟨0x2d, 0x58⟩, ⟨0x2e, 0x02⟩, ⟨0x2f, 0xee⟩, ⟨0x30, 0x20⟩, ⟨0x31, 0x00⟩, ⟨0x32, 0x1c⟩,
   ⟨0x33, 0x90⟩, ⟨0x34, 0x10⟩, ⟨0xd0, 0x34⟩, ⟨0xd1, 0x50⟩, ⟨0xd2, 0x61⟩, ⟨0xd4, 0x4b⟩,
   ⟨0xd5, 0x01⟩, ⟨0xd6, 0x4b⟩, ⟨0xd7, 0x03⟩, ⟨0xd8, 0x02⟩, ⟨0xdd, 0x12⟩, ⟨0xe0, 0x03⟩] ++
  [⟨0xe1, 0x02⟩, ⟨0xe2, 0x27⟩, ⟨0xe3, 0x1e⟩, ⟨0xe8, 0x3b⟩, ⟨0xe9, 0x6e⟩, ⟨0xea, 0x2c⟩,
   ⟨0xeb, 0x50⟩, ⟨0xec, 0x73⟩, ⟨0xed, 0x00⟩, ⟨0xee, 0x00⟩, ⟨0xef, 0x00⟩, ⟨0xf0, 0x01⟩,
   ⟨0x00, 0x20⟩, ⟨0x01, 0x20⟩, ⟨0x02, 0x20⟩, ⟨0x03, 0x20⟩, ⟨0x04, 0x78⟩, ⟨0x05, 0x78⟩,
   ⟨0x06, 0x78⟩, ⟨0x07, 0x78⟩, ⟨0x10, 0x04⟩, ⟨0x11, 0x04⟩, ⟨0x12, 0x04⟩, ⟨0x13, 0x04⟩,
   ⟨0x14, 0x01⟩, ⟨0x15, 0x01⟩, ⟨0x16, 0x01⟩, ⟨0x17, 0x01⟩, ⟨0x20, 0x00⟩, ⟨0x21, 0x00⟩] ++
  [⟨0x22, 0x00⟩, ⟨0x23, 0x00⟩, ⟨0x24, 0x00⟩, ⟨0x25, 0x00⟩, ⟨0x26, 0x00⟩, ⟨0x27, 0x00⟩,
   ⟨0x40, 0x11⟩, ⟨0x45, 0x06⟩, ⟨0x46, 0x06⟩, ⟨0x47, 0x05⟩, ⟨0x48, 0x04⟩, ⟨0x49, 0x03⟩,
   ⟨0x4a, 0x03⟩, ⟨0x62, 0xd8⟩, ⟨0x63, 0x24⟩, ⟨0x64, 0x24⟩, ⟨0x65, 0x24⟩, ⟨0x66, 0xd8⟩,
   ⟨0x67, 0x24⟩, ⟨0x5a, 0x00⟩, ⟨0x5b, 0x00⟩, ⟨0x5c, 0x00⟩, ⟨0x5d, 0x00⟩, ⟨0x5e, 0x00⟩,
   ⟨0x5f, 0x00⟩, ⟨0x69, 0x03⟩, ⟨0x70, 0x5d⟩, ⟨0x71, 0xed⟩, ⟨0x72, 0xff⟩, ⟨0x73, 0xe5⟩] ++
  [⟨0x74, 0x5f⟩, ⟨0x75, 0xe6⟩, ⟨0x76, 0x41⟩, ⟨0x77, 0xef⟩, ⟨0x78, 0xff⟩, ⟨0x79, 0xff⟩,
   ⟨0x7a, 0x5f⟩, ⟨0x7b, 0xfa⟩, ⟨0x7e, 0x00⟩, ⟨0x7f, 0x30⟩, ⟨0x80, 0x48⟩, ⟨0x81, 0x06⟩,
   ⟨0x82, 0x08⟩, ⟨0x83, 0x23⟩, ⟨0x84, 0x38⟩, ⟨0x85, 0x4F⟩, ⟨0x86, 0x61⟩, ⟨0x87, 0x72⟩,
   ⟨0x88, 0x80⟩, ⟨0x89, 0x8D⟩, ⟨0x8a, 0xA2⟩, ⟨0x8b, 0xB2⟩, ⟨0x8c, 0xC0⟩, ⟨0x8d, 0xCA⟩,
   ⟨0x8e, 0xD3⟩, ⟨0x8f, 0xDB⟩, ⟨0x90, 0xE2⟩, ⟨0x91, 0xED⟩, ⟨0x92, 0xF6⟩, ⟨0x93, 0xFD⟩] ++
  [⟨0x94, 0x04⟩, ⟨0x95, 0x0E⟩, ⟨0x96, 0x1B⟩, ⟨0x97, 0x28⟩, ⟨0x98, 0x35⟩, ⟨0x99, 0x41⟩,
   ⟨0x9a, 0x4E⟩, ⟨0x9b, 0x67⟩, ⟨0x9c, 0x7E⟩, ⟨0x9d, 0x94⟩, ⟨0x9e, 0xA7⟩, ⟨0x9f, 0xBA⟩,
   ⟨0xa0, 0xC8⟩, ⟨0xa1, 0xD4⟩, ⟨0xa2, 0xE7⟩, ⟨0xa3, 0xF4⟩, ⟨0xa4, 0xFA⟩, ⟨0xf0, 0x00⟩,
   ⟨0x40, 0x7e⟩, ⟨0x41, 0x2f⟩, ⟨0x43, 0x40⟩, ⟨0x44, 0xE2⟩, ⟨0x0f, 0x82⟩, ⟨0x45, 0x24⟩,
   ⟨0x47, 0x20⟩]

/-- Register table `sensor_oe_disable`. -/
def sensor_oe_disable : List regval_list :=
  [⟨0xf0, 0x00⟩, ⟨0x44, 0xA2⟩]

/-- Register table `sensor_wb_manual`. -/
def sensor_wb_manual : List regval_list :=
  []

/-- Register table `sensor_wb_auto_regs`. -/
def sensor_wb_auto_regs : List regval_list :=
  [⟨0xf0, 0x00⟩, ⟨0xc7, 0x4c⟩, ⟨0xc8, 0x40⟩, ⟨0xc9, 0x4a⟩]

/-- Register table `sensor_wb_incandescence_regs`. -/
def sensor_wb_incandescence_regs : List regval_list :=
  [⟨0xf0, 0x00⟩, ⟨0xc7, 0x48⟩, ⟨0xc8, 0x40⟩, ⟨0xc9, 0x5c⟩]

/-- Register table `sensor_wb_fluorescent_regs`. -/
def sensor_wb_fluorescent_regs : List regval_list :=
  [⟨0xf0, 0x00⟩, ⟨0xc7, 0x40⟩, ⟨0xc8, 0x42⟩, ⟨0xc9, 0x50⟩]

/-- Register table `sensor_wb_tungsten_regs`. -/
def sensor_wb_tungsten_regs : List regval_list :=
  [⟨0xf0, 0x00⟩, ⟨0xc7, 0x40⟩, ⟨0xc8, 0x54⟩, ⟨0xc9, 0x70⟩]

/-- Register table `sensor_wb_horizon`. -/
def sensor_wb_horizon : List regval_list :=
  []

/-- Register table `sensor_wb_daylight_regs`. -/
def sensor_wb_daylight_regs : List regval_list :=
  [⟨0xf0, 0x00⟩, ⟨0xc7, 0x50⟩, ⟨0xc8, 0x45⟩, ⟨0xc9, 0x40⟩]

/-- Register table `sensor_wb_flash`. -/
def sensor_wb_flash : List regval_list :=
  []

/-- Register table `sensor_wb_cloud_regs`. -/
def sensor_wb_cloud_regs : List regval_list :=
  [⟨0xf0, 0x00⟩, ⟨0xc7, 0x5a⟩, ⟨0xc8, 0x42⟩, ⟨0xc9, 0x40⟩]

/-- Register table `sensor_wb_shade`. -/
def sensor_wb_shade : List regval_list :=
  []

/-- Preset table `sensor_wb`, one entry per value of the control. -/
def sensor_wb : List cfg_array :=
  [{ regs := sensor_wb_manual, size := ARRAY_SIZE sensor_wb_manual },
   { regs := sensor_wb_auto_regs, size := ARRAY_SIZE sensor_wb_auto_regs },
   { regs := sensor_wb_incandescence_regs, size := ARRAY_SIZE sensor_wb_incandescence_regs },
   { regs := sensor_wb_fluorescent_regs, size := ARRAY_SIZE sensor_wb_fluorescent_regs },
   { regs := sensor_wb_tungsten_regs, size := ARRAY_SIZE sensor_wb_tungsten_regs },
   { regs := sensor_wb_horizon, size := ARRAY_SIZE sensor_wb_horizon },
   { regs := sensor_wb_daylight_regs, size := ARRAY_SIZE sensor_wb_daylight_regs },
   { regs := sensor_wb_flash, size := ARRAY_SIZE sensor_wb_flash },
   { regs := sensor_wb_cloud_regs, size := ARRAY_SIZE sensor_wb_cloud_regs },
   { regs := sensor_wb_shade, size := ARRAY_SIZE sensor_wb_shade }]

/-- Register table `sensor_colorfx_none_regs`. -/
def sensor_colorfx_none_regs : List regval_list :=
  [⟨0xf0, 0x00⟩, ⟨0x41, 0x2f⟩, ⟨0x40, 0x7e⟩, ⟨0x42, 0x10⟩, ⟨0x47, 0x2c⟩, ⟨0x48, 0xc3⟩,
   ⟨0x8a, 0x50⟩, ⟨0x8b, 0x50⟩, ⟨0x8c, 0x07⟩, ⟨0x50, 0x0c⟩, ⟨0x77, 0x80⟩, ⟨0xa1, 0x40⟩,
   ⟨0x7a, 0x00⟩, ⟨0x78, 0x00⟩, ⟨0x79, 0x00⟩, ⟨0x7b, 0x40⟩, ⟨0x7c, 0x00⟩]

/-- Register table `sensor_colorfx_bw_regs`. -/
def sensor_colorfx_bw_regs : List regval_list :=
  [⟨0xf0, 0x00⟩, ⟨0x41, 0x2f⟩, ⟨0x40, 0x7e⟩, ⟨0x42, 0x10⟩, ⟨0x47, 0x3c⟩, ⟨0x48, 0xc3⟩,
   ⟨0x8a, 0x60⟩, ⟨0x8b, 0x60⟩, ⟨0x8c, 0x07⟩, ⟨0x50, 0x0c⟩, ⟨0x77, 0x80⟩, ⟨0xa1, 0x40⟩,
   ⟨0x7a, 0x00⟩, ⟨0x78, 0x00⟩, ⟨0x79, 0x00⟩, ⟨0x7b, 0x40⟩, ⟨0x7c, 0x00⟩]

/-- Register table `sensor_colorfx_sepia_regs`. -/
def sensor_colorfx_sepia_regs : List regval_list :=
  [⟨0xf0, 0x00⟩, ⟨0x41, 0x2f⟩, ⟨0x40, 0x7e⟩, ⟨0x42, 0x10⟩, ⟨0x47, 0x3c⟩, ⟨0x48, 0xc3⟩,
   ⟨0x8a, 0x60⟩, ⟨0x8b, 0x60⟩, ⟨0x8c, 0x07⟩, ⟨0x50, 0x0c⟩, ⟨0x77, 0x80⟩, ⟨0xa1, 0x40⟩,
   ⟨0x7a, 0x00⟩, ⟨0x78, 0xc0⟩, ⟨0x79, 0x20⟩, ⟨0x7b, 0x40⟩, ⟨0x7c, 0x00⟩]

/-- Register table `sensor_colorfx_negative_regs`. -/
def sensor_colorfx_negative_regs : List regval_list :=
  [⟨0xf0, 0x00⟩, ⟨0x41, 0x6f⟩, ⟨0x40, 0x7e⟩, ⟨0x42, 0x10⟩, ⟨0x47, 0x20⟩, ⟨0x48, 0xc3⟩,
   ⟨0x8a, 0x60⟩, ⟨0x8b, 0x60⟩, ⟨0x8c, 0x07⟩, ⟨0x50, 0x0c⟩, ⟨0x77, 0x80⟩, ⟨0xa1, 0x40⟩,
   ⟨0x7a, 0x00⟩, ⟨0x78, 0x00⟩, ⟨0x79, 0x00⟩, ⟨0x7b, 0x40⟩, ⟨0x7c, 0x00⟩, ⟨0x41, 0x6f⟩]

/-- Register table `sensor_colorfx_emboss_regs`. -/
def sensor_colorfx_emboss_regs : List regval_list :=
  []

/-- Register table `sensor_colorfx_sketch_regs`. -/
def sensor_colorfx_sketch_regs : List regval_list :=
  [⟨0xf0, 0x00⟩, ⟨0x41, 0x2f⟩, ⟨0x40, 0x7e⟩, ⟨0x42, 0x10⟩, ⟨0x47, 0x3c⟩, ⟨0x48, 0xc3⟩,
   ⟨0x8a, 0x60⟩, ⟨0x8b, 0x60⟩, ⟨0x8c, 0x07⟩, ⟨0x50, 0x0c⟩, ⟨0x77, 0x80⟩, ⟨0xa1, 0x40⟩,
   ⟨0x7a, 0x00⟩, ⟨0x78, 0x00⟩, ⟨0x79, 0x00⟩, ⟨0x7b, 0x40⟩, ⟨0x7c, 0x00⟩]

/-- Register table `sensor_colorfx_sky_blue_regs`. -/
def sensor_colorfx_sky_blue_regs : List regval_list :=
  [⟨0xf0, 0x00⟩, ⟨0x41, 0x2f⟩, ⟨0x40, 0x7e⟩, ⟨0x42, 0x10⟩, ⟨0x47, 0x2c⟩, ⟨0x48, 0xc3⟩,
   ⟨0x8a, 0x60⟩, ⟨0x8b, 0x60⟩, ⟨0x8c, 0x07⟩, ⟨0x50, 0x0c⟩, ⟨0x77, 0x80⟩, ⟨0xa1, 0x40⟩,
   ⟨0x7a, 0x00⟩, ⟨0x78, 0x70⟩, ⟨0x79, 0x00⟩, ⟨0x7b, 0x3f⟩, ⟨0x7c, 0xf5⟩]

/-- Register table `sensor_colorfx_grass_green_regs`. -/
def sensor_colorfx_grass_green_regs : List regval_list :=
  [⟨0xf0, 0x00⟩, ⟨0x41, 0x2f⟩, ⟨0x40, 0x7e⟩, ⟨0x42, 0x10⟩, ⟨0x47, 0x3c⟩, ⟨0x48, 0xc3⟩,
   ⟨0x8a, 0x60⟩, ⟨0x8b, 0x60⟩, ⟨0x8c, 0x07⟩, ⟨0x50, 0x0c⟩, ⟨0x77, 0x80⟩, ⟨0xa1, 0x40⟩,
   ⟨0x7a, 0x00⟩, ⟨0x78, 0xc0⟩, ⟨0x79, 0xc0⟩, ⟨0x7b, 0x40⟩, ⟨0x7c, 0x00⟩]

/-- Register table `sensor_colorfx_skin_whiten_regs`. -/
def sensor_colorfx_skin_whiten_regs : List regval_list :=
  []

/-- Register table `sensor_colorfx_vivid_regs`. -/
def sensor_colorfx_vivid_regs : List regval_list :=
  []

/-- Register table `sensor_colorfx_aqua_regs`. -/
def sensor_colorfx_aqua_regs : List regval_list :=
  []

/-- Register table `sensor_colorfx_art_freeze_regs`. -/
def sensor_colorfx_art_freeze_regs : List regval_list :=
  []

/-- Register table `sensor_colorfx_silhouette_regs`. -/
def sensor_colorfx_silhouette_regs : List regval_list :=
  []

/-- Register table `sensor_colorfx_solarization_regs`. -/
def sensor_colorfx_solarization_regs : List regval_list :=
  []

/-- Register table `sensor_colorfx_antique_regs`. -/
def sensor_colorfx_antique_regs : List regval_list :=
  []

/-- Register table `sensor_colorfx_set_cbcr_regs`. -/
def sensor_colorfx_set_cbcr_regs : List regval_list :=
  []

/-- Preset table `sensor_colorfx`, one entry per value of the control. -/
def sensor_colorfx : List cfg_array :=
  [{ regs := sensor_colorfx_none_regs, size := ARRAY_SIZE sensor_colorfx_none_regs },
   { regs := sensor_colorfx_bw_regs, size := ARRAY_SIZE sensor_colorfx_bw_regs },
   { regs := sensor_colorfx_sepia_regs, size := ARRAY_SIZE sensor_colorfx_sepia_regs },
   { regs := sensor_colorfx_negative_regs, size := ARRAY_SIZE sensor_colorfx_negative_regs },
   { regs := sensor_colorfx_emboss_regs, size := ARRAY_SIZE sensor_colorfx_emboss_regs },
   { regs := sensor_colorfx_sketch_regs, size := ARRAY_SIZE sensor_colorfx_sketch_regs },
   { regs := sensor_colorfx_sky_blue_regs, size := ARRAY_SIZE sensor_colorfx_sky_blue_regs },
   { regs := sensor_colorfx_grass_green_regs, size := ARRAY_SIZE sensor_colorfx_grass_green_regs },
   { regs := sensor_colorfx_skin_whiten_regs, size := ARRAY_SIZE sensor_colorfx_skin_whiten_regs },
   { regs := sensor_colorfx_vivid_regs, size := ARRAY_SIZE sensor_colorfx_vivid_regs },
   { regs := sensor_colorfx_aqua_regs, size := ARRAY_SIZE sensor_colorfx_aqua_regs },
   { regs := sensor_colorfx_art_freeze_regs, size := ARRAY_SIZE sensor_colorfx_art_freeze_regs },
   { regs := sensor_colorfx_silhouette_regs, size := ARRAY_SIZE sensor_colorfx_silhouette_regs },
   { regs := sensor_colorfx_solarization_regs, size := ARRAY_SIZE sensor_colorfx_solarization_regs },
   { regs := sensor_colorfx_antique_regs, size := ARRAY_SIZE sensor_colorfx_antique_regs },
   { regs := sensor_colorfx_set_cbcr_regs, size := ARRAY_SIZE sensor_colorfx_set_cbcr_regs }]

/-- Register table `sensor_brightness_neg4_regs`. -/
def sensor_brightness_neg4_regs : List regval_list :=
  []

/-- Register table `sensor_brightness_neg3_regs`. -/
def sensor_brightness_neg3_regs : List regval_list :=
  []

/-- Register table `sensor_brightness_neg2_regs`. -/
def sensor_brightness_neg2_regs : List regval_list :=
  []

/-- Register table `sensor_brightness_neg1_regs`. -/
def sensor_brightness_neg1_regs : List regval_list :=
  []

/-- Register table `sensor_brightness_zero_regs`. -/
def sensor_brightness_zero_regs : List regval_list :=
  []

/-- Register table `sensor_brightness_pos1_regs`. -/
def sensor_brightness_pos1_regs : List regval_list :=
  []

/-- Register table `sensor_brightness_pos2_regs`. -/
def sensor_brightness_pos2_regs : List regval_list :=
  []

/-- Register table `sensor_brightness_pos3_regs`. -/
def sensor_brightness_pos3_regs : List regval_list :=
  []

/-- Register table `sensor_brightness_pos4_regs`. -/
def sensor_brightness_pos4_regs : List regval_list :=
  []

/-- Preset table `sensor_brightness`, one entry per value of the control. -/
def sensor_brightness : List cfg_array :=
  [{ regs := sensor_brightness_neg4_regs, size := ARRAY_SIZE sensor_brightness_neg4_regs },
   { regs := sensor_brightness_neg3_regs, size := ARRAY_SIZE sensor_brightness_neg3_regs },
   { regs := sensor_brightness_neg2_regs, size := ARRAY_SIZE sensor_brightness_neg2_regs },
   { regs := sensor_brightness_neg1_regs, size := ARRAY_SIZE sensor_brightness_neg1_regs },
   { regs := sensor_brightness_zero_regs, size := ARRAY_SIZE sensor_brightness_zero_regs },
   { regs := sensor_brightness_pos1_regs, size := ARRAY_SIZE sensor_brightness_pos1_regs },
   { regs := sensor_brightness_pos2_regs, size := ARRAY_SIZE sensor_brightness_pos2_regs },
   { regs := sensor_brightness_pos3_regs, size := ARRAY_SIZE sensor_brightness_pos3_regs },
   { regs := sensor_brightness_pos4_regs, size := ARRAY_SIZE sensor_brightness_pos4_regs }]

/-- Register table `sensor_contrast_neg4_regs`. -/
def sensor_contrast_neg4_regs : List regval_list :=
  []

/-- Register table `sensor_contrast_neg3_regs`. -/
def sensor_contrast_neg3_regs : List regval_list :=
  []

/-- Register table `sensor_contrast_neg2_regs`. -/
def sensor_contrast_neg2_regs : List regval_list :=
  []

/-- Register table `sensor_contrast_neg1_regs`. -/
def sensor_contrast_neg1_regs : List regval_list :=
  []

/-- Register table `sensor_contrast_zero_regs`. -/
def sensor_contrast_zero_regs : List regval_list :=
  []

/-- Register table `sensor_contrast_pos1_regs`. -/
def sensor_contrast_pos1_regs : List regval_list :=
  []

/-- Register table `sensor_contrast_pos2_regs`. -/
def sensor_contrast_pos2_regs : List regval_list :=
  []

/-- Register table `sensor_contrast_pos3_regs`. -/
def sensor_contrast_pos3_regs : List regval_list :=
  []

/-- Register table `sensor_contrast_pos4_regs`. -/
def sensor_contrast_pos4_regs : List regval_list :=
  []

/-- Preset table `sensor_contrast`, one entry per value of the control. -/
def sensor_contrast : List cfg_array :=
  [{ regs := sensor_contrast_neg4_regs, size := ARRAY_SIZE sensor_contrast_neg4_regs },
   { regs := sensor_contrast_neg3_regs, size := ARRAY_SIZE sensor_contrast_neg3_regs },
   { regs := sensor_contrast_neg2_regs, size := ARRAY_SIZE sensor_contrast_neg2_regs },
   { regs := sensor_contrast_neg1_regs, size := ARRAY_SIZE sensor_contrast_neg1_regs },
   { regs := sensor_contrast_zero_regs, size := ARRAY_SIZE sensor_contrast_zero_regs },
   { regs := sensor_contrast_pos1_regs, size := ARRAY_SIZE sensor_contrast_pos1_regs },
   { regs := sensor_contrast_pos2_regs, size := ARRAY_SIZE sensor_contrast_pos2_regs },
   { regs := sensor_contrast_pos3_regs, size := ARRAY_SIZE sensor_contrast_pos3_regs },
   { regs := sensor_contrast_pos4_regs, size := ARRAY_SIZE sensor_contrast_pos4_regs }]

/-- Register table `sensor_saturation_neg4_regs`. -/
def sensor_saturation_neg4_regs : List regval_list :=
  []

/-- Register table `sensor_saturation_neg3_regs`. -/
def sensor_saturation_neg3_regs : List regval_list :=
  []

/-- Register table `sensor_saturation_neg2_regs`. -/
def sensor_saturation_neg2_regs : List regval_list :=
  []

/-- Register table `sensor_saturation_neg1_regs`. -/
def sensor_saturation_neg1_regs : List regval_list :=
  []

/-- Register table `sensor_saturation_zero_regs`. -/
def sensor_saturation_zero_regs : List regval_list :=
  []

/-- Register table `sensor_saturation_pos1_regs`. -/
def sensor_saturation_pos1_regs : List regval_list :=
  []

/-- Register table `sensor_saturation_pos2_regs`. -/
def sensor_saturation_pos2_regs : List regval_list :=
  []

/-- Register table `sensor_saturation_pos3_regs`. -/
def sensor_saturation_pos3_regs : List regval_list :=
  []

/-- Register table `sensor_saturation_pos4_regs`. -/
def sensor_saturation_pos4_regs : List regval_list :=
  []

/-- Preset table `sensor_saturation`, one entry per value of the control. -/
def sensor_saturation : List cfg_array :=
  [{ regs := sensor_saturation_neg4_regs, size := ARRAY_SIZE sensor_saturation_neg4_regs },
   { regs := sensor_saturation_neg3_regs, size := ARRAY_SIZE sensor_saturation_neg3_regs },
   { regs := sensor_saturation_neg2_regs, size := ARRAY_SIZE sensor_saturation_neg2_regs },
   { regs := sensor_saturation_neg1_regs, size := ARRAY_SIZE sensor_saturation_neg1_regs },
   { regs := sensor_saturation_zero_regs, size := ARRAY_SIZE sensor_saturation_zero_regs },
   { regs := sensor_saturation_pos1_regs, size := ARRAY_SIZE sensor_saturation_pos1_regs },
   { regs := sensor_saturation_pos2_regs, size := ARRAY_SIZE sensor_saturation_pos2_regs },
   { regs := sensor_saturation_pos3_regs, size := ARRAY_SIZE sensor_saturation_pos3_regs },
   { regs := sensor_saturation_pos4_regs, size := ARRAY_SIZE sensor_saturation_pos4_regs }]

/-- Register table `sensor_ev_neg4_regs`. -/
def sensor_ev_neg4_regs : List regval_list :=
  [⟨0xf0, 0x00⟩, ⟨0x7a, 0x00⟩, ⟨0xd1, 0x50⟩]

/-- Register table `sensor_ev_neg3_regs`. -/
def sensor_ev_neg3_regs : List regval_list :=
  [⟨0xf0, 0x00⟩, ⟨0x7a, 0xd0⟩, ⟨0xd1, 0x38⟩]

/-- Register table `sensor_ev_neg2_regs`. -/
def sensor_ev_neg2_regs : List regval_list :=
  [⟨0xf0, 0x00⟩, ⟨0x7a, 0xe0⟩, ⟨0xd1, 0x40⟩]

/-- Register table `sensor_ev_neg1_regs`. -/
def sensor_ev_neg1_regs : List regval_list :=
  [⟨0xf0, 0x00⟩, ⟨0x7a, 0xf0⟩, ⟨0xd1, 0x48⟩]

/-- Register table `sensor_ev_zero_regs`. -/
def sensor_ev_zero_regs : List regval_list :=
  [⟨0xf0, 0x00⟩, ⟨0x7a, 0x00⟩, ⟨0xd1, 0x50⟩]

/-- Register table `sensor_ev_pos1_regs`. -/
def sensor_ev_pos1_regs : List regval_list :=
  [⟨0xf0, 0x00⟩, ⟨0x7a, 0x00⟩, ⟨0xd1, 0x50⟩]

/-- Register table `sensor_ev_pos2_regs`. -/
def sensor_ev_pos2_regs : List regval_list :=
  [⟨0xf0, 0x00⟩, ⟨0x7a, 0x20⟩, ⟨0xd1, 0x58⟩]

/-- Register table `sensor_ev_pos3_regs`. -/
def sensor_ev_pos3_regs : List regval_list :=
  [⟨0xf0, 0x00⟩, ⟨0x7a, 0x30⟩, ⟨0xd1, 0x60⟩]

/-- Register table `sensor_ev_pos4_regs`. -/
def sensor_ev_pos4_regs : List regval_list :=
  [⟨0xf0, 0x00⟩, ⟨0x7a, 0x40⟩, ⟨0xd1, 0x68⟩]

/-- Preset table `sensor_ev`, one entry per value of the control. -/
def sensor_ev : List cfg_array :=
  [{ regs := sensor_ev_neg4_regs, size := ARRAY_SIZE sensor_ev_neg4_regs },
   { regs := sensor_ev_neg3_regs, size := ARRAY_SIZE sensor_ev_neg3_regs },
   { regs := sensor_ev_neg2_regs, size := ARRAY_SIZE sensor_ev_neg2_regs },
   { regs := sensor_ev_neg1_regs, size := ARRAY_SIZE sensor_ev_neg1_regs },
   { regs := sensor_ev_zero_regs, size := ARRAY_SIZE sensor_ev_zero_regs },
   { regs := sensor_ev_pos1_regs, size := ARRAY_SIZE sensor_ev_pos1_regs },
   { regs := sensor_ev_pos2_regs, size := ARRAY_SIZE sensor_ev_pos2_regs },
   { regs := sensor_ev_pos3_regs, size := ARRAY_SIZE sensor_ev_pos3_regs },
   { regs := sensor_ev_pos4_regs, size := ARRAY_SIZE sensor_ev_pos4_regs }]

/-- Register table `sensor_fmt_yuv422_yuyv`. -/
def sensor_fmt_yuv422_yuyv : List regval_list :=
  [⟨0xf0, 0x00⟩, ⟨0x44, 0xE2⟩]

/-- Register table `sensor_fmt_yuv422_yvyu`. -/
def sensor_fmt_yuv422_yvyu : List regval_list :=
  [⟨0xf0, 0x00⟩, ⟨0x44, 0xE3⟩]

/-- Register table `sensor_fmt_yuv422_vyuy`. -/
def sensor_fmt_yuv422_vyuy : List regval_list :=
  [⟨0xf0, 0x00⟩, ⟨0x44, 0xE1⟩]

/-- Register table `sensor_fmt_yuv422_uyvy`. -/
def sensor_fmt_yuv422_uyvy : List regval_list :=
  [⟨0xf0, 0x00⟩, ⟨0x44, 0xE0⟩]

/-! ## Control getters and setters -/

/-- C `sensor_g_hflip`: select page 0, read register 0x0f, report bit 4 and
cache it in `info->hflip`.  `value` is the caller's `*value` on entry. -/
def sensor_g_hflip {β : Type} (B : cci β) (value : Int) (info : sensor_info) (b : β) :
    Int × Int × sensor_info × β :=
  let w := B.sensor_write b 0xf0 0x00
  if w.1 < 0 then (w.1, value, info, w.2) else
  let r := B.sensor_read w.2 0x0f
  if r.1 < 0 then (r.1, value, info, r.2.2) else
  let val : Nat := (r.2.1 &&& (1 <<< 4)) >>> 4
  (0, (val : Int), { info with hflip := (val : Int) }, r.2.2)

/-- The three register writes that end `sensor_s_hflip` and `sensor_s_vflip`,
followed by the update of the cached flag (`is_h` selects `info->hflip`). -/
def sensor_s_flip_commit {β : Type} (B : cci β) (is_h : Bool) (value : Int)
    (R0f R45 R47 : Nat) (info : sensor_info) (b : β) : Int × sensor_info × β :=
  let w1 := B.sensor_write b 0x0f R0f
  if w1.1 < 0 then (w1.1, info, w1.2) else
  let w2 := B.sensor_write w1.2 0x45 R45
  if w2.1 < 0 then (w2.1, info, w2.2) else
  let w3 := B.sensor_write w2.2 0x47 R47
  if w3.1 < 0 then (w3.1, info, w3.2) else
  (0, (if is_h then { info with hflip := value } else { info with vflip := value }), w3.2)

/-- C `sensor_s_hflip`: read-modify-write of bit 4 of 0x0f, bit 0 of 0x45 and
bit 2 of 0x47. -/
def sensor_s_hflip {β : Type} (B : cci β) (value : Int) (info : sensor_info) (b : β) :
    Int × sensor_info × β :=
  let w := B.sensor_write b 0xf0 0x00
  if w.1 < 0 then (w.1, info, w.2) else
  let r1 := B.sensor_read w.2 0x0f
  if r1.1 < 0 then (r1.1, info, r1.2.2) else
  let r2 := B.sensor_read r1.2.2 0x45
  if r2.1 < 0 then (r2.1, info, r2.2.2) else
  let r3 := B.sensor_read r2.2.2 0x47
  if r3.1 < 0 then (r3.1, info, r3.2.2) else
  if value = 0 then
    sensor_s_flip_commit B true value (r1.2.1 &&& 0xef) (r2.2.1 &&& 0xfe) (r3.2.1 &&& 0xfb)
      info r3.2.2
  else if value = 1 then
    sensor_s_flip_commit B true value (r1.2.1 ||| 0x10) (r2.2.1 ||| 0x01) (r3.2.1 ||| 0x04)
      info r3.2.2
  else (-EINVAL, info, r3.2.2)

/-- C `sensor_g_vflip`: select page 0, read register 0x0f, report bit 5 and
cache it in `info->vflip`. -/
def sensor_g_vflip {β : Type} (B : cci β) (value : Int) (info : sensor_info) (b : β) :
    Int × Int × sensor_info × β :=
  let w := B.sensor_write b 0xf0 0x00
  if w.1 < 0 then (w.1, value, info, w.2) else
  let r := B.sensor_read w.2 0x0f
  if r.1 < 0 then (r.1, value, info, r.2.2) else
  let val : Nat := (r.2.1 &&& (1 <<< 5)) >>> 5
  (0, (val : Int), { info with vflip := (val : Int) }, r.2.2)

/-- C `sensor_s_vflip`: read-modify-write of bit 5 of 0x0f, bit 1 of 0x45 and
bit 3 of 0x47. -/
def sensor_s_vflip {β : Type} (B : cci β) (value : Int) (info : sensor_info) (b : β) :
    Int × sensor_info × β :=
  let w := B.sensor_write b 0xf0 0x00
  if w.1 < 0 then (w.1, info, w.2) else
  let r1 := B.sensor_read w.2 0x0f
  if r1.1 < 0 then (r1.1, info, r1.2.2) else
  let r2 := B.sensor_read r1.2.2 0x45
  if r2.1 < 0 then (r2.1, info, r2.2.2) else
  let r3 := B.sensor_read r2.2.2 0x47
  if r3.1 < 0 then (r3.1, info, r3.2.2) else
  if value = 0 then
    sensor_s_flip_commit B false value (r1.2.1 &&& 0xdf) (r2.2.1 &&& 0xfd) (r3.2.1 &&& 0xf7)
      info r3.2.2
  else if value = 1 then
    sensor_s_flip_commit B false value (r1.2.1 ||| 0x20) (r2.2.1 ||| 0x02) (r3.2.1 ||| 0x08)
      info r3.2.2
  else (-EINVAL, info, r3.2.2)

/-- C `sensor_g_autogain`. -/
def sensor_g_autogain {β : Type} (value : Int) (info : sensor_info) (b : β) :
    Int × Int × sensor_info × β :=
  (-EINVAL, value, info, b)

/-- C `sensor_s_autogain`. -/
def sensor_s_autogain {β : Type} (_value : Int) (info : sensor_info) (b : β) :
    Int × sensor_info × β :=
  (-EINVAL, info, b)

/-- C `sensor_g_autoexp`: write 0 to register 0xfe, read 0x41 and report
whether bit 3 is set. -/
def sensor_g_autoexp {β : Type} (B : cci β) (value : Int) (info : sensor_info) (b : β) :
    Int × Int × sensor_info × β :=
  let w := B.sensor_write b 0xfe 0x00
  if w.1 < 0 then (w.1, value, info, w.2) else
  let r := B.sensor_read w.2 0x41
  if r.1 < 0 then (r.1, value, info, r.2.2) else
  let val : Nat := r.2.1 &&& 0x08
  let v : Int := if val = 0x08 then V4L2_EXPOSURE_AUTO else V4L2_EXPOSURE_MANUAL
  (0, v, { info with autoexp := v }, r.2.2)

/-- C `sensor_s_autoexp`: read-modify-write of bit 3 of register 0x41. -/
def sensor_s_autoexp {β : Type} (B : cci β) (value : Int) (info : sensor_info) (b : β) :
    Int × sensor_info × β :=
  let w := B.sensor_write b 0xfe 0x00
  if w.1 < 0 then (w.1, info, w.2) else
  let r := B.sensor_read w.2 0x41
  if r.1 < 0 then (r.1, info, r.2.2) else
  if value = V4L2_EXPOSURE_AUTO ∨ value = V4L2_EXPOSURE_MANUAL then
    let val : Nat := if value = V4L2_EXPOSURE_AUTO then r.2.1 ||| 0x08 else r.2.1 &&& 0xf7
    let w2 := B.sensor_write r.2.2 0x41 val
    if w2.1 < 0 then (w2.1, info, w2.2) else
    (0, { info with autoexp := value }, w2.2)
  else (-EINVAL, info, r.2.2)

/-- C `sensor_g_autowb`: write 0 to register 0xfe, read 0x41 and report bit 2. -/
def sensor_g_autowb {β : Type} (B : cci β) (value : Int) (info : sensor_info) (b : β) :
    Int × Int × sensor_info × β :=
  let w := B.sensor_write b 0xfe 0x00
  if w.1 < 0 then (w.1, value, info, w.2) else
  let r := B.sensor_read w.2 0x41
  if r.1 < 0 then (r.1, value, info, r.2.2) else
  let val : Nat := (r.2.1 &&& (1 <<< 2)) >>> 2
  (0, (val : Int), { info with autowb := (val : Int) }, r.2.2)

/-- C `sensor_s_autowb`: write the auto white-balance gains, then
read-modify-write bit 2 of register 0x41. -/
def sensor_s_autowb {β : Type} (B : cci β) (value : Int) (info : sensor_info) (b : β) :
    Int × sensor_info × β :=
  let a := B.sensor_write_array b sensor_wb_auto_regs (ARRAY_SIZE sensor_wb_auto_regs)
  if a.1 < 0 then (a.1, info, a.2) else
  let w := B.sensor_write a.2 0xf0 0x00
  if w.1 < 0 then (w.1, info, w.2) else
  let r := B.sensor_read w.2 0x41
  if r.1 < 0 then (r.1, info, r.2.2) else
  let val : Nat :=
    if value = 0 then r.2.1 &&& 0xfb else if value = 1 then r.2.1 ||| 0x04 else r.2.1
  let w2 := B.sensor_write r.2.2 0x41 val
  if w2.1 < 0 then (w2.1, info, w2.2) else
  (0, { info with autowb := value }, w2.2)

/-- C `sensor_g_hue`. -/
def sensor_g_hue {β : Type} (value : Int) (info : sensor_info) (b : β) :
    Int × Int × sensor_info × β :=
  (-EINVAL, value, info, b)

/-- C `sensor_s_hue`. -/
def sensor_s_hue {β : Type} (_value : Int) (info : sensor_info) (b : β) :
    Int × sensor_info × β :=
  (-EINVAL, info, b)

/-- C `sensor_g_gain`. -/
def sensor_g_gain {β : Type} (value : Int) (info : sensor_info) (b : β) :
    Int × Int × sensor_info × β :=
  (-EINVAL, value, info, b)

/-- C `sensor_s_gain`. -/
def sensor_s_gain {β : Type} (_value : Int) (info : sensor_info) (b : β) :
    Int × sensor_info × β :=
  (-EINVAL, info, b)

/-- The C expression `tbl[i]` for a preset table: `none` (undefined
behaviour) when `i` is outside the array. -/
def cfg_index (tbl : List cfg_array) (i : Int) : Option cfg_array :=
  if i < 0 then none else tbl[i.toNat]?

/-- C `sensor_g_brightness`. -/
def sensor_g_brightness {β : Type} (_value : Int) (info : sensor_info) (b : β) :
    Int × Int × sensor_info × β :=
  (0, info.brightness, info, b)

/-- C `sensor_s_brightness`. -/
def sensor_s_brightness {β : Type} (B : cci β) (value : Int) (info : sensor_info) (b : β) :
    Option (Int × sensor_info × β) :=
  if info.brightness = value then some (0, info, b) else
  if value < -4 ∨ value > 4 then some (-ERANGE, info, b) else
  match cfg_index sensor_brightness (value + 4) with
  | none => none
  | some c =>
    let a := B.sensor_write_array b c.regs c.size
    if a.1 < 0 then some (a.1, info, a.2) else
    some (0, { info with brightness := value }, a.2)

/-- C `sensor_g_contrast`. -/
def sensor_g_contrast {β : Type} (_value : Int) (info : sensor_info) (b : β) :
    Int × Int × sensor_info × β :=
  (0, info.contrast, info, b)

/-- C `sensor_s_contrast`. -/
def sensor_s_contrast {β : Type} (B : cci β) (value : Int) (info : sensor_info) (b : β) :
    Option (Int × sensor_info × β) :=
  if info.contrast = value then some (0, info, b) else
  if value < -4 ∨ value > 4 then some (-ERANGE, info, b) else
  match cfg_index sensor_contrast (value + 4) with
  | none => none
  | some c =>
    let a := B.sensor_write_array b c.regs c.size
    if a.1 < 0 then some (a.1, info, a.2) else
    some (0, { info with contrast := value }, a.2)

/-- C `sensor_g_saturation`. -/
def sensor_g_saturation {β : Type} (_value : Int) (info : sensor_info) (b : β) :
    Int × Int × sensor_info × β :=
  (0, info.saturation, info, b)

/-- C `sensor_s_saturation`. -/
def sensor_s_saturation {β : Type} (B : cci β) (value : Int) (info : sensor_info) (b : β) :
    Option (Int × sensor_info × β) :=
  if info.saturation = value then some (0, info, b) else
  if value < -4 ∨ value > 4 then some (-ERANGE, info, b) else
  match cfg_index sensor_saturation (value + 4) with
  | none => none
  | some c =>
    let a := B.sensor_write_array b c.regs c.size
    if a.1 < 0 then some (a.1, info, a.2) else
    some (0, { info with saturation := value }, a.2)

/-- C `sensor_g_exp_bias`. -/
def sensor_g_exp_bias {β : Type} (_value : Int) (info : sensor_info) (b : β) :
    Int × Int × sensor_info × β :=
  (0, info.exp_bias, info, b)

/-- C `sensor_s_exp_bias`. -/
def sensor_s_exp_bias {β : Type} (B : cci β) (value : Int) (info : sensor_info) (b : β) :
    Option (Int × sensor_info × β) :=
  if info.exp_bias = value then some (0, info, b) else
  if value < -4 ∨ value > 4 then some (-ERANGE, info, b) else
  match cfg_index sensor_ev (value + 4) with
  | none => none
  | some c =>
    let a := B.sensor_write_array b c.regs c.size
    if a.1 < 0 then some (a.1, info, a.2) else
    some (0, { info with exp_bias := value }, a.2)

/-- C `sensor_g_wb`. -/
def sensor_g_wb {β : Type} (_value : Int) (info : sensor_info) (b : β) :
    Int × Int × sensor_info × β :=
  (0, info.wb, info, b)

/-- C `sensor_s_wb`: no range test of its own; the preset indexes `sensor_wb`. -/
def sensor_s_wb {β : Type} (E : v4l2_env) (B : cci β) (value : Int) (info : sensor_info)
    (b : β) : Option (Int × sensor_info × β) :=
  if info.capture_mode = E.V4L2_MODE_IMAGE then some (0, info, b) else
  if info.wb = value then some (0, info, b) else
  match cfg_index sensor_wb value with
  | none => none
  | some c =>
    let a := B.sensor_write_array b c.regs c.size
    if a.1 < 0 then some (a.1, info, a.2) else
    some (0, { info with autowb := (if value = V4L2_WHITE_BALANCE_AUTO then 1 else 0),
                         wb := value }, a.2)

/-- C `sensor_g_colorfx`. -/
def sensor_g_colorfx {β : Type} (_value : Int) (info : sensor_info) (b : β) :
    Int × Int × sensor_info × β :=
  (0, info.clrfx, info, b)

/-- C `sensor_s_colorfx`: no range test of its own; the effect indexes
`sensor_colorfx`. -/
def sensor_s_colorfx {β : Type} (B : cci β) (value : Int) (info : sensor_info) (b : β) :
    Option (Int × sensor_info × β) :=
  if info.clrfx = value then some (0, info, b) else
  match cfg_index sensor_colorfx value with
  | none => none
  | some c =>
    let a := B.sensor_write_array b c.regs c.size
    if a.1 < 0 then some (a.1, info, a.2) else
    some (0, { info with clrfx := value }, a.2)

/-- C `sensor_g_flash_mode`. -/
def sensor_g_flash_mode {β : Type} (_value : Int) (info : sensor_info) (b : β) :
    Int × Int × sensor_info × β :=
  (0, info.flash_mode, info, b)

/-- C `sensor_s_flash_mode`: stores the mode, no bus access. -/
def sensor_s_flash_mode {β : Type} (value : Int) (info : sensor_info) (b : β) :
    Int × sensor_info × β :=
  (0, { info with flash_mode := value }, b)

/-! ## Detection and initialisation -/

/-- C `sensor_detect`: select page 0 and compare identity register 0x00 with
0x99. -/
def sensor_detect {β : Type} (B : cci β) (b : β) : Int × β :=
  let w := B.sensor_write b 0xf0 0x00
  if w.1 < 0 then (w.1, w.2) else
  let r := B.sensor_read w.2 0x00
  if r.1 < 0 then (r.1, r.2.2) else
  if r.2.1 ≠ 0x99 then (-ENODEV, r.2.2) else (0, r.2.2)

/-- C `sensor_init`: detect the chip, then write the default register table. -/
def sensor_init {β : Type} (B : cci β) (b : β) : Int × β :=
  let d := sensor_detect B b
  if d.1 ≠ 0 then d else
  B.sensor_write_array d.2 sensor_default_regs (ARRAY_SIZE sensor_default_regs)

/-! ## Formats and window sizes -/

/-- The format table `sensor_formats` (the raw Bayer entry is commented out in
the source). -/
def sensor_formats : List sensor_format_struct :=
  [⟨"YUYV 4:2:2", .V4L2_MBUS_FMT_YUYV8_2X8, sensor_fmt_yuv422_yuyv,
      ARRAY_SIZE sensor_fmt_yuv422_yuyv, 2⟩,
   ⟨"YVYU 4:2:2", .V4L2_MBUS_FMT_YVYU8_2X8, sensor_fmt_yuv422_yvyu,
      ARRAY_SIZE sensor_fmt_yuv422_yvyu, 2⟩,
   ⟨"UYVY 4:2:2", .V4L2_MBUS_FMT_UYVY8_2X8, sensor_fmt_yuv422_uyvy,
      ARRAY_SIZE sensor_fmt_yuv422_uyvy, 2⟩,
   ⟨"VYUY 4:2:2", .V4L2_MBUS_FMT_VYUY8_2X8, sensor_fmt_yuv422_vyuy,
      ARRAY_SIZE sensor_fmt_yuv422_vyuy, 2⟩]

/-- C macro `N_FMTS`. -/
def N_FMTS : Nat := ARRAY_SIZE sensor_formats

/-- The window table `sensor_win_sizes`: the single VGA window. -/
def sensor_win_sizes : List sensor_win_size :=
  [⟨VGA_WIDTH, VGA_HEIGHT, 0, 0, none, 0, none⟩]

/-- C macro `N_WIN_SIZES`. -/
def N_WIN_SIZES : Nat := ARRAY_SIZE sensor_win_sizes

/-- The C expression `sensor_formats[index]`.  The fallback stands for a read
past the end of the table, which no caller performs (every caller has
`index < N_FMTS`). -/
def sensor_formats_at (index : Nat) : sensor_format_struct :=
  sensor_formats.getD index ⟨"", .other 0, [], 0, 0⟩

/-- The C expression `sensor_win_sizes[i]`.  The fallback stands for a read
past the end of the table, which no caller performs (every caller has
`i < N_WIN_SIZES`). -/
def sensor_win_sizes_at (i : Nat) : sensor_win_size :=
  sensor_win_sizes.getD i ⟨0, 0, 0, 0, none, 0, none⟩

/-- C `sensor_enum_fmt`; `code` is the caller's `*code` on entry. -/
def sensor_enum_fmt (index : Nat) (code : v4l2_mbus_pixelcode) : Int × v4l2_mbus_pixelcode :=
  if index ≥ N_FMTS then (-EINVAL, code) else
  (0, (sensor_formats_at index).mbus_code)

/-- C `sensor_enum_size`.  `N_WIN_SIZES-1` is computed on `size_t`; it does not
wrap because `N_WIN_SIZES` is 1. -/
def sensor_enum_size (fsize : v4l2_frmsizeenum) : Int × v4l2_frmsizeenum :=
  if fsize.index > N_WIN_SIZES - 1 then (-EINVAL, fsize) else
  (0, { fsize with type := .V4L2_FRMSIZE_TYPE_DISCRETE,
                   width := (sensor_win_sizes_at fsize.index).width,
                   height := (sensor_win_sizes_at fsize.index).height })

/-- The first loop of `sensor_try_fmt_internal`: starting at `index` with the
entries `fmts` still ahead, stop at the first entry whose `mbus_code` is
`code`; ends with `index` equal to `N_FMTS` when there is none. -/
def fmt_loop (code : v4l2_mbus_pixelcode) : List sensor_format_struct → Nat → Nat
  | [], index => index
  | f :: fmts, index => if f.mbus_code = code then index else fmt_loop code fmts (index + 1)

/-- The second loop of `sensor_try_fmt_internal`: starting at `wsize` with
the windows `wins` still ahead, stop at the first window that the request
covers (`fmt->width >= wsize->width && fmt->height >= wsize->height`). -/
def wsize_loop (width height : Nat) : List sensor_win_size → Nat → Nat
  | [], wsize => wsize
  | w :: wins, wsize =>
    if width ≥ w.width ∧ height ≥ w.height then wsize else wsize_loop width height wins (wsize + 1)

/-- C `sensor_try_fmt_internal`.  Returns the return code, the updated request
and what the C code stores through `ret_fmt` and `ret_wsize` (as indices into
`sensor_formats` and `sensor_win_sizes`); a caller that passes `NULL` for
these ignores them.  On `-EINVAL` nothing is stored through them. -/
def sensor_try_fmt_internal (fmt : v4l2_mbus_framefmt) :
    Int × v4l2_mbus_framefmt × Nat × Nat :=
  let index := fmt_loop fmt.code sensor_formats 0
  if index ≥ N_FMTS then (-EINVAL, fmt, index, 0) else
  let wsize := wsize_loop fmt.width fmt.height sensor_win_sizes 0
  let wsize := if wsize ≥ N_WIN_SIZES then wsize - 1 else wsize
  (0, { fmt with field := .V4L2_FIELD_NONE,
                 width := (sensor_win_sizes_at wsize).width,
                 height := (sensor_win_sizes_at wsize).height }, index, wsize)

/-- C `sensor_try_fmt`. -/
def sensor_try_fmt (fmt : v4l2_mbus_framefmt) : Int × v4l2_mbus_framefmt :=
  let r := sensor_try_fmt_internal fmt
  (r.1, r.2.1)

/-- C `sensor_s_fmt`.  The return value of the write of the format's register
table is dropped, as in the source. -/
def sensor_s_fmt {β : Type} (B : cci β) (fmt : v4l2_mbus_framefmt) (info : sensor_info)
    (b : β) : Int × v4l2_mbus_framefmt × sensor_info × β :=
  let r := sensor_try_fmt_internal fmt
  if r.1 ≠ 0 then (r.1, r.2.1, info, b) else
  let sensor_fmt := sensor_formats_at r.2.2.1
  let wsize := sensor_win_sizes_at r.2.2.2
  let a := B.sensor_write_array b sensor_fmt.regs sensor_fmt.regs_size
  let w : Int × β :=
    match wsize.regs with
    | some regs => B.sensor_write_array a.2 regs wsize.regs_size
    | none => (0, a.2)
  if w.1 < 0 then (w.1, r.2.1, info, w.2) else
  let stored : sensor_info :=
    { info with fmt := r.2.2.1, width := wsize.width, height := wsize.height }
  match wsize.set_size with
  | some set_size => if set_size () < 0 then (set_size (), r.2.1, info, w.2)
                     else (0, r.2.1, stored, w.2)
  | none => (0, r.2.1, stored, w.2)

/-! ## Control dispatch -/

/-- Modelled from the spec: `v4l2_ctrl_query_fill` of the kernel's control
core (v4l2-ctrls.c), which is not among the embedded sources.  It records the
declared range of the control (minimum, maximum, step, default), sets the
control's type and reports success. -/
def v4l2_ctrl_query_fill (E : v4l2_env) (qc : v4l2_queryctrl) (min max step dflt : Int) :
    Int × v4l2_queryctrl :=
  (0, { qc with type := E.ctrl_type qc.id, minimum := min, maximum := max, step := step,
                default_value := dflt })

/-- C `sensor_queryctrl` (the cases for brightness, contrast, saturation, hue,
gain and autogain are commented out in the source). -/
def sensor_queryctrl (E : v4l2_env) (qc : v4l2_queryctrl) : Int × v4l2_queryctrl :=
  match qc.id with
  | .V4L2_CID_VFLIP => v4l2_ctrl_query_fill E qc 0 1 1 0
  | .V4L2_CID_HFLIP => v4l2_ctrl_query_fill E qc 0 1 1 0
  | .V4L2_CID_EXPOSURE => v4l2_ctrl_query_fill E qc (-4) 4 1 0
  | .V4L2_CID_AUTO_EXPOSURE_BIAS => v4l2_ctrl_query_fill E qc (-4) 4 1 0
  | .V4L2_CID_EXPOSURE_AUTO => v4l2_ctrl_query_fill E qc 0 1 1 0
  | .V4L2_CID_AUTO_N_PRESET_WHITE_BALANCE => v4l2_ctrl_query_fill E qc 0 9 1 1
  | .V4L2_CID_AUTO_WHITE_BALANCE => v4l2_ctrl_query_fill E qc 0 1 1 1
  | .V4L2_CID_COLORFX => v4l2_ctrl_query_fill E qc 0 15 1 0
  | .V4L2_CID_FLASH_LED_MODE => v4l2_ctrl_query_fill E qc 0 4 1 0
  | _ => (-EINVAL, qc)

/-- C `sensor_g_ctrl`; the result carries the updated `ctrl->value`. -/
def sensor_g_ctrl {β : Type} (B : cci β) (ctrl : v4l2_control) (info : sensor_info) (b : β) :
    Int × Int × sensor_info × β :=
  match ctrl.id with
  | .V4L2_CID_BRIGHTNESS => sensor_g_brightness ctrl.value info b
  | .V4L2_CID_CONTRAST => sensor_g_contrast ctrl.value info b
  | .V4L2_CID_SATURATION => sensor_g_saturation ctrl.value info b
  | .V4L2_CID_HUE => sensor_g_hue ctrl.value info b
  | .V4L2_CID_VFLIP => sensor_g_vflip B ctrl.value info b
  | .V4L2_CID_HFLIP => sensor_g_hflip B ctrl.value info b
  | .V4L2_CID_GAIN => sensor_g_gain ctrl.value info b
  | .V4L2_CID_AUTOGAIN => sensor_g_autogain ctrl.value info b
  | .V4L2_CID_EXPOSURE => sensor_g_exp_bias ctrl.value info b
  | .V4L2_CID_AUTO_EXPOSURE_BIAS => sensor_g_exp_bias ctrl.value info b
  | .V4L2_CID_EXPOSURE_AUTO => sensor_g_autoexp B ctrl.value info b
  | .V4L2_CID_AUTO_N_PRESET_WHITE_BALANCE => sensor_g_wb ctrl.value info b
  | .V4L2_CID_AUTO_WHITE_BALANCE => sensor_g_autowb B ctrl.value info b
  | .V4L2_CID_COLORFX => sensor_g_colorfx ctrl.value info b
  | .V4L2_CID_FLASH_LED_MODE => sensor_g_flash_mode ctrl.value info b
  | .other _ => (-EINVAL, ctrl.value, info, b)

/-- The local `struct v4l2_queryctrl qc` of `sensor_s_ctrl` after `qc.id =
ctrl->id`.  Its other fields are uninitialised in C; they are read only after
`sensor_queryctrl` has succeeded and filled them. -/
def queryctrl_request (id : v4l2_cid) : v4l2_queryctrl :=
  ⟨id, .other 0, 0, 0, 0, 0⟩

/-- The control types whose value `sensor_s_ctrl` tests against the declared
range: menu, integer and boolean. -/
def range_checked (t : v4l2_ctrl_type) : Bool :=
  t = .V4L2_CTRL_TYPE_MENU || t = .V4L2_CTRL_TYPE_INTEGER || t = .V4L2_CTRL_TYPE_BOOLEAN

/-- C `sensor_s_ctrl`. -/
def sensor_s_ctrl {β : Type} (E : v4l2_env) (B : cci β) (ctrl : v4l2_control)
    (info : sensor_info) (b : β) : Option (Int × sensor_info × β) :=
  let q := sensor_queryctrl E (queryctrl_request ctrl.id)
  if q.1 < 0 then some (q.1, info, b) else
  let qc := q.2
  if range_checked qc.type ∧ (ctrl.value < qc.minimum ∨ ctrl.value > qc.maximum) then
    some (-ERANGE, info, b)
  else
  match ctrl.id with
  | .V4L2_CID_BRIGHTNESS => sensor_s_brightness B ctrl.value info b
  | .V4L2_CID_CONTRAST => sensor_s_contrast B ctrl.value info b
  | .V4L2_CID_SATURATION => sensor_s_saturation B ctrl.value info b
  | .V4L2_CID_HUE => some (sensor_s_hue ctrl.value info b)
  | .V4L2_CID_VFLIP => some (sensor_s_vflip B ctrl.value info b)
  | .V4L2_CID_HFLIP => some (sensor_s_hflip B ctrl.value info b)
  | .V4L2_CID_GAIN => some (sensor_s_gain ctrl.value info b)
  | .V4L2_CID_AUTOGAIN => some (sensor_s_autogain ctrl.value info b)
  | .V4L2_CID_EXPOSURE => sensor_s_exp_bias B ctrl.value info b
  | .V4L2_CID_AUTO_EXPOSURE_BIAS => sensor_s_exp_bias B ctrl.value info b
  | .V4L2_CID_EXPOSURE_AUTO => some (sensor_s_autoexp B ctrl.value info b)
  | .V4L2_CID_AUTO_N_PRESET_WHITE_BALANCE => sensor_s_wb E B ctrl.value info b
  | .V4L2_CID_AUTO_WHITE_BALANCE => some (sensor_s_autowb B ctrl.value info b)
  | .V4L2_CID_COLORFX => sensor_s_colorfx B ctrl.value info b
  | .V4L2_CID_FLASH_LED_MODE => some (sensor_s_flash_mode ctrl.value info b)
  | .other _ => some (-EINVAL, info, b)

/-- The `sensor_info` that `sensor_probe` leaves behind when its allocation
succeeds: `kzalloc` zeroes the structure, then the listed fields are set. -/
def sensor_probe : sensor_info :=
  { fmt := 0, width := 0, height := 0, brightness := 0, contrast := 0, saturation := 0,
    hue := 0, hflip := 0, vflip := 0, gain := 0, autogain := 1, exp := 0, autoexp := 0,
    autowb := 1, wb := 0, clrfx := 0, flash_mode := 0, exp_bias := 0, capture_mode := 0 }

/-- The device states that can arise: the state after `sensor_probe`, and any
state produced from such a state by `sensor_s_ctrl`, `sensor_g_ctrl` or
`sensor_s_fmt` with any arguments over any bus behaviour. -/
inductive reachable (E : v4l2_env) : sensor_info → Prop
  | probe : reachable E sensor_probe
  | s_ctrl {β : Type} (B : cci β) (ctrl : v4l2_control) (info : sensor_info) (b : β)
      (r : Int × sensor_info × β) :
      reachable E info → sensor_s_ctrl E B ctrl info b = some r → reachable E r.2.1
  | g_ctrl {β : Type} (B : cci β) (ctrl : v4l2_control) (info : sensor_info) (b : β) :
      reachable E info → reachable E (sensor_g_ctrl B ctrl info b).2.2.1
  | s_fmt {β : Type} (B : cci β) (fmt : v4l2_mbus_framefmt) (info : sensor_info) (b : β) :
      reachable E info → reachable E (sensor_s_fmt B fmt info b).2.2.1

/-- The field of `sensor_info` that holds the current value of a control: what
the control's setter stores on success. -/
def stored_value (id : v4l2_cid) (info : sensor_info) : Int :=
  match id with
  | .V4L2_CID_BRIGHTNESS => info.brightness
  | .V4L2_CID_CONTRAST => info.contrast
  | .V4L2_CID_SATURATION => info.saturation
  | .V4L2_CID_HUE => info.hue
  | .V4L2_CID_VFLIP => info.vflip
  | .V4L2_CID_HFLIP => info.hflip
  | .V4L2_CID_GAIN => info.gain
  | .V4L2_CID_AUTOGAIN => info.autogain
  | .V4L2_CID_EXPOSURE => info.exp_bias
  | .V4L2_CID_AUTO_EXPOSURE_BIAS => info.exp_bias
  | .V4L2_CID_EXPOSURE_AUTO => info.autoexp
  | .V4L2_CID_AUTO_N_PRESET_WHITE_BALANCE => info.wb
  | .V4L2_CID_AUTO_WHITE_BALANCE => info.autowb
  | .V4L2_CID_COLORFX => info.clrfx
  | .V4L2_CID_FLASH_LED_MODE => info.flash_mode
  | .other _ => 0

/-- The invariant behind the range checks: the exposure bias is always in its
declared range, and so is the stored white-balance preset, colour effect and
flash mode whenever the control's type is one that `sensor_s_ctrl` tests
against the declared range. -/
def stored_in_range (E : v4l2_env) (info : sensor_info) : Prop :=
  (-4 ≤ info.exp_bias ∧ info.exp_bias ≤ 4) ∧
  (range_checked (E.ctrl_type .V4L2_CID_AUTO_N_PRESET_WHITE_BALANCE) = true →
    0 ≤ info.wb ∧ info.wb ≤ 9) ∧
  (range_checked (E.ctrl_type .V4L2_CID_COLORFX) = true →
    0 ≤ info.clrfx ∧ info.clrfx ≤ 15) ∧
  (range_checked (E.ctrl_type .V4L2_CID_FLASH_LED_MODE) = true →
    0 ≤ info.flash_mode ∧ info.flash_mode ≤ 4)

/-- The fields `exp_bias`, `wb`, `clrfx` and `flash_mode` of two states agree. -/
def same_presets (s t : sensor_info) : Prop :=
  t.exp_bias = s.exp_bias ∧ t.wb = s.wb ∧ t.clrfx = s.clrfx ∧ t.flash_mode = s.flash_mode

/-! ## A recording bus, for evaluating the driver on concrete inputs -/

/-- One call of a bus helper. -/
inductive cci_op where
  | write (reg val : Nat)
  | read (reg : Nat)
  | write_array (regs : List regval_list) (size : Int)
deriving DecidableEq

/-- A bus that records every helper call in `log` (oldest first) and answers
from `script`: the next call gets the head of `script` as return code and
read data; once `script` is used up every call succeeds and reads 0. -/
structure cci_trace where
  log : List cci_op
  script : List (Int × Nat)
deriving DecidableEq

/-- Record `op` and take its scripted answer. -/
def cci_trace.call (t : cci_trace) (op : cci_op) : (Int × Nat) × cci_trace :=
  match t.script with
  | [] => ((0, 0), ⟨t.log ++ [op], []⟩)
  | a :: rest => (a, ⟨t.log ++ [op], rest⟩)

/-- The recording bus as an implementation of the bus helpers. -/
def trace_cci : cci cci_trace where
  sensor_write t reg val := ((t.call (.write reg val)).1.1, (t.call (.write reg val)).2)
  sensor_read t reg := ((t.call (.read reg)).1.1, (t.call (.read reg)).1.2, (t.call (.read reg)).2)
  sensor_write_array t regs size :=
    ((t.call (.write_array regs size)).1.1, (t.call (.write_array regs size)).2)

/-- An environment for concrete runs, with the control types of the Linux 3.10
control core: boolean for the flips and auto white balance, menu for the
enumerated controls, integer menu (not range-checked by `sensor_s_ctrl`) for
the exposure bias, integer for the rest. -/
def linux_env : v4l2_env where
  ctrl_type id :=
    match id with
    | .V4L2_CID_VFLIP => .V4L2_CTRL_TYPE_BOOLEAN
    | .V4L2_CID_HFLIP => .V4L2_CTRL_TYPE_BOOLEAN
    | .V4L2_CID_AUTOGAIN => .V4L2_CTRL_TYPE_BOOLEAN
    | .V4L2_CID_AUTO_WHITE_BALANCE => .V4L2_CTRL_TYPE_BOOLEAN
    | .V4L2_CID_EXPOSURE_AUTO => .V4L2_CTRL_TYPE_MENU
    | .V4L2_CID_AUTO_N_PRESET_WHITE_BALANCE => .V4L2_CTRL_TYPE_MENU
    | .V4L2_CID_COLORFX => .V4L2_CTRL_TYPE_MENU
    | .V4L2_CID_FLASH_LED_MODE => .V4L2_CTRL_TYPE_MENU
    | .V4L2_CID_AUTO_EXPOSURE_BIAS => .other 9
    | _ => .V4L2_CTRL_TYPE_INTEGER
  V4L2_MODE_IMAGE := 3

/-- A bus on which every helper call succeeds (returns a non-negative code),
whatever the state of the bus. -/
def bus_ok {β : Type} (B : cci β) : Prop :=
  (∀ b reg val, 0 ≤ (B.sensor_write b reg val).1) ∧
  (∀ b reg, 0 ≤ (B.sensor_read b reg).1) ∧
  (∀ b regs size, 0 ≤ (B.sensor_write_array b regs size).1)

/-- A recording bus without failures: every helper call is logged, returns 0
and reads 0. -/
def ok_cci : cci (List cci_op) where
  sensor_write log reg val := (0, log ++ [.write reg val])
  sensor_read log reg := (0, 0, log ++ [.read reg])
  sensor_write_array log regs size := (0, log ++ [.write_array regs size])

/-- The return code that the `i`-th helper call from now on will get on the
recording bus `t` (0 once the script is used up). -/
def cci_trace.answer (t : cci_trace) (i : Nat) : Int :=
  (t.script.getD i (0, 0)).1

/-- The abort discipline of a setter run on the recording bus from `t` with
state `info` and result `r`: if the `i`-th helper call the run issued got a
negative code, that call is the last one issued, the run returns that code and
`sensor_info` is as before. -/
def aborts_on_failure (t : cci_trace) (info : sensor_info)
    (r : Int × sensor_info × cci_trace) : Prop :=
  ∀ i, i < r.2.2.log.length - t.log.length → t.answer i < 0 →
    i + 1 = r.2.2.log.length - t.log.length ∧ r.1 = t.answer i ∧ r.2.1 = info

/-- The recording bus `u` is `t` after `k` more helper calls: the log is `k`
entries longer and the script is `k` answers further on. -/
def after_calls (k : Nat) (t u : cci_trace) : Prop :=
  u.log.length = t.log.length + k ∧ ∀ i, u.answer i = t.answer (i + k)

/-- The abort discipline for the helper calls from the `k`-th on. -/
def aborts_from (k : Nat) (t : cci_trace) (info : sensor_info)
    (r : Int × sensor_info × cci_trace) : Prop :=
  ∀ i, k ≤ i → i < r.2.2.log.length - t.log.length → t.answer i < 0 →
    i + 1 = r.2.2.log.length - t.log.length ∧ r.1 = t.answer i ∧ r.2.1 = info

/-! ## Power sequencing -/

/-- The power states `sensor_power` switches on; `other` is every other
argument. -/
inductive csi_subdev_pwr where
  | CSI_SUBDEV_STBY_ON
  | CSI_SUBDEV_STBY_OFF
  | CSI_SUBDEV_PWR_ON
  | CSI_SUBDEV_PWR_OFF
  | other (n : Int)
deriving DecidableEq

/-- The GPIO lines named in gc0307.c. -/
inductive gpio_pin where
  | PWDN
  | RESET
  | POWER_EN
deriving DecidableEq

/-- The GPIO levels named in gc0307.c. -/
inductive gpio_level where
  | CSI_GPIO_HIGH
  | CSI_GPIO_LOW
deriving DecidableEq

/-- The PMU channels named in gc0307.c. -/
inductive pmu_channel where
  | IOVDD
  | AVDD
  | DVDD
  | AFVDD
deriving DecidableEq

/-- The switch positions `ON` and `OFF`. -/
inductive on_off where
  | ON
  | OFF
deriving DecidableEq

/-- C macro `MCLK`. -/
def MCLK : Nat := 12 * 1000 * 1000

/-- One call that `sensor_power` makes, in program order: the platform calls
(lock, GPIO, master clock, PMU), whose results the code does not look at, and
`sensor_write_array`, which marks the place of the register write. -/
inductive vfe_op where
  | cci_lock
  | cci_unlock
  | vfe_gpio_write (pin : gpio_pin) (level : gpio_level)
  | vfe_gpio_set_status (pin : gpio_pin) (status : Nat)
  | vfe_set_mclk (s : on_off)
  | vfe_set_mclk_freq (hz : Nat)
  | vfe_set_pmu_channel (ch : pmu_channel) (s : on_off)
  | sensor_write_array (regs : List regval_list) (size : Int)
deriving DecidableEq

/-- C `sensor_power`: the return code, the calls made in program order and
the bus state afterwards; `on_arg` is the C parameter `on`.  In the standby-on case a failed write of
`sensor_oe_disable` is only logged. -/
def sensor_power {β : Type} (B : cci β) (on_arg : csi_subdev_pwr) (b : β) :
    Int × List vfe_op × β :=
  match on_arg with
  | .CSI_SUBDEV_STBY_ON =>
    let a := B.sensor_write_array b sensor_oe_disable (ARRAY_SIZE sensor_oe_disable)
    (0, [.sensor_write_array sensor_oe_disable (ARRAY_SIZE sensor_oe_disable),
         .cci_lock,
         .vfe_gpio_write .PWDN .CSI_GPIO_HIGH,
         .cci_unlock,
         .vfe_set_mclk .OFF], a.2)
  | .CSI_SUBDEV_STBY_OFF =>
    (0, [.cci_lock,
         .vfe_set_mclk_freq MCLK,
         .vfe_set_mclk .ON,
         .vfe_gpio_write .PWDN .CSI_GPIO_LOW,
         .cci_unlock], b)
  | .CSI_SUBDEV_PWR_ON =>
    (0, [.cci_lock,
         .vfe_gpio_set_status .PWDN 1,
         .vfe_gpio_set_status .RESET 1,
         .vfe_gpio_write .PWDN .CSI_GPIO_HIGH,
         .vfe_gpio_write .RESET .CSI_GPIO_LOW,
         .vfe_set_mclk_freq MCLK,
         .vfe_set_mclk .ON,
         .vfe_gpio_write .POWER_EN .CSI_GPIO_HIGH,
         .vfe_set_pmu_channel .IOVDD .ON,
         .vfe_set_pmu_channel .AVDD .ON,
         .vfe_set_pmu_channel .DVDD .ON,
         .vfe_set_pmu_channel .AFVDD .ON,
         .vfe_gpio_write .PWDN .CSI_GPIO_LOW,
         .vfe_gpio_write .PWDN .CSI_GPIO_LOW,
         .vfe_gpio_write .RESET .CSI_GPIO_HIGH,
         .cci_unlock], b)
  | .CSI_SUBDEV_PWR_OFF =>
    (0, [.cci_lock,
         .vfe_gpio_write .PWDN .CSI_GPIO_HIGH,
         .vfe_gpio_write .RESET .CSI_GPIO_LOW,
         .vfe_gpio_write .POWER_EN .CSI_GPIO_LOW,
         .vfe_set_pmu_channel .AFVDD .OFF,
         .vfe_set_pmu_channel .DVDD .OFF,
         .vfe_set_pmu_channel .AVDD .OFF,
         .vfe_set_pmu_channel .IOVDD .OFF,
         .vfe_set_mclk .OFF,
         .vfe_gpio_set_status .RESET 0,
         .vfe_gpio_set_status .PWDN 0,
         .cci_unlock], b)
  | .other _ => (-EINVAL, [], b)

/-! ## Lock discipline of the power sequence -/

/-- The calls that access a GPIO line. -/
def vfe_op.is_gpio : vfe_op → Bool
  | .vfe_gpio_write _ _ => true
  | .vfe_gpio_set_status _ _ => true
  | _ => false

/-- The calls that write sensor registers. -/
def vfe_op.is_register_write : vfe_op → Bool
  | .sensor_write_array _ _ => true
  | _ => false

/-- Exactly one `cci_lock`, exactly one `cci_unlock`, and the lock comes
first: the lock is taken once and is not held at the end. -/
def lock_balanced (ops : List vfe_op) : Bool :=
  ops.count .cci_lock = 1 && ops.count .cci_unlock = 1 &&
    ops.indexOf .cci_lock < ops.indexOf .cci_unlock

/-- Every call of the kind `p` is made while the lock is held; `held` says
whether the lock is held before the first call of the list. -/
def under_lock (p : vfe_op → Bool) : List vfe_op → Bool → Bool
  | [], _ => true
  | .cci_lock :: ops, _ => under_lock p ops true
  | .cci_unlock :: ops, _ => under_lock p ops false
  | op :: ops, held => (!p op || held) && under_lock p ops held

/-! ## A register-file bus -/

/-- The register file `regs` with register `reg` set to `val`. -/
def reg_set (regs : Nat → Nat) (reg val : Nat) : Nat → Nat :=
  fun r => if r = reg then val else regs r

/-- A bus without failures over a flat file of 8-bit registers: a write
stores the low 8 bits of the value, a read returns the register, and a table
write stores the first `size` entries of the table in order. -/
def regfile_cci : cci (Nat → Nat) where
  sensor_write regs reg val := (0, reg_set regs reg (val % 256))
  sensor_read regs reg := (0, regs reg, regs)
  sensor_write_array regs tbl size :=
    (0, (tbl.take size.toNat).foldl (fun f e => reg_set f e.addr (e.data % 256)) regs)

/-- Both cached flip flags are 0 or 1. -/
def flips_boolean (info : sensor_info) : Prop :=
  (info.hflip = 0 ∨ info.hflip = 1) ∧ (info.vflip = 0 ∨ info.vflip = 1)

/-- The value that the table `sensor_ev[bias + 4]` writes to the AEC target
register 0xd1 (`none` when the index is outside the table or the table has no
such write). -/
def ev_target (bias : Int) : Option Nat :=
  match cfg_index sensor_ev (bias + 4) with
  | none => none
  | some c =>
    match c.regs.find? (fun e => e.addr = 0xd1) with
    | none => none
    | some e => some e.data

/-- The first entry of a register table selects page 0: it writes 0x00 to the
page-select register 0xf0. -/
def selects_page0_first (regs : List regval_list) : Bool :=
  regs.head? = some ⟨0xf0, 0x00⟩

/-- The first call of a run on the recording bus is the write of 0x00 to the
page-select register 0xf0, or the write of a table that begins with it. -/
def first_call_selects_page0 (log : List cci_op) : Bool :=
  match log with
  | .write 0xf0 0x00 :: _ => true
  | .write_array regs _ :: _ => selects_page0_first regs
  | _ => false

end gc0307

/-! # boot0 header layout -/

namespace boot0

/-- One member of a C structure: its name, the size in bytes of one element
and the number of elements (1 for a scalar). -/
structure member where
  name : String
  elem_size : Nat
  count : Nat
deriving DecidableEq

/-- Size in bytes of a member. -/
def member.bytes (m : member) : Nat := m.elem_size * m.count

/-- Sum of the member sizes of a structure.  This is the size of the
structure only when its layout has no padding; the size with alignment taken
into account is `natural_sizeof` (scalar members) or `aligned_sizeof`. -/
def sum_of_sizes (ms : List member) : Nat := (ms.map member.bytes).sum

/-- The members of `boot0_private_head_t`, in declaration order.
`sizeof_normal_gpio_cfg` is `sizeof(normal_gpio_cfg)`: the type is declared in
gpio.h, outside the embedded sources.  The length of `storage_data` is the C
expression `512 - sizeof(normal_gpio_cfg) * 32`, which does not wrap when
`32 * sizeof(normal_gpio_cfg) <= 512`. -/
def boot0_private_head_t (sizeof_normal_gpio_cfg : Nat) : List member :=
  [⟨"prvt_head_size", 4, 1⟩,
   ⟨"prvt_head_vsn", 1, 4⟩,
   ⟨"dram_para", 4, 32⟩,
   ⟨"uart_port", 4, 1⟩,
   ⟨"uart_ctrl", sizeof_normal_gpio_cfg, 2⟩,
   ⟨"enable_jtag", 4, 1⟩,
   ⟨"jtag_gpio", sizeof_normal_gpio_cfg, 5⟩,
   ⟨"storage_gpio", sizeof_normal_gpio_cfg, 32⟩,
   ⟨"storage_data", 1, 512 - sizeof_normal_gpio_cfg * 32⟩]

/-- The members of `standard_boot_file_head_t`, in declaration order. -/
def standard_boot_file_head_t : List member :=
  [⟨"jump_instruction", 4, 1⟩,
   ⟨"magic", 1, 8⟩,
   ⟨"check_sum", 4, 1⟩,
   ⟨"length", 4, 1⟩,
   ⟨"pub_head_size", 4, 1⟩,
   ⟨"pub_head_vsn", 1, 4⟩,
   ⟨"ret_addr", 4, 1⟩,
   ⟨"run_addr", 4, 1⟩,
   ⟨"eGON_vsn", 1, 4⟩,
   ⟨"platform", 1, 8⟩]

/-- C macro `MAGIC_SIZE`. -/
def MAGIC_SIZE : Nat := 8

/-- The members of `boot0_extend_config`, in declaration order. -/
def boot0_extend_config : List member :=
  [⟨"magic", 1, MAGIC_SIZE⟩,
   ⟨"if_reduce_power_waste", 4, 1⟩,
   ⟨"reserved", 1, 500⟩]

/-- The members of `fes_extend_config`, in declaration order. -/
def fes_extend_config : List member :=
  [⟨"magic", 1, MAGIC_SIZE⟩,
   ⟨"if_reduce_power_waste", 4, 1⟩,
   ⟨"reserved", 1, 500⟩]

/-- Size in bytes of the member called `name` (0 when there is none). -/
def member_bytes (ms : List member) (name : String) : Nat :=
  match ms.find? (fun m => m.name = name) with
  | some m => m.bytes
  | none => 0

/-- The offsets of the members under packed layout, the first one at `off`:
each member starts where the one before ends. -/
def packed_offsets : List member → Nat → List Nat
  | [], _ => []
  | m :: ms, off => off :: packed_offsets ms (off + m.bytes)

/-- Round `off` up to the next multiple of `a`. -/
def align_up (off a : Nat) : Nat := (off + a - 1) / a * a

/-- The natural alignment of a member whose elements are scalars (`__u32`,
`__s32`, `__u8`, `char`): the element size. -/
def member.align (m : member) : Nat := m.elem_size

/-- The offsets of the members under natural alignment, the first one at or
after `off`: each member starts at the next multiple of its alignment. -/
def natural_offsets : List member → Nat → List Nat
  | [], _ => []
  | m :: ms, off => align_up off m.align :: natural_offsets ms (align_up off m.align + m.bytes)

/-- The end of the last member under natural alignment. -/
def natural_end : List member → Nat → Nat
  | [], off => off
  | m :: ms, off => natural_end ms (align_up off m.align + m.bytes)

/-- The size of a structure under natural alignment: the end of the last
member rounded up to the largest member alignment. -/
def natural_sizeof (ms : List member) : Nat :=
  align_up (natural_end ms 0) ((ms.map member.align).foldl max 1)

/-- The end of the last member when the members are laid out in declaration
order, each at the next multiple of its alignment; `aligns` lists the
alignments of the members in the same order. -/
def aligned_end : List member → List Nat → Nat → Nat
  | m :: ms, a :: aligns, off => aligned_end ms aligns (align_up off a + m.bytes)
  | _, _, off => off

/-- C `sizeof` of a structure whose members have the alignments `aligns`: the
end of the last member rounded up to the largest member alignment.  It is
`natural_sizeof` when every member is aligned to its element size. -/
def aligned_sizeof (ms : List member) (aligns : List Nat) : Nat :=
  align_up (aligned_end ms aligns 0) (aligns.foldl max 1)

/-- The alignments of the members of `boot0_private_head_t`, in declaration
order: 4 for `__u32`, `__s32` and `unsigned int`, 1 for `char`, and
`align_normal_gpio_cfg` for the three tables of `normal_gpio_cfg`, whose
alignment is fixed by its declaration in gpio.h, outside the embedded
sources. -/
def boot0_private_head_align (align_normal_gpio_cfg : Nat) : List Nat :=
  [4, 1, 4, 4, align_normal_gpio_cfg, 4, align_normal_gpio_cfg, align_normal_gpio_cfg, 1]

end boot0

/-! # Theorems -/

namespace gc0307

/-! ## Table-driven setters -/

/-- C3: each table-driven setter (brightness, contrast, saturation, exposure
bias, white balance, colour effect), called with the value already stored in
its `sensor_info` field, returns 0 and hands back the `sensor_info` and the
bus state it was given: no helper of the bus is called, `sensor_write_array`
included.  This holds for every stored value, inside or outside the control's
range, and for every bus implementation `B`. -/
theorem table_setters_stored_value_noop {β : Type} (E : v4l2_env) (B : cci β)
    (info : sensor_info) (b : β) :
    sensor_s_brightness B info.brightness info b = some (0, info, b) ∧
    sensor_s_contrast B info.contrast info b = some (0, info, b) ∧
    sensor_s_saturation B info.saturation info b = some (0, info, b) ∧
    sensor_s_exp_bias B info.exp_bias info b = some (0, info, b) ∧
    sensor_s_wb E B info.wb info b = some (0, info, b) ∧
    sensor_s_colorfx B info.clrfx info b = some (0, info, b) := by
  simp [sensor_s_brightness, sensor_s_contrast, sensor_s_saturation, sensor_s_exp_bias,
    sensor_s_wb, sensor_s_colorfx]

/-! ## Format negotiation -/

/-- The pixel codes of `sensor_formats`, one by one. -/
theorem supported_code_cases (code : v4l2_mbus_pixelcode)
    (h : ∃ f ∈ sensor_formats, f.mbus_code = code) :
    code = .V4L2_MBUS_FMT_YUYV8_2X8 ∨ code = .V4L2_MBUS_FMT_YVYU8_2X8 ∨
    code = .V4L2_MBUS_FMT_UYVY8_2X8 ∨ code = .V4L2_MBUS_FMT_VYUY8_2X8 := by
  obtain ⟨f, hf, rfl⟩ := h
  simp [sensor_formats] at hf
  rcases hf with rfl | rfl | rfl | rfl <;> simp

/-- The format table has four entries. -/
theorem N_FMTS_eq : N_FMTS = 4 := by decide

/-- The window table has one entry. -/
theorem N_WIN_SIZES_eq : N_WIN_SIZES = 1 := by decide

/-- The format loop finds nothing exactly for the codes outside the table. -/
theorem fmt_loop_unsupported (code : v4l2_mbus_pixelcode)
    (h : ¬ ∃ f ∈ sensor_formats, f.mbus_code = code) :
    fmt_loop code sensor_formats 0 = 4 := by
  cases code <;> first
    | (exfalso; apply h; simp [sensor_formats]; done)
    | simp [fmt_loop, sensor_formats]

/-- C4: for every request whose pixel code is in `sensor_formats` and whose
width and height are those of the single declared window (`VGA_WIDTH` x
`VGA_HEIGHT`, 640x480), `sensor_try_fmt` returns 0 and the returned format
has the requested width, height and code, and field `V4L2_FIELD_NONE`. -/
theorem try_fmt_exact_window (fmt : v4l2_mbus_framefmt)
    (hcode : ∃ f ∈ sensor_formats, f.mbus_code = fmt.code)
    (hw : fmt.width = VGA_WIDTH) (hh : fmt.height = VGA_HEIGHT) :
    (sensor_try_fmt fmt).1 = 0 ∧
    (sensor_try_fmt fmt).2.width = fmt.width ∧
    (sensor_try_fmt fmt).2.height = fmt.height ∧
    (sensor_try_fmt fmt).2.code = fmt.code ∧
    (sensor_try_fmt fmt).2.field = .V4L2_FIELD_NONE := by
  obtain ⟨width, height, code, field, colorspace⟩ := fmt
  simp only at hw hh
  subst hw hh
  rcases supported_code_cases code hcode with rfl | rfl | rfl | rfl <;>
    simp [sensor_try_fmt, sensor_try_fmt_internal, fmt_loop, wsize_loop, sensor_formats,
      sensor_win_sizes, sensor_win_sizes_at, N_FMTS, N_WIN_SIZES, ARRAY_SIZE, VGA_WIDTH,
      VGA_HEIGHT]

/-- Witness of `try_fmt_exact_window`: a 640x480 UYVY request. -/
theorem try_fmt_exact_window_witness :
    (sensor_try_fmt ⟨640, 480, .V4L2_MBUS_FMT_UYVY8_2X8, .other 4, 8⟩).1 = 0 ∧
    (sensor_try_fmt ⟨640, 480, .V4L2_MBUS_FMT_UYVY8_2X8, .other 4, 8⟩).2.width = 640 ∧
    (sensor_try_fmt ⟨640, 480, .V4L2_MBUS_FMT_UYVY8_2X8, .other 4, 8⟩).2.height = 480 ∧
    (sensor_try_fmt ⟨640, 480, .V4L2_MBUS_FMT_UYVY8_2X8, .other 4, 8⟩).2.code =
      .V4L2_MBUS_FMT_UYVY8_2X8 ∧
    (sensor_try_fmt ⟨640, 480, .V4L2_MBUS_FMT_UYVY8_2X8, .other 4, 8⟩).2.field =
      .V4L2_FIELD_NONE :=
  try_fmt_exact_window ⟨640, 480, .V4L2_MBUS_FMT_UYVY8_2X8, .other 4, 8⟩
    ⟨sensor_formats_at 2, by decide, by decide⟩ (by decide) (by decide)

/-- C5: for every request whose pixel code is not in `sensor_formats`,
`sensor_try_fmt` and `sensor_s_fmt` return `-EINVAL` and leave the request
(code, width, height, field) as it was; `sensor_s_fmt` hands back the bus
state it was given (no register write) and the `sensor_info` it was given
(`fmt`, `width` and `height` included). -/
theorem unsupported_code_rejected {β : Type} (B : cci β) (fmt : v4l2_mbus_framefmt)
    (info : sensor_info) (b : β)
    (hcode : ¬ ∃ f ∈ sensor_formats, f.mbus_code = fmt.code) :
    sensor_try_fmt fmt = (-EINVAL, fmt) ∧
    sensor_s_fmt B fmt info b = (-EINVAL, fmt, info, b) := by
  have h := fmt_loop_unsupported fmt.code hcode
  constructor
  · simp [sensor_try_fmt, sensor_try_fmt_internal, h, N_FMTS_eq]
  · simp [sensor_s_fmt, sensor_try_fmt_internal, h, N_FMTS_eq, EINVAL]

/-- Witness of `unsupported_code_rejected`: a raw Bayer request on the
recording bus. -/
theorem unsupported_code_rejected_witness :
    sensor_try_fmt ⟨640, 480, .other 0x3001, .other 0, 0⟩ =
      (-EINVAL, ⟨640, 480, .other 0x3001, .other 0, 0⟩) ∧
    sensor_s_fmt trace_cci ⟨640, 480, .other 0x3001, .other 0, 0⟩ sensor_probe ⟨[], []⟩ =
      (-EINVAL, ⟨640, 480, .other 0x3001, .other 0, 0⟩, sensor_probe, ⟨[], []⟩) :=
  unsupported_code_rejected trace_cci ⟨640, 480, .other 0x3001, .other 0, 0⟩ sensor_probe
    ⟨[], []⟩ (by simp [sensor_formats])


/-- With a code of the table `sensor_try_fmt_internal` succeeds, reports the
index found by the format loop and always ends on window 0: the window loop
either stops there or runs off the one-entry table and steps back. -/
theorem try_fmt_internal_supported (fmt : v4l2_mbus_framefmt)
    (hcode : ∃ f ∈ sensor_formats, f.mbus_code = fmt.code) :
    (sensor_try_fmt_internal fmt).1 = 0 ∧
    (sensor_try_fmt_internal fmt).2.2.1 = fmt_loop fmt.code sensor_formats 0 ∧
    (sensor_try_fmt_internal fmt).2.2.2 = 0 := by
  obtain ⟨width, height, code, field, colorspace⟩ := fmt
  rcases supported_code_cases code hcode with rfl | rfl | rfl | rfl <;>
    by_cases hq : VGA_WIDTH ≤ width ∧ VGA_HEIGHT ≤ height <;>
    simp [sensor_try_fmt_internal, fmt_loop, wsize_loop, sensor_formats, sensor_win_sizes,
      N_FMTS_eq, N_WIN_SIZES_eq, hq]

/-- What the format loop returns for a code of the table: the least index
holding that code, whose register table is the page select followed by one
write to register 0x44. -/
theorem fmt_loop_supported (code : v4l2_mbus_pixelcode)
    (hcode : ∃ f ∈ sensor_formats, f.mbus_code = code) :
    fmt_loop code sensor_formats 0 < N_FMTS ∧
    (sensor_formats_at (fmt_loop code sensor_formats 0)).mbus_code = code ∧
    (∀ j, j < fmt_loop code sensor_formats 0 → (sensor_formats_at j).mbus_code ≠ code) ∧
    (∃ d, (sensor_formats_at (fmt_loop code sensor_formats 0)).regs =
      [⟨0xf0, 0x00⟩, ⟨0x44, d⟩]) ∧
    (sensor_formats_at (fmt_loop code sensor_formats 0)).regs_size = 2 := by
  rcases supported_code_cases code hcode with rfl | rfl | rfl | rfl
  · refine ⟨by decide, by decide, ?_, ⟨0xE2, by decide⟩, by decide⟩
    intro j hj
    have h0 : fmt_loop .V4L2_MBUS_FMT_YUYV8_2X8 sensor_formats 0 = 0 := by decide
    omega
  · refine ⟨by decide, by decide, ?_, ⟨0xE3, by decide⟩, by decide⟩
    intro j hj
    have h0 : fmt_loop .V4L2_MBUS_FMT_YVYU8_2X8 sensor_formats 0 = 1 := by decide
    rw [h0] at hj
    interval_cases j
    decide
  · refine ⟨by decide, by decide, ?_, ⟨0xE0, by decide⟩, by decide⟩
    intro j hj
    have h0 : fmt_loop .V4L2_MBUS_FMT_UYVY8_2X8 sensor_formats 0 = 2 := by decide
    rw [h0] at hj
    interval_cases j <;> decide
  · refine ⟨by decide, by decide, ?_, ⟨0xE1, by decide⟩, by decide⟩
    intro j hj
    have h0 : fmt_loop .V4L2_MBUS_FMT_VYUY8_2X8 sensor_formats 0 = 3 := by decide
    rw [h0] at hj
    interval_cases j <;> decide

/-- C7: for every request with a pixel code of `sensor_formats`,
`sensor_s_fmt` returns 0 and stores in `info->fmt` the entry of least index
whose `mbus_code` is the requested code; the bus is used for exactly one call
of `sensor_write_array`, with that entry's register table, which is the write
of 0x00 to the page-select register 0xf0 followed by one write to register
0x44; and `info->width`, `info->height` receive the width and height of the
window chosen by `sensor_try_fmt_internal`. -/
theorem s_fmt_stores_first_match {β : Type} (B : cci β) (fmt : v4l2_mbus_framefmt)
    (info : sensor_info) (b : β)
    (hcode : ∃ f ∈ sensor_formats, f.mbus_code = fmt.code) :
    ∃ index, index < N_FMTS ∧
      (sensor_formats_at index).mbus_code = fmt.code ∧
      (∀ j, j < index → (sensor_formats_at j).mbus_code ≠ fmt.code) ∧
      (∃ d, (sensor_formats_at index).regs = [⟨0xf0, 0x00⟩, ⟨0x44, d⟩]) ∧
      (sensor_formats_at index).regs_size = 2 ∧
      sensor_s_fmt B fmt info b =
        (0, (sensor_try_fmt fmt).2,
         { info with
             fmt := index,
             width := (sensor_win_sizes_at (sensor_try_fmt_internal fmt).2.2.2).width,
             height := (sensor_win_sizes_at (sensor_try_fmt_internal fmt).2.2.2).height },
         (B.sensor_write_array b (sensor_formats_at index).regs
            (sensor_formats_at index).regs_size).2) := by
  obtain ⟨hlt, hc, hleast, hregs, hsize⟩ := fmt_loop_supported fmt.code hcode
  refine ⟨fmt_loop fmt.code sensor_formats 0, hlt, hc, hleast, hregs, hsize, ?_⟩
  obtain ⟨h0, hi, hw0⟩ := try_fmt_internal_supported fmt hcode
  simp [sensor_s_fmt, sensor_try_fmt, h0, hi, hw0, sensor_win_sizes_at, sensor_win_sizes]

/-- Witness of `s_fmt_stores_first_match`: a VYUY request on the recording
bus. -/
theorem s_fmt_stores_first_match_witness :
    ∃ index, index < N_FMTS ∧
      (sensor_formats_at index).mbus_code = .V4L2_MBUS_FMT_VYUY8_2X8 ∧
      sensor_s_fmt trace_cci ⟨320, 240, .V4L2_MBUS_FMT_VYUY8_2X8, .other 0, 0⟩ sensor_probe
          ⟨[], []⟩ =
        (0, (sensor_try_fmt ⟨320, 240, .V4L2_MBUS_FMT_VYUY8_2X8, .other 0, 0⟩).2,
         { sensor_probe with
             fmt := index,
             width := (sensor_win_sizes_at (sensor_try_fmt_internal
               ⟨320, 240, .V4L2_MBUS_FMT_VYUY8_2X8, .other 0, 0⟩).2.2.2).width,
             height := (sensor_win_sizes_at (sensor_try_fmt_internal
               ⟨320, 240, .V4L2_MBUS_FMT_VYUY8_2X8, .other 0, 0⟩).2.2.2).height },
         (trace_cci.sensor_write_array ⟨[], []⟩ (sensor_formats_at index).regs
            (sensor_formats_at index).regs_size).2) :=
  match s_fmt_stores_first_match trace_cci ⟨320, 240, .V4L2_MBUS_FMT_VYUY8_2X8, .other 0, 0⟩
      sensor_probe ⟨[], []⟩ ⟨sensor_formats_at 3, by decide, by decide⟩ with
  | ⟨index, h1, h2, _, _, _, h6⟩ => ⟨index, h1, h2, h6⟩

/-- C8: `sensor_enum_fmt` returns 0 exactly for the indices 0..3 and `-EINVAL`
(leaving the code untouched) for every index from 4 on; the codes it yields
for 0, 1, 2, 3 are YUYV, YVYU, UYVY, VYUY, which are pairwise distinct; and
`sensor_try_fmt` accepts a request exactly when `sensor_enum_fmt` yields the
request's pixel code for some index. -/
theorem enum_fmt_four_codes :
    (∀ index code, (sensor_enum_fmt index code).1 = 0 ↔ index < 4) ∧
    (∀ index code, 4 ≤ index → sensor_enum_fmt index code = (-EINVAL, code)) ∧
    (∀ code, sensor_enum_fmt 0 code = (0, .V4L2_MBUS_FMT_YUYV8_2X8) ∧
             sensor_enum_fmt 1 code = (0, .V4L2_MBUS_FMT_YVYU8_2X8) ∧
             sensor_enum_fmt 2 code = (0, .V4L2_MBUS_FMT_UYVY8_2X8) ∧
             sensor_enum_fmt 3 code = (0, .V4L2_MBUS_FMT_VYUY8_2X8)) ∧
    (∀ i j c, i < 4 → j < 4 → i ≠ j →
      (sensor_enum_fmt i c).2 ≠ (sensor_enum_fmt j c).2) ∧
    (∀ fmt : v4l2_mbus_framefmt, (sensor_try_fmt fmt).1 = 0 ↔
      ∃ index code, sensor_enum_fmt index code = (0, fmt.code)) := by
  have hlt : ∀ index code, index < 4 → (sensor_enum_fmt index code).1 = 0 := by
    intro index code h
    have h4 : ¬ 4 ≤ index := by omega
    simp [sensor_enum_fmt, N_FMTS_eq, h4]
  have hge : ∀ index code, 4 ≤ index → sensor_enum_fmt index code = (-EINVAL, code) := by
    intro index code h
    simp [sensor_enum_fmt, N_FMTS_eq, h]
  have hval : ∀ code, sensor_enum_fmt 0 code = (0, .V4L2_MBUS_FMT_YUYV8_2X8) ∧
             sensor_enum_fmt 1 code = (0, .V4L2_MBUS_FMT_YVYU8_2X8) ∧
             sensor_enum_fmt 2 code = (0, .V4L2_MBUS_FMT_UYVY8_2X8) ∧
             sensor_enum_fmt 3 code = (0, .V4L2_MBUS_FMT_VYUY8_2X8) := by
    intro code
    simp [sensor_enum_fmt, N_FMTS_eq, sensor_formats_at, sensor_formats]
  refine ⟨?_, hge, hval, ?_, ?_⟩
  · intro index code
    constructor
    · intro h
      by_contra hc
      rw [hge index code (by omega)] at h
      simp [EINVAL] at h
    · exact hlt index code
  · intro i j c hi hj hij
    obtain ⟨h0, h1, h2, h3⟩ := hval c
    interval_cases i <;> interval_cases j <;> simp_all
  · intro fmt
    constructor
    · intro h
      by_cases hs : ∃ f ∈ sensor_formats, f.mbus_code = fmt.code
      · obtain ⟨h0, h1, h2, h3⟩ := hval fmt.code
        rcases supported_code_cases fmt.code hs with hc | hc | hc | hc
        · exact ⟨0, fmt.code, by rw [h0, hc]⟩
        · exact ⟨1, fmt.code, by rw [h1, hc]⟩
        · exact ⟨2, fmt.code, by rw [h2, hc]⟩
        · exact ⟨3, fmt.code, by rw [h3, hc]⟩
      · have hl := fmt_loop_unsupported fmt.code hs
        simp [sensor_try_fmt, sensor_try_fmt_internal, hl, N_FMTS_eq, EINVAL] at h
    · rintro ⟨index, code, h⟩
      have hi : index < 4 := by
        by_contra hc
        rw [hge index code (by omega)] at h
        simp [EINVAL] at h
      obtain ⟨h0, h1, h2, h3⟩ := hval code
      obtain ⟨width, height, fcode, field, colorspace⟩ := fmt
      simp only at h
      interval_cases index
      · rw [h0] at h
        obtain rfl : v4l2_mbus_pixelcode.V4L2_MBUS_FMT_YUYV8_2X8 = fcode := by simpa using h
        simp [sensor_try_fmt, sensor_try_fmt_internal, fmt_loop, sensor_formats, N_FMTS_eq]
      · rw [h1] at h
        obtain rfl : v4l2_mbus_pixelcode.V4L2_MBUS_FMT_YVYU8_2X8 = fcode := by simpa using h
        simp [sensor_try_fmt, sensor_try_fmt_internal, fmt_loop, sensor_formats, N_FMTS_eq]
      · rw [h2] at h
        obtain rfl : v4l2_mbus_pixelcode.V4L2_MBUS_FMT_UYVY8_2X8 = fcode := by simpa using h
        simp [sensor_try_fmt, sensor_try_fmt_internal, fmt_loop, sensor_formats, N_FMTS_eq]
      · rw [h3] at h
        obtain rfl : v4l2_mbus_pixelcode.V4L2_MBUS_FMT_VYUY8_2X8 = fcode := by simpa using h
        simp [sensor_try_fmt, sensor_try_fmt_internal, fmt_loop, sensor_formats, N_FMTS_eq]

/-- C9: `sensor_enum_size` returns 0 only for index 0, where it reports a
discrete frame size of `VGA_WIDTH` x `VGA_HEIGHT` (640x480); for every other
index it returns `-EINVAL` and leaves the request (type, width and height
included) as it was. -/
theorem enum_size_single_window (fsize : v4l2_frmsizeenum) :
    ((sensor_enum_size fsize).1 = 0 ↔ fsize.index = 0) ∧
    (fsize.index = 0 →
      sensor_enum_size fsize =
        (0, { fsize with type := .V4L2_FRMSIZE_TYPE_DISCRETE,
                         width := VGA_WIDTH, height := VGA_HEIGHT })) ∧
    (VGA_WIDTH = 640 ∧ VGA_HEIGHT = 480) ∧
    (fsize.index ≠ 0 → sensor_enum_size fsize = (-EINVAL, fsize)) := by
  obtain ⟨index, pixel_format, type, width, height⟩ := fsize
  by_cases h : index = 0
  · subst h
    simp [sensor_enum_size, N_WIN_SIZES_eq, sensor_win_sizes_at, sensor_win_sizes, VGA_WIDTH,
      VGA_HEIGHT]
  · have hpos : 0 < index := Nat.pos_of_ne_zero h
    simp [sensor_enum_size, N_WIN_SIZES_eq, h, hpos, EINVAL, VGA_WIDTH, VGA_HEIGHT]


/-! ## The stored presets stay in range -/

/-- States that agree on the preset fields satisfy the invariant together. -/
theorem stored_in_range_of_same_presets (E : v4l2_env) (s t : sensor_info)
    (h : same_presets s t) (hs : stored_in_range E s) : stored_in_range E t := by
  obtain ⟨h1, h2, h3, h4⟩ := h
  unfold stored_in_range
  rw [h1, h2, h3, h4]
  exact hs

/-- The flip write-back leaves the preset fields alone. -/
theorem s_flip_commit_same_presets {β : Type} (B : cci β) (is_h : Bool) (value : Int)
    (R0f R45 R47 : Nat) (info : sensor_info) (b : β) :
    same_presets info (sensor_s_flip_commit B is_h value R0f R45 R47 info b).2.1 := by
  unfold sensor_s_flip_commit
  cases is_h <;> simp only [] <;> split_ifs <;> simp [same_presets]

/-- The register-backed setters leave the preset fields alone. -/
theorem register_setters_same_presets {β : Type} (B : cci β) (value : Int)
    (info : sensor_info) (b : β) :
    same_presets info (sensor_s_hflip B value info b).2.1 ∧
    same_presets info (sensor_s_vflip B value info b).2.1 ∧
    same_presets info (sensor_s_autoexp B value info b).2.1 ∧
    same_presets info (sensor_s_autowb B value info b).2.1 := by
  refine ⟨?_, ?_, ?_, ?_⟩
  · unfold sensor_s_hflip
    simp only []
    split_ifs <;> first | exact s_flip_commit_same_presets _ _ _ _ _ _ _ _ | simp [same_presets]
  · unfold sensor_s_vflip
    simp only []
    split_ifs <;> first | exact s_flip_commit_same_presets _ _ _ _ _ _ _ _ | simp [same_presets]
  · unfold sensor_s_autoexp
    simp only []
    split_ifs <;> simp [same_presets]
  · unfold sensor_s_autowb
    simp only []
    split_ifs <;> simp [same_presets]

/-- The getters leave the preset fields alone. -/
theorem g_ctrl_same_presets {β : Type} (B : cci β) (ctrl : v4l2_control)
    (info : sensor_info) (b : β) :
    same_presets info (sensor_g_ctrl B ctrl info b).2.2.1 := by
  obtain ⟨id, value⟩ := ctrl
  cases id <;>
    simp only [sensor_g_ctrl, sensor_g_brightness, sensor_g_contrast, sensor_g_saturation,
      sensor_g_hue, sensor_g_vflip, sensor_g_hflip, sensor_g_gain, sensor_g_autogain,
      sensor_g_exp_bias, sensor_g_autoexp, sensor_g_wb, sensor_g_autowb, sensor_g_colorfx,
      sensor_g_flash_mode] <;>
    (try split_ifs) <;> simp [same_presets]

/-- Setting a format leaves the preset fields alone. -/
theorem s_fmt_same_presets {β : Type} (B : cci β) (fmt : v4l2_mbus_framefmt)
    (info : sensor_info) (b : β) :
    same_presets info (sensor_s_fmt B fmt info b).2.2.1 := by
  unfold sensor_s_fmt
  simp only []
  split_ifs
  · simp [same_presets]
  · simp [same_presets]
  · split
    · split_ifs <;> simp [same_presets]
    · simp [same_presets]


/-- The control setter keeps the stored presets in range. -/
theorem s_ctrl_stored_in_range {β : Type} (E : v4l2_env) (B : cci β) (ctrl : v4l2_control)
    (info : sensor_info) (b : β) (r : Int × sensor_info × β)
    (hs : stored_in_range E info) (h : sensor_s_ctrl E B ctrl info b = some r) :
    stored_in_range E r.2.1 := by
  obtain ⟨id, value⟩ := ctrl
  obtain ⟨hb, hwb, hfx, hfl⟩ := hs
  have hinfo : stored_in_range E info := ⟨hb, hwb, hfx, hfl⟩
  have hreg := register_setters_same_presets B value info b
  cases id <;>
    simp only [sensor_s_ctrl, sensor_queryctrl, v4l2_ctrl_query_fill, queryctrl_request,
      lt_self_iff_false, if_false, gt_iff_lt] at h
  case V4L2_CID_BRIGHTNESS => simp [EINVAL] at h; subst h; exact hinfo
  case V4L2_CID_CONTRAST => simp [EINVAL] at h; subst h; exact hinfo
  case V4L2_CID_SATURATION => simp [EINVAL] at h; subst h; exact hinfo
  case V4L2_CID_HUE => simp [EINVAL] at h; subst h; exact hinfo
  case V4L2_CID_GAIN => simp [EINVAL] at h; subst h; exact hinfo
  case V4L2_CID_AUTOGAIN => simp [EINVAL] at h; subst h; exact hinfo
  case other n => simp [EINVAL] at h; subst h; exact hinfo
  case V4L2_CID_VFLIP =>
    split_ifs at h <;> simp at h <;> subst h
    · exact hinfo
    · exact stored_in_range_of_same_presets E _ _ hreg.2.1 hinfo
  case V4L2_CID_HFLIP =>
    split_ifs at h <;> simp at h <;> subst h
    · exact hinfo
    · exact stored_in_range_of_same_presets E _ _ hreg.1 hinfo
  case V4L2_CID_EXPOSURE_AUTO =>
    split_ifs at h <;> simp at h <;> subst h
    · exact hinfo
    · exact stored_in_range_of_same_presets E _ _ hreg.2.2.1 hinfo
  case V4L2_CID_AUTO_WHITE_BALANCE =>
    split_ifs at h <;> simp at h <;> subst h
    · exact hinfo
    · exact stored_in_range_of_same_presets E _ _ hreg.2.2.2 hinfo
  case V4L2_CID_EXPOSURE =>
    simp only [sensor_s_exp_bias] at h
    split_ifs at h <;> try (simp at h; subst h; exact hinfo)
    split at h
    · simp at h
    · split_ifs at h <;> simp at h <;> subst h
      · exact hinfo
      · exact ⟨⟨by simp; omega, by simp; omega⟩, hwb, hfx, hfl⟩
  case V4L2_CID_AUTO_EXPOSURE_BIAS =>
    simp only [sensor_s_exp_bias] at h
    split_ifs at h <;> try (simp at h; subst h; exact hinfo)
    split at h
    · simp at h
    · split_ifs at h <;> simp at h <;> subst h
      · exact hinfo
      · exact ⟨⟨by simp; omega, by simp; omega⟩, hwb, hfx, hfl⟩
  case V4L2_CID_AUTO_N_PRESET_WHITE_BALANCE =>
    simp only [sensor_s_wb] at h
    split_ifs at h with hc <;> try (simp at h; subst h; exact hinfo)
    all_goals
      split at h
      · simp at h
      · split_ifs at h <;> simp at h <;> subst h
        · exact hinfo
        · refine ⟨hb, fun ht => ?_, hfx, hfl⟩
          simp only [ht, true_and, not_or, not_lt] at hc
          simpa using hc
  case V4L2_CID_COLORFX =>
    simp only [sensor_s_colorfx] at h
    split_ifs at h with hc <;> try (simp at h; subst h; exact hinfo)
    split at h
    · simp at h
    · split_ifs at h <;> simp at h <;> subst h
      · exact hinfo
      · refine ⟨hb, hwb, fun ht => ?_, hfl⟩
        simp only [ht, true_and, not_or, not_lt] at hc
        simpa using hc
  case V4L2_CID_FLASH_LED_MODE =>
    simp only [sensor_s_flash_mode] at h
    split_ifs at h with hc <;> simp at h <;> subst h
    · exact hinfo
    · refine ⟨hb, hwb, hfx, fun ht => ?_⟩
      simp only [ht, true_and, not_or, not_lt] at hc
      simpa using hc

/-- Every reachable state keeps the stored presets in range. -/
theorem reachable_stored_in_range (E : v4l2_env) (info : sensor_info)
    (h : reachable E info) : stored_in_range E info := by
  induction h with
  | probe => simp [stored_in_range, sensor_probe]
  | s_ctrl B ctrl info b r _ hr ih => exact s_ctrl_stored_in_range E B ctrl info b r ih hr
  | g_ctrl B ctrl info b _ ih =>
    exact stored_in_range_of_same_presets E _ _ (g_ctrl_same_presets B ctrl info b) ih
  | s_fmt B fmt info b _ ih =>
    exact stored_in_range_of_same_presets E _ _ (s_fmt_same_presets B fmt info b) ih


/-! ## Range validation and the stored-value shortcut in `sensor_s_ctrl` -/

/-- The controls `sensor_queryctrl` declares are exactly the nine it has a
case for. -/
theorem queryctrl_declared_iff (E : v4l2_env) (id : v4l2_cid) :
    (sensor_queryctrl E (queryctrl_request id)).1 = 0 ↔
      id ∈ [v4l2_cid.V4L2_CID_VFLIP, .V4L2_CID_HFLIP, .V4L2_CID_EXPOSURE,
        .V4L2_CID_AUTO_EXPOSURE_BIAS, .V4L2_CID_EXPOSURE_AUTO,
        .V4L2_CID_AUTO_N_PRESET_WHITE_BALANCE, .V4L2_CID_AUTO_WHITE_BALANCE,
        .V4L2_CID_COLORFX, .V4L2_CID_FLASH_LED_MODE] := by
  cases id <;> simp [sensor_queryctrl, v4l2_ctrl_query_fill, queryctrl_request, EINVAL]

/-- C1: for every control that `sensor_queryctrl` declares, every reachable
device state and every value below the declared minimum or above the declared
maximum, `sensor_s_ctrl` returns `-ERANGE` and hands back the `sensor_info`
and the bus state it was given.  The type that `v4l2_ctrl_query_fill` gives
the control comes from the kernel's control core: it is assumed to be one of
the three types `sensor_s_ctrl` range-checks (menu, integer, boolean), except
for the two exposure-bias controls, where any type will do because
`sensor_s_exp_bias` tests the range itself. -/
theorem s_ctrl_out_of_range {β : Type} (E : v4l2_env) (B : cci β) (ctrl : v4l2_control)
    (info : sensor_info) (b : β)
    (hdecl : (sensor_queryctrl E (queryctrl_request ctrl.id)).1 = 0)
    (htype : range_checked (E.ctrl_type ctrl.id) = true ∨
      ctrl.id = .V4L2_CID_EXPOSURE ∨ ctrl.id = .V4L2_CID_AUTO_EXPOSURE_BIAS)
    (hreach : reachable E info)
    (hval : ctrl.value < (sensor_queryctrl E (queryctrl_request ctrl.id)).2.minimum ∨
      (sensor_queryctrl E (queryctrl_request ctrl.id)).2.maximum < ctrl.value) :
    sensor_s_ctrl E B ctrl info b = some (-ERANGE, info, b) := by
  obtain ⟨id, value⟩ := ctrl
  obtain ⟨⟨hb1, hb2⟩, -⟩ := reachable_stored_in_range E info hreach
  have hbias : ∀ v : Int, v < -4 ∨ 4 < v →
      sensor_s_exp_bias B v info b = some (-ERANGE, info, b) := by
    intro v hv
    have hne : ¬ info.exp_bias = v := by omega
    simp [sensor_s_exp_bias, hne, hv]
  cases id <;>
    simp only [sensor_queryctrl, v4l2_ctrl_query_fill, queryctrl_request] at hdecl hval <;>
    simp only [sensor_s_ctrl, sensor_queryctrl, v4l2_ctrl_query_fill, queryctrl_request,
      lt_self_iff_false, if_false, gt_iff_lt] <;>
    first
    | (solve | simp [EINVAL] at hdecl)
    | (by_cases ht : range_checked (E.ctrl_type .V4L2_CID_EXPOSURE) = true
       · simp [ht, hval]
       · simp [ht, hbias value hval])
    | (by_cases ht : range_checked (E.ctrl_type .V4L2_CID_AUTO_EXPOSURE_BIAS) = true
       · simp [ht, hval]
       · simp [ht, hbias value hval])
    | (simp only [reduceCtorEq, or_false] at htype
       simp [htype, hval])

/-- Witness of `s_ctrl_out_of_range`: exposure bias 5 on a freshly probed
device, with the control types of the Linux control core (where the bias is an
integer menu, which `sensor_s_ctrl` does not range-check itself). -/
theorem s_ctrl_out_of_range_witness :
    sensor_s_ctrl linux_env trace_cci ⟨.V4L2_CID_AUTO_EXPOSURE_BIAS, 5⟩ sensor_probe ⟨[], []⟩ =
      some (-ERANGE, sensor_probe, ⟨[], []⟩) :=
  s_ctrl_out_of_range linux_env trace_cci ⟨.V4L2_CID_AUTO_EXPOSURE_BIAS, 5⟩ sensor_probe
    ⟨[], []⟩ (by decide) (by decide) reachable.probe (by decide)

/-- C2, as the code has it: for the controls whose setter compares with the
stored value (EXPOSURE, AUTO_EXPOSURE_BIAS, AUTO_N_PRESET_WHITE_BALANCE,
COLORFX, FLASH_LED_MODE) and every reachable device state, `sensor_s_ctrl`
called with the value already stored for the control returns 0 and hands back
the `sensor_info` and the bus state it was given: no bus helper is called. -/
theorem s_ctrl_stored_value_noop {β : Type} (E : v4l2_env) (B : cci β) (id : v4l2_cid)
    (info : sensor_info) (b : β)
    (hid : id = .V4L2_CID_EXPOSURE ∨ id = .V4L2_CID_AUTO_EXPOSURE_BIAS ∨
      id = .V4L2_CID_AUTO_N_PRESET_WHITE_BALANCE ∨ id = .V4L2_CID_COLORFX ∨
      id = .V4L2_CID_FLASH_LED_MODE)
    (hreach : reachable E info) :
    sensor_s_ctrl E B ⟨id, stored_value id info⟩ info b = some (0, info, b) := by
  obtain ⟨⟨hb1, hb2⟩, hwb, hfx, hfl⟩ := reachable_stored_in_range E info hreach
  rcases hid with rfl | rfl | rfl | rfl | rfl <;>
    simp only [sensor_s_ctrl, sensor_queryctrl, v4l2_ctrl_query_fill, queryctrl_request,
      stored_value, lt_self_iff_false, if_false, gt_iff_lt]
  · have hr : ¬ (range_checked (E.ctrl_type .V4L2_CID_EXPOSURE) = true ∧
        (info.exp_bias < -4 ∨ 4 < info.exp_bias)) := by
      rintro ⟨-, h⟩
      omega
    simp [hr, sensor_s_exp_bias]
  · have hr : ¬ (range_checked (E.ctrl_type .V4L2_CID_AUTO_EXPOSURE_BIAS) = true ∧
        (info.exp_bias < -4 ∨ 4 < info.exp_bias)) := by
      rintro ⟨-, h⟩
      omega
    simp [hr, sensor_s_exp_bias]
  · have hr : ¬ (range_checked (E.ctrl_type .V4L2_CID_AUTO_N_PRESET_WHITE_BALANCE) = true ∧
        (info.wb < 0 ∨ 9 < info.wb)) := by
      rintro ⟨ht, h⟩
      have := hwb ht
      omega
    simp [hr, sensor_s_wb]
  · have hr : ¬ (range_checked (E.ctrl_type .V4L2_CID_COLORFX) = true ∧
        (info.clrfx < 0 ∨ 15 < info.clrfx)) := by
      rintro ⟨ht, h⟩
      have := hfx ht
      omega
    simp [hr, sensor_s_colorfx]
  · have hr : ¬ (range_checked (E.ctrl_type .V4L2_CID_FLASH_LED_MODE) = true ∧
        (info.flash_mode < 0 ∨ 4 < info.flash_mode)) := by
      rintro ⟨ht, h⟩
      have := hfl ht
      omega
    simp [hr, sensor_s_flash_mode]

/-- Witness of `s_ctrl_stored_value_noop`: the colour effect of a freshly
probed device, set again to its stored value on the recording bus. -/
theorem s_ctrl_stored_value_noop_witness :
    sensor_s_ctrl linux_env trace_cci
        ⟨.V4L2_CID_COLORFX, stored_value .V4L2_CID_COLORFX sensor_probe⟩ sensor_probe ⟨[], []⟩ =
      some (0, sensor_probe, ⟨[], []⟩) :=
  s_ctrl_stored_value_noop linux_env trace_cci .V4L2_CID_COLORFX sensor_probe ⟨[], []⟩
    (by decide) reachable.probe

/-- C2 fails as stated for the register-backed controls: on a freshly probed
device, whose stored flips are 0, auto exposure 0 and auto white balance 1,
setting HFLIP, VFLIP, EXPOSURE_AUTO or AUTO_WHITE_BALANCE to its stored value
returns 0 with `sensor_info` unchanged, but reads and writes the bus (seven
helper calls for a flip, three for auto exposure, four for auto white
balance). -/
theorem s_ctrl_stored_value_uses_bus :
    (stored_value .V4L2_CID_HFLIP sensor_probe = 0 ∧
     sensor_s_ctrl linux_env trace_cci ⟨.V4L2_CID_HFLIP, 0⟩ sensor_probe ⟨[], []⟩ =
      some (0, sensor_probe,
        ⟨[.write 0xf0 0x00, .read 0x0f, .read 0x45, .read 0x47,
          .write 0x0f 0, .write 0x45 0, .write 0x47 0], []⟩)) ∧
    (stored_value .V4L2_CID_VFLIP sensor_probe = 0 ∧
     sensor_s_ctrl linux_env trace_cci ⟨.V4L2_CID_VFLIP, 0⟩ sensor_probe ⟨[], []⟩ =
      some (0, sensor_probe,
        ⟨[.write 0xf0 0x00, .read 0x0f, .read 0x45, .read 0x47,
          .write 0x0f 0, .write 0x45 0, .write 0x47 0], []⟩)) ∧
    (stored_value .V4L2_CID_EXPOSURE_AUTO sensor_probe = 0 ∧
     sensor_s_ctrl linux_env trace_cci ⟨.V4L2_CID_EXPOSURE_AUTO, 0⟩ sensor_probe ⟨[], []⟩ =
      some (0, sensor_probe, ⟨[.write 0xfe 0x00, .read 0x41, .write 0x41 0x08], []⟩)) ∧
    (stored_value .V4L2_CID_AUTO_WHITE_BALANCE sensor_probe = 1 ∧
     sensor_s_ctrl linux_env trace_cci ⟨.V4L2_CID_AUTO_WHITE_BALANCE, 1⟩ sensor_probe ⟨[], []⟩ =
      some (0, sensor_probe,
        ⟨[.write_array sensor_wb_auto_regs 4, .write 0xf0 0x00, .read 0x41,
          .write 0x41 0x04], []⟩)) := by
  decide


/-! ## The recording bus and the abort discipline -/

/-- A call on the recording bus gets the first scripted answer, is appended
to the log and moves the script on by one. -/
theorem trace_call (t : cci_trace) (op : cci_op) :
    (t.call op).1.1 = t.answer 0 ∧ (t.call op).2.log = t.log ++ [op] ∧
    ∀ i, (t.call op).2.answer i = t.answer (i + 1) := by
  obtain ⟨log, script⟩ := t
  cases script <;> simp [cci_trace.call, cci_trace.answer]

/-- No call has been made yet. -/
theorem after_calls_zero (t : cci_trace) : after_calls 0 t t :=
  ⟨rfl, fun _ => rfl⟩

/-- One more call of any helper. -/
theorem after_calls_call (k : Nat) (t u : cci_trace) (op : cci_op) (h : after_calls k t u) :
    after_calls (k + 1) t (u.call op).2 ∧ (u.call op).1.1 = t.answer k := by
  obtain ⟨h1, h2, h3⟩ := trace_call u op
  refine ⟨⟨?_, ?_⟩, ?_⟩
  · rw [h2, List.length_append, h.1]; simp; omega
  · intro i
    rw [h3, h.2]
    congr 1
    omega
  · rw [h1, h.2, zero_add]

/-- The abort discipline is the discipline from call 0 on. -/
theorem aborts_on_failure_of_from (t : cci_trace) (info : sensor_info)
    (r : Int × sensor_info × cci_trace) (h : aborts_from 0 t info r) :
    aborts_on_failure t info r :=
  fun i hi hneg => h i (Nat.zero_le i) hi hneg

/-- A run that ends after `k` calls has nothing left to answer for. -/
theorem aborts_from_stop (k : Nat) (t u : cci_trace) (info info' : sensor_info) (c : Int)
    (h : after_calls k t u) : aborts_from k t info (c, info', u) := by
  intro i hk hi _
  simp only [h.1] at hi
  omega

/-- A run that ends with the `k`-th call, returns its answer and leaves
`sensor_info` alone keeps the discipline from `k` on. -/
theorem aborts_from_fail (k : Nat) (t u : cci_trace) (info : sensor_info)
    (h : after_calls (k + 1) t u) : aborts_from k t info (t.answer k, info, u) := by
  intro i hk hi _
  simp only [h.1] at hi ⊢
  obtain rfl : i = k := by omega
  exact ⟨by omega, rfl, trivial⟩

/-- When the `k`-th call succeeded the discipline from `k + 1` on is enough. -/
theorem aborts_from_step (k : Nat) (t : cci_trace) (info : sensor_info)
    (r : Int × sensor_info × cci_trace) (hk : ¬ t.answer k < 0)
    (h : aborts_from (k + 1) t info r) : aborts_from k t info r := by
  intro i hi hlen hneg
  have : i ≠ k := fun e => hk (e ▸ hneg)
  exact h i (by omega) hlen hneg

/-- The pattern `ret = sensor_write(...); if (ret < 0) return ret;`. -/
theorem aborts_from_write (k : Nat) (t u : cci_trace) (info : sensor_info) (reg val : Nat)
    (rest : Int × sensor_info × cci_trace) (h : after_calls k t u)
    (hrest : after_calls (k + 1) t (trace_cci.sensor_write u reg val).2 →
      aborts_from (k + 1) t info rest) :
    aborts_from k t info
      (if (trace_cci.sensor_write u reg val).1 < 0 then
        ((trace_cci.sensor_write u reg val).1, info, (trace_cci.sensor_write u reg val).2)
       else rest) := by
  obtain ⟨ha, hc⟩ := after_calls_call k t u (.write reg val) h
  have hc2 : (trace_cci.sensor_write u reg val).1 = t.answer k := hc
  split_ifs with hneg
  · rw [hc2]
    exact aborts_from_fail k t _ info ha
  · exact aborts_from_step k t info rest (by rw [← hc2]; exact hneg) (hrest ha)

/-- The pattern `ret = sensor_read(...); if (ret < 0) return ret;`. -/
theorem aborts_from_read (k : Nat) (t u : cci_trace) (info : sensor_info) (reg : Nat)
    (rest : Int × sensor_info × cci_trace) (h : after_calls k t u)
    (hrest : after_calls (k + 1) t (trace_cci.sensor_read u reg).2.2 →
      aborts_from (k + 1) t info rest) :
    aborts_from k t info
      (if (trace_cci.sensor_read u reg).1 < 0 then
        ((trace_cci.sensor_read u reg).1, info, (trace_cci.sensor_read u reg).2.2)
       else rest) := by
  obtain ⟨ha, hc⟩ := after_calls_call k t u (.read reg) h
  have hc2 : (trace_cci.sensor_read u reg).1 = t.answer k := hc
  split_ifs with hneg
  · rw [hc2]
    exact aborts_from_fail k t _ info ha
  · exact aborts_from_step k t info rest (by rw [← hc2]; exact hneg) (hrest ha)

/-- The pattern `ret = sensor_write_array(...); if (ret < 0) return ret;`. -/
theorem aborts_from_write_array (k : Nat) (t u : cci_trace) (info : sensor_info)
    (regs : List regval_list) (size : Int)
    (rest : Int × sensor_info × cci_trace) (h : after_calls k t u)
    (hrest : after_calls (k + 1) t (trace_cci.sensor_write_array u regs size).2 →
      aborts_from (k + 1) t info rest) :
    aborts_from k t info
      (if (trace_cci.sensor_write_array u regs size).1 < 0 then
        ((trace_cci.sensor_write_array u regs size).1, info,
          (trace_cci.sensor_write_array u regs size).2)
       else rest) := by
  obtain ⟨ha, hc⟩ := after_calls_call k t u (.write_array regs size) h
  have hc2 : (trace_cci.sensor_write_array u regs size).1 = t.answer k := hc
  split_ifs with hneg
  · rw [hc2]
    exact aborts_from_fail k t _ info ha
  · exact aborts_from_step k t info rest (by rw [← hc2]; exact hneg) (hrest ha)

/-- The flip write-back keeps the abort discipline. -/
theorem s_flip_commit_aborts (k : Nat) (is_h : Bool) (value : Int) (R0f R45 R47 : Nat)
    (info : sensor_info) (t u : cci_trace) (h : after_calls k t u) :
    aborts_from k t info (sensor_s_flip_commit trace_cci is_h value R0f R45 R47 info u) := by
  unfold sensor_s_flip_commit
  refine aborts_from_write k t u info _ _ _ h (fun a1 => ?_)
  refine aborts_from_write (k + 1) t _ info _ _ _ a1 (fun a2 => ?_)
  refine aborts_from_write (k + 2) t _ info _ _ _ a2 (fun a3 => ?_)
  exact aborts_from_stop (k + 3) t _ info _ 0 a3

/-- The horizontal flip setter keeps the abort discipline. -/
theorem s_hflip_aborts (value : Int) (info : sensor_info) (t : cci_trace) :
    aborts_on_failure t info (sensor_s_hflip trace_cci value info t) := by
  apply aborts_on_failure_of_from
  unfold sensor_s_hflip
  refine aborts_from_write 0 t t info _ _ _ (after_calls_zero t) (fun a1 => ?_)
  refine aborts_from_read 1 t _ info _ _ a1 (fun a2 => ?_)
  refine aborts_from_read 2 t _ info _ _ a2 (fun a3 => ?_)
  refine aborts_from_read 3 t _ info _ _ a3 (fun a4 => ?_)
  by_cases h0 : value = 0
  · rw [if_pos h0]
    exact s_flip_commit_aborts 4 _ _ _ _ _ info t _ a4
  · rw [if_neg h0]
    by_cases h1 : value = 1
    · rw [if_pos h1]
      exact s_flip_commit_aborts 4 _ _ _ _ _ info t _ a4
    · rw [if_neg h1]
      exact aborts_from_stop 4 t _ info info _ a4

/-- The vertical flip setter keeps the abort discipline. -/
theorem s_vflip_aborts (value : Int) (info : sensor_info) (t : cci_trace) :
    aborts_on_failure t info (sensor_s_vflip trace_cci value info t) := by
  apply aborts_on_failure_of_from
  unfold sensor_s_vflip
  refine aborts_from_write 0 t t info _ _ _ (after_calls_zero t) (fun a1 => ?_)
  refine aborts_from_read 1 t _ info _ _ a1 (fun a2 => ?_)
  refine aborts_from_read 2 t _ info _ _ a2 (fun a3 => ?_)
  refine aborts_from_read 3 t _ info _ _ a3 (fun a4 => ?_)
  by_cases h0 : value = 0
  · rw [if_pos h0]
    exact s_flip_commit_aborts 4 _ _ _ _ _ info t _ a4
  · rw [if_neg h0]
    by_cases h1 : value = 1
    · rw [if_pos h1]
      exact s_flip_commit_aborts 4 _ _ _ _ _ info t _ a4
    · rw [if_neg h1]
      exact aborts_from_stop 4 t _ info info _ a4

/-- The auto-exposure setter keeps the abort discipline. -/
theorem s_autoexp_aborts (value : Int) (info : sensor_info) (t : cci_trace) :
    aborts_on_failure t info (sensor_s_autoexp trace_cci value info t) := by
  apply aborts_on_failure_of_from
  unfold sensor_s_autoexp
  refine aborts_from_write 0 t t info _ _ _ (after_calls_zero t) (fun a1 => ?_)
  refine aborts_from_read 1 t _ info _ _ a1 (fun a2 => ?_)
  by_cases hv : value = V4L2_EXPOSURE_AUTO ∨ value = V4L2_EXPOSURE_MANUAL
  · rw [if_pos hv]
    refine aborts_from_write 2 t _ info _ _ _ a2 (fun a3 => ?_)
    exact aborts_from_stop 3 t _ info _ 0 a3
  · rw [if_neg hv]
    exact aborts_from_stop 2 t _ info info _ a2

/-- The auto-white-balance setter keeps the abort discipline. -/
theorem s_autowb_aborts (value : Int) (info : sensor_info) (t : cci_trace) :
    aborts_on_failure t info (sensor_s_autowb trace_cci value info t) := by
  apply aborts_on_failure_of_from
  unfold sensor_s_autowb
  refine aborts_from_write_array 0 t t info _ _ _ (after_calls_zero t) (fun a1 => ?_)
  refine aborts_from_write 1 t _ info _ _ _ a1 (fun a2 => ?_)
  refine aborts_from_read 2 t _ info _ _ a2 (fun a3 => ?_)
  refine aborts_from_write 3 t _ info _ _ _ a3 (fun a4 => ?_)
  exact aborts_from_stop 4 t _ info _ 0 a4

/-- A table-driven setter that returns or makes its one `sensor_write_array`
call keeps the abort discipline. -/
theorem table_write_aborts (info info' : sensor_info) (t : cci_trace) (c : cfg_array)
    (r : Int × sensor_info × cci_trace)
    (h : (if (trace_cci.sensor_write_array t c.regs c.size).1 < 0 then
            some ((trace_cci.sensor_write_array t c.regs c.size).1, info,
              (trace_cci.sensor_write_array t c.regs c.size).2)
          else some (0, info', (trace_cci.sensor_write_array t c.regs c.size).2)) = some r) :
    aborts_on_failure t info r := by
  apply aborts_on_failure_of_from
  have key := aborts_from_write_array 0 t t info c.regs c.size
    (0, info', (trace_cci.sensor_write_array t c.regs c.size).2) (after_calls_zero t)
    (fun a1 => aborts_from_stop 1 t _ info _ 0 a1)
  split_ifs at h with hneg
  · rw [if_pos hneg] at key
    cases h
    exact key
  · rw [if_neg hneg] at key
    cases h
    exact key

/-- A run without any helper call keeps the abort discipline. -/
theorem no_call_aborts (info info' : sensor_info) (t : cci_trace) (c : Int) :
    aborts_on_failure t info (c, info', t) :=
  aborts_on_failure_of_from t info _ (aborts_from_stop 0 t t info info' c (after_calls_zero t))


/-- C18: each control setter that touches the bus (`sensor_s_hflip`,
`sensor_s_vflip`, `sensor_s_autoexp`, `sensor_s_autowb`, `sensor_s_exp_bias`,
`sensor_s_wb`, `sensor_s_colorfx`), run on the recording bus with any script
of answers, keeps the abort discipline: if a bus call it issued got a negative
code, that call is the last one it issued, the setter returns exactly that
code and `sensor_info` is as before.  The script ranges over all sequences of
return codes and read data, so this covers every behaviour of the bus. -/
theorem setters_abort_on_bus_failure (E : v4l2_env) (value : Int) (info : sensor_info)
    (t : cci_trace) :
    aborts_on_failure t info (sensor_s_hflip trace_cci value info t) ∧
    aborts_on_failure t info (sensor_s_vflip trace_cci value info t) ∧
    aborts_on_failure t info (sensor_s_autoexp trace_cci value info t) ∧
    aborts_on_failure t info (sensor_s_autowb trace_cci value info t) ∧
    (∀ r, sensor_s_exp_bias trace_cci value info t = some r → aborts_on_failure t info r) ∧
    (∀ r, sensor_s_wb E trace_cci value info t = some r → aborts_on_failure t info r) ∧
    (∀ r, sensor_s_colorfx trace_cci value info t = some r → aborts_on_failure t info r) := by
  refine ⟨s_hflip_aborts value info t, s_vflip_aborts value info t,
    s_autoexp_aborts value info t, s_autowb_aborts value info t, ?_, ?_, ?_⟩
  · intro r h
    unfold sensor_s_exp_bias at h
    split_ifs at h
    · cases h; exact no_call_aborts info info t 0
    · cases h; exact no_call_aborts info info t _
    · split at h
      · cases h
      · exact table_write_aborts info _ t _ r h
  · intro r h
    unfold sensor_s_wb at h
    by_cases hc : info.capture_mode = E.V4L2_MODE_IMAGE
    · rw [if_pos hc] at h
      cases h; exact no_call_aborts info info t 0
    · rw [if_neg hc] at h
      by_cases hv : info.wb = value
      · rw [if_pos hv] at h
        cases h; exact no_call_aborts info info t 0
      · rw [if_neg hv] at h
        split at h
        · cases h
        · exact table_write_aborts info _ t _ r h
  · intro r h
    unfold sensor_s_colorfx at h
    split_ifs at h
    · cases h; exact no_call_aborts info info t 0
    · split at h
      · cases h
      · exact table_write_aborts info _ t _ r h

/-! ## Table bounds -/

/-- A table read is defined exactly for the indices inside the table. -/
theorem cfg_index_isSome_iff (tbl : List cfg_array) (i : Int) :
    (cfg_index tbl i).isSome = true ↔ 0 ≤ i ∧ i < tbl.length := by
  unfold cfg_index
  split_ifs with h
  · simp; omega
  · have h0 : 0 ≤ i := by omega
    obtain ⟨n, rfl⟩ := Int.eq_ofNat_of_zero_le h0
    rw [Int.toNat_ofNat, Option.isSome_iff_exists]
    constructor
    · rintro ⟨a, ha⟩
      have := (List.getElem?_eq_some.mp ha).1
      exact ⟨h0, by exact_mod_cast this⟩
    · rintro ⟨-, hlt⟩
      have hlt2 : n < tbl.length := by exact_mod_cast hlt
      exact ⟨tbl[n], List.getElem?_eq_getElem hlt2⟩

/-- The sizes of the three preset tables that have non-empty entries. -/
theorem table_lengths :
    sensor_ev.length = 9 ∧ sensor_wb.length = 10 ∧ sensor_colorfx.length = 16 := by
  decide


/-- C14: when the white-balance preset and the colour effect have a type that
`sensor_s_ctrl` range-checks, `sensor_s_ctrl` never reads a preset table
outside its bounds, whatever the control, the value, the state and the bus
(`none` is an out-of-bounds read).  The indices that pass the range tests are
inside the tables: `value + 4` is in [0, 8] for `sensor_ev` (9 entries) when
`value` is in [-4, 4], `value` in [0, 9] indexes `sensor_wb` (10 entries) and
`value` in [0, 15] indexes `sensor_colorfx` (16 entries).  Every entry of a
preset table has a `size` equal to the length of its register table. -/
theorem cfg_index_in_bounds {β : Type} (E : v4l2_env) (B : cci β)
    (hwb : range_checked (E.ctrl_type .V4L2_CID_AUTO_N_PRESET_WHITE_BALANCE) = true)
    (hfx : range_checked (E.ctrl_type .V4L2_CID_COLORFX) = true) :
    (∀ ctrl info b, (sensor_s_ctrl E B ctrl info b).isSome = true) ∧
    (sensor_ev.length = 9 ∧ ∀ v : Int, -4 ≤ v → v ≤ 4 →
      0 ≤ v + 4 ∧ v + 4 ≤ 8 ∧ (cfg_index sensor_ev (v + 4)).isSome = true) ∧
    (sensor_wb.length = 10 ∧ ∀ v : Int, 0 ≤ v → v ≤ 9 →
      (cfg_index sensor_wb v).isSome = true) ∧
    (sensor_colorfx.length = 16 ∧ ∀ v : Int, 0 ≤ v → v ≤ 15 →
      (cfg_index sensor_colorfx v).isSome = true) ∧
    (∀ c ∈ sensor_ev ++ sensor_wb ++ sensor_colorfx ++ sensor_brightness ++ sensor_contrast ++
        sensor_saturation, c.size = c.regs.length) := by
  obtain ⟨lev, lwb, lfx⟩ := table_lengths
  have hev : ∀ v : Int, -4 ≤ v → v ≤ 4 → (cfg_index sensor_ev (v + 4)).isSome = true := by
    intro v h1 h2
    rw [cfg_index_isSome_iff, lev]
    omega
  have hw : ∀ v : Int, 0 ≤ v → v ≤ 9 → (cfg_index sensor_wb v).isSome = true := by
    intro v h1 h2
    rw [cfg_index_isSome_iff, lwb]
    omega
  have hf : ∀ v : Int, 0 ≤ v → v ≤ 15 → (cfg_index sensor_colorfx v).isSome = true := by
    intro v h1 h2
    rw [cfg_index_isSome_iff, lfx]
    omega
  refine ⟨?_, ⟨lev, fun v h1 h2 => ⟨by omega, by omega, hev v h1 h2⟩⟩, ⟨lwb, hw⟩, ⟨lfx, hf⟩, ?_⟩
  · rintro ⟨id, value⟩ info b
    cases id <;>
      simp only [sensor_s_ctrl, sensor_queryctrl, v4l2_ctrl_query_fill, queryctrl_request,
        lt_self_iff_false, if_false, gt_iff_lt, hwb, hfx, true_and]
    case V4L2_CID_BRIGHTNESS => simp [EINVAL]
    case V4L2_CID_CONTRAST => simp [EINVAL]
    case V4L2_CID_SATURATION => simp [EINVAL]
    case V4L2_CID_HUE => simp [EINVAL]
    case V4L2_CID_GAIN => simp [EINVAL]
    case V4L2_CID_AUTOGAIN => simp [EINVAL]
    case other n => simp [EINVAL]
    case V4L2_CID_VFLIP => split_ifs <;> rfl
    case V4L2_CID_HFLIP => split_ifs <;> rfl
    case V4L2_CID_EXPOSURE_AUTO => split_ifs <;> rfl
    case V4L2_CID_AUTO_WHITE_BALANCE => split_ifs <;> rfl
    case V4L2_CID_FLASH_LED_MODE => split_ifs <;> rfl
    case V4L2_CID_EXPOSURE =>
      split_ifs
      · rfl
      · unfold sensor_s_exp_bias
        split_ifs with h1 h2
        · rfl
        · rfl
        · have hs := hev value (by omega) (by omega)
          obtain ⟨c, hc⟩ := Option.isSome_iff_exists.mp hs
          rw [hc]
          simp only []
          split_ifs <;> rfl
    case V4L2_CID_AUTO_EXPOSURE_BIAS =>
      split_ifs
      · rfl
      · unfold sensor_s_exp_bias
        split_ifs with h1 h2
        · rfl
        · rfl
        · have hs := hev value (by omega) (by omega)
          obtain ⟨c, hc⟩ := Option.isSome_iff_exists.mp hs
          rw [hc]
          simp only []
          split_ifs <;> rfl
    case V4L2_CID_AUTO_N_PRESET_WHITE_BALANCE =>
      split_ifs with h0
      · rfl
      · unfold sensor_s_wb
        by_cases h1 : info.capture_mode = E.V4L2_MODE_IMAGE
        · rw [if_pos h1]; rfl
        · rw [if_neg h1]
          by_cases h2 : info.wb = value
          · rw [if_pos h2]; rfl
          · rw [if_neg h2]
            have hs := hw value (by omega) (by omega)
            obtain ⟨c, hc⟩ := Option.isSome_iff_exists.mp hs
            rw [hc]
            simp only []
            split_ifs <;> rfl
    case V4L2_CID_COLORFX =>
      split_ifs with h0
      · rfl
      · unfold sensor_s_colorfx
        split_ifs with h1
        · rfl
        · have hs := hf value (by omega) (by omega)
          obtain ⟨c, hc⟩ := Option.isSome_iff_exists.mp hs
          rw [hc]
          simp only []
          split_ifs <;> rfl
  · decide

/-- Witness of `cfg_index_in_bounds`: the control types of the Linux control
core on the recording bus. -/
theorem cfg_index_in_bounds_witness :
    (sensor_s_ctrl linux_env trace_cci ⟨.V4L2_CID_COLORFX, 15⟩ sensor_probe ⟨[], []⟩).isSome = true ∧
    (cfg_index sensor_ev (4 + 4)).isSome = true :=
  ⟨(cfg_index_in_bounds linux_env trace_cci (by decide) (by decide)).1
      ⟨.V4L2_CID_COLORFX, 15⟩ sensor_probe ⟨[], []⟩,
   ((cfg_index_in_bounds linux_env trace_cci (by decide) (by decide)).2.1.2 4
      (by decide) (by decide)).2.2⟩


/-! ## Declared and undeclared controls -/

/-- C15, as the code has it: every control that `sensor_queryctrl` declares
(the flips, the two exposure-bias controls, auto exposure, the white-balance
preset, auto white balance, the colour effect and the flash LED mode) has a
declared range with minimum <= default <= maximum, and on a bus without
failures `sensor_s_ctrl` accepts every value inside that range: it returns 0,
so neither `-EINVAL` nor `-ERANGE`. -/
theorem declared_controls_accept_range {β : Type} (E : v4l2_env) (B : cci β)
    (ctrl : v4l2_control) (info : sensor_info) (b : β)
    (hok : bus_ok B)
    (hdecl : (sensor_queryctrl E (queryctrl_request ctrl.id)).1 = 0)
    (hmin : (sensor_queryctrl E (queryctrl_request ctrl.id)).2.minimum ≤ ctrl.value)
    (hmax : ctrl.value ≤ (sensor_queryctrl E (queryctrl_request ctrl.id)).2.maximum) :
    ((sensor_queryctrl E (queryctrl_request ctrl.id)).2.minimum ≤
        (sensor_queryctrl E (queryctrl_request ctrl.id)).2.default_value ∧
      (sensor_queryctrl E (queryctrl_request ctrl.id)).2.default_value ≤
        (sensor_queryctrl E (queryctrl_request ctrl.id)).2.maximum) ∧
    ∃ info' b', sensor_s_ctrl E B ctrl info b = some (0, info', b') := by
  obtain ⟨id, value⟩ := ctrl
  obtain ⟨okw, okr, oka⟩ := hok
  have hw : ∀ b reg val, ¬ (B.sensor_write b reg val).1 < 0 := fun b reg val =>
    not_lt.mpr (okw b reg val)
  have hr : ∀ b reg, ¬ (B.sensor_read b reg).1 < 0 := fun b reg => not_lt.mpr (okr b reg)
  have ha : ∀ b regs size, ¬ (B.sensor_write_array b regs size).1 < 0 := fun b regs size =>
    not_lt.mpr (oka b regs size)
  have htab : ∀ (tbl : List cfg_array) (v : Int) (f : cfg_array → sensor_info),
      (cfg_index tbl v).isSome = true →
      ∃ info' b', (match cfg_index tbl v with
        | none => none
        | some c =>
          if (B.sensor_write_array b c.regs c.size).1 < 0 then
            some ((B.sensor_write_array b c.regs c.size).1, info,
              (B.sensor_write_array b c.regs c.size).2)
          else some (0, f c, (B.sensor_write_array b c.regs c.size).2)) =
        some (0, info', b') := by
    intro tbl v f hs
    obtain ⟨c, hc⟩ := Option.isSome_iff_exists.mp hs
    rw [hc]
    simp only [if_neg (ha b c.regs c.size)]
    exact ⟨_, _, rfl⟩
  obtain ⟨lev, lwb, lfx⟩ := table_lengths
  cases id <;>
    simp only [sensor_queryctrl, v4l2_ctrl_query_fill, queryctrl_request] at hdecl hmin hmax ⊢
  case V4L2_CID_BRIGHTNESS => simp [EINVAL] at hdecl
  case V4L2_CID_CONTRAST => simp [EINVAL] at hdecl
  case V4L2_CID_SATURATION => simp [EINVAL] at hdecl
  case V4L2_CID_HUE => simp [EINVAL] at hdecl
  case V4L2_CID_GAIN => simp [EINVAL] at hdecl
  case V4L2_CID_AUTOGAIN => simp [EINVAL] at hdecl
  case other n => simp [EINVAL] at hdecl
  case V4L2_CID_VFLIP =>
    refine ⟨by decide, ?_⟩
    have hv : value = 0 ∨ value = 1 := by omega
    rcases hv with rfl | rfl <;>
      simp [sensor_s_ctrl, sensor_queryctrl, v4l2_ctrl_query_fill, queryctrl_request,
        sensor_s_vflip, sensor_s_flip_commit, hw, hr]
  case V4L2_CID_HFLIP =>
    refine ⟨by decide, ?_⟩
    have hv : value = 0 ∨ value = 1 := by omega
    rcases hv with rfl | rfl <;>
      simp [sensor_s_ctrl, sensor_queryctrl, v4l2_ctrl_query_fill, queryctrl_request,
        sensor_s_hflip, sensor_s_flip_commit, hw, hr]
  case V4L2_CID_EXPOSURE_AUTO =>
    refine ⟨by decide, ?_⟩
    have hv : value = 0 ∨ value = 1 := by omega
    rcases hv with rfl | rfl <;>
      simp [sensor_s_ctrl, sensor_queryctrl, v4l2_ctrl_query_fill, queryctrl_request,
        sensor_s_autoexp, V4L2_EXPOSURE_AUTO, V4L2_EXPOSURE_MANUAL, hw, hr]
  case V4L2_CID_AUTO_WHITE_BALANCE =>
    refine ⟨by decide, ?_⟩
    have hv : value = 0 ∨ value = 1 := by omega
    rcases hv with rfl | rfl <;>
      simp [sensor_s_ctrl, sensor_queryctrl, v4l2_ctrl_query_fill, queryctrl_request,
        sensor_s_autowb, hw, hr, ha]
  case V4L2_CID_FLASH_LED_MODE =>
    refine ⟨by decide, ?_⟩
    have hno : ¬ (value < 0 ∨ 4 < value) := by omega
    simp [sensor_s_ctrl, sensor_queryctrl, v4l2_ctrl_query_fill, queryctrl_request,
      sensor_s_flash_mode, hno]
  case V4L2_CID_EXPOSURE =>
    refine ⟨by decide, ?_⟩
    have hno : ¬ (value < -4 ∨ 4 < value) := by omega
    simp only [sensor_s_ctrl, sensor_queryctrl, v4l2_ctrl_query_fill, queryctrl_request,
      lt_self_iff_false, if_false, gt_iff_lt, hno, and_false, sensor_s_exp_bias]
    by_cases he : info.exp_bias = value
    · rw [if_pos he]; exact ⟨_, _, rfl⟩
    · rw [if_neg he]
      exact htab sensor_ev (value + 4) _
        ((cfg_index_isSome_iff _ _).mpr (by rw [lev]; omega))
  case V4L2_CID_AUTO_EXPOSURE_BIAS =>
    refine ⟨by decide, ?_⟩
    have hno : ¬ (value < -4 ∨ 4 < value) := by omega
    simp only [sensor_s_ctrl, sensor_queryctrl, v4l2_ctrl_query_fill, queryctrl_request,
      lt_self_iff_false, if_false, gt_iff_lt, hno, and_false, sensor_s_exp_bias]
    by_cases he : info.exp_bias = value
    · rw [if_pos he]; exact ⟨_, _, rfl⟩
    · rw [if_neg he]
      exact htab sensor_ev (value + 4) _
        ((cfg_index_isSome_iff _ _).mpr (by rw [lev]; omega))
  case V4L2_CID_AUTO_N_PRESET_WHITE_BALANCE =>
    refine ⟨by decide, ?_⟩
    have hno : ¬ (value < 0 ∨ 9 < value) := by omega
    simp only [sensor_s_ctrl, sensor_queryctrl, v4l2_ctrl_query_fill, queryctrl_request,
      lt_self_iff_false, if_false, gt_iff_lt, hno, and_false, sensor_s_wb]
    by_cases hc : info.capture_mode = E.V4L2_MODE_IMAGE
    · rw [if_pos hc]; exact ⟨_, _, rfl⟩
    · rw [if_neg hc]
      by_cases he : info.wb = value
      · rw [if_pos he]; exact ⟨_, _, rfl⟩
      · rw [if_neg he]
        exact htab sensor_wb value _ ((cfg_index_isSome_iff _ _).mpr (by rw [lwb]; omega))
  case V4L2_CID_COLORFX =>
    refine ⟨by decide, ?_⟩
    have hno : ¬ (value < 0 ∨ 15 < value) := by omega
    simp only [sensor_s_ctrl, sensor_queryctrl, v4l2_ctrl_query_fill, queryctrl_request,
      lt_self_iff_false, if_false, gt_iff_lt, hno, and_false, sensor_s_colorfx]
    by_cases he : info.clrfx = value
    · rw [if_pos he]; exact ⟨_, _, rfl⟩
    · rw [if_neg he]
      exact htab sensor_colorfx value _ ((cfg_index_isSome_iff _ _).mpr (by rw [lfx]; omega))

/-- The recording bus without failures never fails. -/
theorem ok_cci_bus_ok : bus_ok ok_cci := by
  simp [bus_ok, ok_cci]

/-- Witness of `declared_controls_accept_range`: vertical flip set to 1 on a
freshly probed device over the bus without failures. -/
theorem declared_controls_accept_range_witness :
    ∃ info' b', sensor_s_ctrl linux_env ok_cci ⟨.V4L2_CID_VFLIP, 1⟩ sensor_probe [] =
      some (0, info', b') :=
  (declared_controls_accept_range linux_env ok_cci ⟨.V4L2_CID_VFLIP, 1⟩ sensor_probe []
    ok_cci_bus_ok (by decide) (by decide) (by decide)).2

/-- C15 fails as stated for brightness, contrast and saturation: their cases
in `sensor_queryctrl` are commented out, so `sensor_queryctrl` returns
`-EINVAL` for them and `sensor_s_ctrl` rejects the value 0 with `-EINVAL`
even on a bus without failures. -/
theorem brightness_contrast_saturation_undeclared :
    (sensor_queryctrl linux_env (queryctrl_request .V4L2_CID_BRIGHTNESS)).1 = -EINVAL ∧
    (sensor_queryctrl linux_env (queryctrl_request .V4L2_CID_CONTRAST)).1 = -EINVAL ∧
    (sensor_queryctrl linux_env (queryctrl_request .V4L2_CID_SATURATION)).1 = -EINVAL ∧
    sensor_s_ctrl linux_env ok_cci ⟨.V4L2_CID_BRIGHTNESS, 0⟩ sensor_probe [] =
      some (-EINVAL, sensor_probe, []) ∧
    sensor_s_ctrl linux_env ok_cci ⟨.V4L2_CID_CONTRAST, 0⟩ sensor_probe [] =
      some (-EINVAL, sensor_probe, []) ∧
    sensor_s_ctrl linux_env ok_cci ⟨.V4L2_CID_SATURATION, 0⟩ sensor_probe [] =
      some (-EINVAL, sensor_probe, []) := by
  decide

/-- C16: for every control outside the nine that `sensor_queryctrl` declares,
`sensor_queryctrl` returns `-EINVAL` without filling the description and
`sensor_s_ctrl` returns `-EINVAL` for every value; if the control is also none
of brightness, contrast and saturation, `sensor_g_ctrl` returns `-EINVAL` and
leaves the caller's value alone.  In all these cases the `sensor_info` and the
bus state come back as they were given: no bus helper is called. -/
theorem undeclared_controls_rejected {β : Type} (E : v4l2_env) (B : cci β)
    (ctrl : v4l2_control) (qc : v4l2_queryctrl) (info : sensor_info) (b : β)
    (hqc : qc.id = ctrl.id)
    (hid : ctrl.id ∉ [v4l2_cid.V4L2_CID_VFLIP, .V4L2_CID_HFLIP, .V4L2_CID_EXPOSURE,
        .V4L2_CID_AUTO_EXPOSURE_BIAS, .V4L2_CID_EXPOSURE_AUTO,
        .V4L2_CID_AUTO_N_PRESET_WHITE_BALANCE, .V4L2_CID_AUTO_WHITE_BALANCE,
        .V4L2_CID_COLORFX, .V4L2_CID_FLASH_LED_MODE]) :
    sensor_queryctrl E qc = (-EINVAL, qc) ∧
    sensor_s_ctrl E B ctrl info b = some (-EINVAL, info, b) ∧
    (ctrl.id ∉ [v4l2_cid.V4L2_CID_BRIGHTNESS, .V4L2_CID_CONTRAST, .V4L2_CID_SATURATION] →
      sensor_g_ctrl B ctrl info b = (-EINVAL, ctrl.value, info, b)) := by
  obtain ⟨id, value⟩ := ctrl
  obtain ⟨qid, qtype, qmin, qmax, qstep, qdef⟩ := qc
  simp only at hqc
  subst hqc
  cases qid <;> simp at hid <;>
    simp [sensor_queryctrl, sensor_s_ctrl, queryctrl_request, sensor_g_ctrl, sensor_g_hue,
      sensor_g_gain, sensor_g_autogain, EINVAL]

/-- Witness of `undeclared_controls_rejected`: a control identifier the
driver does not know, on the recording bus. -/
theorem undeclared_controls_rejected_witness :
    sensor_queryctrl linux_env (queryctrl_request (.other 7)) =
      (-EINVAL, queryctrl_request (.other 7)) ∧
    sensor_s_ctrl linux_env trace_cci ⟨.other 7, 3⟩ sensor_probe ⟨[], []⟩ =
      some (-EINVAL, sensor_probe, ⟨[], []⟩) ∧
    sensor_g_ctrl trace_cci ⟨.other 7, 3⟩ sensor_probe ⟨[], []⟩ =
      (-EINVAL, 3, sensor_probe, ⟨[], []⟩) :=
  have h := undeclared_controls_rejected linux_env trace_cci ⟨.other 7, 3⟩
    (queryctrl_request (.other 7)) sensor_probe ⟨[], []⟩ rfl (by decide)
  ⟨h.1, h.2.1, h.2.2 (by decide)⟩


/-! ## Detection, format write and power-down -/

set_option maxRecDepth 8000 in
/-- The default register table has 295 entries. -/
theorem default_regs_size : ARRAY_SIZE sensor_default_regs = 295 := by
  rfl

/-- C17: when the page-select write and the read of identity register 0x00
succeed, `sensor_init` returns `-ENODEV` without calling `sensor_write_array`
(the bus is left as it was after the read) if the value read is not 0x99, and
otherwise makes the one call of `sensor_write_array` with the whole table
`sensor_default_regs` (295 entries, in table order) and returns what that call
returns; when that call succeeds too, `sensor_init` returns `-ENODEV` exactly
when the value read is not 0x99. -/
theorem init_checks_identity {β : Type} (B : cci β) (b : β)
    (hw : 0 ≤ (B.sensor_write b 0xf0 0x00).1)
    (hr : 0 ≤ (B.sensor_read (B.sensor_write b 0xf0 0x00).2 0x00).1) :
    ((B.sensor_read (B.sensor_write b 0xf0 0x00).2 0x00).2.1 ≠ 0x99 →
      sensor_init B b = (-ENODEV, (B.sensor_read (B.sensor_write b 0xf0 0x00).2 0x00).2.2)) ∧
    ((B.sensor_read (B.sensor_write b 0xf0 0x00).2 0x00).2.1 = 0x99 →
      sensor_init B b =
        B.sensor_write_array (B.sensor_read (B.sensor_write b 0xf0 0x00).2 0x00).2.2
          sensor_default_regs (ARRAY_SIZE sensor_default_regs)) ∧
    ARRAY_SIZE sensor_default_regs = 295 ∧
    (0 ≤ (B.sensor_write_array (B.sensor_read (B.sensor_write b 0xf0 0x00).2 0x00).2.2
          sensor_default_regs (ARRAY_SIZE sensor_default_regs)).1 →
      ((sensor_init B b).1 = -ENODEV ↔
        (B.sensor_read (B.sensor_write b 0xf0 0x00).2 0x00).2.1 ≠ 0x99)) := by
  have hw2 : ¬ (B.sensor_write b 0xf0 0x00).1 < 0 := not_lt.mpr hw
  have hr2 : ¬ (B.sensor_read (B.sensor_write b 0xf0 0x00).2 0x00).1 < 0 := not_lt.mpr hr
  have hne : (B.sensor_read (B.sensor_write b 0xf0 0x00).2 0x00).2.1 ≠ 0x99 →
      sensor_init B b = (-ENODEV, (B.sensor_read (B.sensor_write b 0xf0 0x00).2 0x00).2.2) := by
    intro h
    simp [sensor_init, sensor_detect, hw2, hr2, h, ENODEV]
  have heq : (B.sensor_read (B.sensor_write b 0xf0 0x00).2 0x00).2.1 = 0x99 →
      sensor_init B b =
        B.sensor_write_array (B.sensor_read (B.sensor_write b 0xf0 0x00).2 0x00).2.2
          sensor_default_regs (ARRAY_SIZE sensor_default_regs) := by
    intro h
    simp [sensor_init, sensor_detect, hw2, hr2, h]
  refine ⟨hne, heq, default_regs_size, fun ha => ⟨fun h => ?_, fun h => ?_⟩⟩
  · intro h99
    rw [heq h99] at h
    rw [h] at ha
    simp [ENODEV] at ha
  · rw [hne h]

/-- Witness of `init_checks_identity`: a chip that answers 0x99 on the
recording bus. -/
theorem init_checks_identity_witness :
    sensor_init trace_cci ⟨[], [(0, 0), (0, 0x99)]⟩ =
      (0, ⟨[.write 0xf0 0x00, .read 0x00, .write_array sensor_default_regs 295], []⟩) := by
  have h := (init_checks_identity trace_cci ⟨[], [(0, 0), (0, 0x99)]⟩
    (by decide) (by decide)).2.1 (by decide)
  rw [h, default_regs_size]
  rfl

/-- C19 fails on the code: a YVYU request on a freshly probed device whose
format-table write fails with -5 still returns 0 and stores the new format
(index 1) and the window size; the failed call is the only bus call. -/
theorem s_fmt_ignores_failed_format_write :
    (trace_cci.sensor_write_array ⟨[], [(-5, 0)]⟩ sensor_fmt_yuv422_yvyu 2).1 = -5 ∧
    sensor_probe.fmt = 0 ∧ sensor_probe.width = 0 ∧ sensor_probe.height = 0 ∧
    sensor_s_fmt trace_cci ⟨640, 480, .V4L2_MBUS_FMT_YVYU8_2X8, .other 0, 0⟩ sensor_probe
        ⟨[], [(-5, 0)]⟩ =
      (0, ⟨640, 480, .V4L2_MBUS_FMT_YVYU8_2X8, .V4L2_FIELD_NONE, 0⟩,
       { sensor_probe with fmt := 1, width := 640, height := 480 },
       ⟨[.write_array sensor_fmt_yuv422_yvyu 2], []⟩) := by
  decide

/-- C20, as the code has it: whatever the write of `sensor_oe_disable`
returns, a negative code included, `sensor_power(CSI_SUBDEV_STBY_ON)` goes on
(the failure is only logged): it takes the lock, drives PWDN high, releases
the lock, switches the master clock off and returns 0. -/
theorem power_stby_on_carries_on {β : Type} (B : cci β) (b : β) :
    sensor_power B .CSI_SUBDEV_STBY_ON b =
      (0, [.sensor_write_array sensor_oe_disable 2,
           .cci_lock,
           .vfe_gpio_write .PWDN .CSI_GPIO_HIGH,
           .cci_unlock,
           .vfe_set_mclk .OFF],
       (B.sensor_write_array b sensor_oe_disable 2).2) := by
  rfl

/-- C20 fails as stated: when the write of `sensor_oe_disable` fails with -5,
`sensor_power(CSI_SUBDEV_STBY_ON)` still returns 0, writes the PWDN line and
switches the master clock off. -/
theorem power_stby_on_failed_write :
    (trace_cci.sensor_write_array ⟨[], [(-5, 0)]⟩ sensor_oe_disable 2).1 = -5 ∧
    sensor_power trace_cci .CSI_SUBDEV_STBY_ON ⟨[], [(-5, 0)]⟩ =
      (0, [.sensor_write_array sensor_oe_disable 2,
           .cci_lock,
           .vfe_gpio_write .PWDN .CSI_GPIO_HIGH,
           .cci_unlock,
           .vfe_set_mclk .OFF],
       ⟨[.write_array sensor_oe_disable 2], []⟩) := by
  decide


/-! ## Getters and the cached state -/

/-- C22, as the code has it: in each of the four power states `sensor_power`
returns 0, takes the lock exactly once and releases it exactly once
afterwards, and every GPIO access lies between the lock and the unlock.  The
only sensor register write, that of `sensor_oe_disable` in the standby-on
case, is the first call and so comes before the lock is taken; the other three
states write no sensor register.  For every other argument `sensor_power`
returns `-EINVAL` and makes no call. -/
theorem power_lock_discipline {β : Type} (B : cci β) (b : β) :
    (∀ s ∈ [csi_subdev_pwr.CSI_SUBDEV_STBY_ON, .CSI_SUBDEV_STBY_OFF, .CSI_SUBDEV_PWR_ON,
        .CSI_SUBDEV_PWR_OFF],
      (sensor_power B s b).1 = 0 ∧
      lock_balanced (sensor_power B s b).2.1 = true ∧
      under_lock vfe_op.is_gpio (sensor_power B s b).2.1 false = true) ∧
    (∀ s ∈ [csi_subdev_pwr.CSI_SUBDEV_STBY_OFF, .CSI_SUBDEV_PWR_ON, .CSI_SUBDEV_PWR_OFF],
      (sensor_power B s b).2.1.all (fun op => !op.is_register_write) = true ∧
      (sensor_power B s b).2.2 = b) ∧
    ((sensor_power B .CSI_SUBDEV_STBY_ON b).2.1.take 2 =
        [.sensor_write_array sensor_oe_disable 2, .cci_lock] ∧
      ((sensor_power B .CSI_SUBDEV_STBY_ON b).2.1.drop 1).all
        (fun op => !op.is_register_write) = true) ∧
    (∀ n, sensor_power B (.other n) b = (-EINVAL, [], b)) := by
  refine ⟨?_, ?_, ⟨rfl, rfl⟩, fun n => rfl⟩
  · intro s hs
    simp only [List.mem_cons, List.mem_singleton, List.not_mem_nil, or_false] at hs
    rcases hs with rfl | rfl | rfl | rfl <;> exact ⟨rfl, rfl, rfl⟩
  · intro s hs
    simp only [List.mem_cons, List.mem_singleton, List.not_mem_nil, or_false] at hs
    rcases hs with rfl | rfl | rfl <;> exact ⟨rfl, rfl⟩

/-- C22 fails as stated in the standby-on case: the write of
`sensor_oe_disable` is made before `cci_lock`, so not every sensor register
write lies between the lock and the unlock. -/
theorem power_stby_on_write_outside_lock :
    (sensor_power trace_cci .CSI_SUBDEV_STBY_ON ⟨[], []⟩).2.1 =
      [.sensor_write_array sensor_oe_disable 2,
       .cci_lock,
       .vfe_gpio_write .PWDN .CSI_GPIO_HIGH,
       .cci_unlock,
       .vfe_set_mclk .OFF] ∧
    under_lock vfe_op.is_register_write
      (sensor_power trace_cci .CSI_SUBDEV_STBY_ON ⟨[], []⟩).2.1 false = false := by
  decide

/-! ## Round trips of the state-backed controls -/

/-- The tail of a table-driven setter: when it returns 0 the new state has
been stored. -/
theorem table_write_stored {β : Type} (B : cci β) (b : β) (c : cfg_array)
    (info new : sensor_info) (r : Int × sensor_info × β)
    (h : (if (B.sensor_write_array b c.regs c.size).1 < 0 then
            some ((B.sensor_write_array b c.regs c.size).1, info,
              (B.sensor_write_array b c.regs c.size).2)
          else some (0, new, (B.sensor_write_array b c.regs c.size).2)) = some r)
    (h0 : r.1 = 0) : r.2.1 = new := by
  split_ifs at h with hneg
  · cases h
    simp only [] at h0
    omega
  · cases h
    rfl

/-- When `sensor_s_exp_bias` returns 0 the stored bias is the value. -/
theorem s_exp_bias_stored {β : Type} (B : cci β) (value : Int) (info : sensor_info) (b : β)
    (r : Int × sensor_info × β) (h : sensor_s_exp_bias B value info b = some r)
    (h0 : r.1 = 0) : r.2.1.exp_bias = value := by
  unfold sensor_s_exp_bias at h
  split_ifs at h with h1 h2
  · cases h; exact h1
  · cases h; simp [ERANGE] at h0
  · split at h
    · cases h
    · rw [table_write_stored B b _ info _ r h h0]

/-- When `sensor_s_colorfx` returns 0 the stored effect is the value. -/
theorem s_colorfx_stored {β : Type} (B : cci β) (value : Int) (info : sensor_info) (b : β)
    (r : Int × sensor_info × β) (h : sensor_s_colorfx B value info b = some r)
    (h0 : r.1 = 0) : r.2.1.clrfx = value := by
  unfold sensor_s_colorfx at h
  split_ifs at h with h1
  · cases h; exact h1
  · split at h
    · cases h
    · rw [table_write_stored B b _ info _ r h h0]

/-- Outside image capture mode, when `sensor_s_wb` returns 0 the stored preset
is the value. -/
theorem s_wb_stored {β : Type} (E : v4l2_env) (B : cci β) (value : Int) (info : sensor_info)
    (b : β) (r : Int × sensor_info × β) (hcm : info.capture_mode ≠ E.V4L2_MODE_IMAGE)
    (h : sensor_s_wb E B value info b = some r) (h0 : r.1 = 0) : r.2.1.wb = value := by
  unfold sensor_s_wb at h
  rw [if_neg hcm] at h
  by_cases h1 : info.wb = value
  · rw [if_pos h1] at h
    cases h; exact h1
  · rw [if_neg h1] at h
    split at h
    · cases h
    · rw [table_write_stored B b _ info _ r h h0]

/-- C26: for EXPOSURE, AUTO_EXPOSURE_BIAS, COLORFX and FLASH_LED_MODE, and
for AUTO_N_PRESET_WHITE_BALANCE when `capture_mode` is not `V4L2_MODE_IMAGE`:
if `sensor_s_ctrl` with value `v` returns 0, a `sensor_g_ctrl` for the same
control right after it returns 0 with value `v`, whatever value the caller's
structure held and whatever the bus does from then on. -/
theorem set_then_get_round_trip {β : Type} (E : v4l2_env) (B B' : cci β)
    (ctrl : v4l2_control) (info info' : sensor_info) (b b' : β) (old : Int)
    (hid : ctrl.id = .V4L2_CID_EXPOSURE ∨ ctrl.id = .V4L2_CID_AUTO_EXPOSURE_BIAS ∨
      ctrl.id = .V4L2_CID_COLORFX ∨ ctrl.id = .V4L2_CID_FLASH_LED_MODE ∨
      (ctrl.id = .V4L2_CID_AUTO_N_PRESET_WHITE_BALANCE ∧
        info.capture_mode ≠ E.V4L2_MODE_IMAGE))
    (hset : sensor_s_ctrl E B ctrl info b = some (0, info', b')) :
    sensor_g_ctrl B' ⟨ctrl.id, old⟩ info' b' = (0, ctrl.value, info', b') := by
  obtain ⟨id, value⟩ := ctrl
  rcases hid with h | h | h | h | ⟨h, hcm⟩ <;> simp only at h <;> subst h <;>
    simp only [sensor_s_ctrl, sensor_queryctrl, v4l2_ctrl_query_fill, queryctrl_request,
      lt_self_iff_false, if_false, gt_iff_lt] at hset <;>
    simp only [sensor_g_ctrl, sensor_g_exp_bias, sensor_g_colorfx, sensor_g_flash_mode,
      sensor_g_wb] <;>
    split_ifs at hset <;>
    first
    | (solve | simp [ERANGE] at hset)
    | (have hst := s_exp_bias_stored B value info b _ hset rfl
       simp only [] at hst
       rw [hst])
    | (have hst := s_colorfx_stored B value info b _ hset rfl
       simp only [] at hst
       rw [hst])
    | (have hst := s_wb_stored E B value info b _ hcm hset rfl
       simp only [] at hst
       rw [hst])
    | (simp only [sensor_s_flash_mode, Option.some.injEq, Prod.mk.injEq, true_and] at hset
       rw [← hset.1])

/-- Witness of `set_then_get_round_trip`: colour effect 3 on a freshly probed
device over the recording bus. -/
theorem set_then_get_round_trip_witness :
    sensor_g_ctrl trace_cci ⟨.V4L2_CID_COLORFX, 0⟩ { sensor_probe with clrfx := 3 }
        ⟨[.write_array sensor_colorfx_negative_regs
            (ARRAY_SIZE sensor_colorfx_negative_regs)], []⟩ =
      (0, 3, { sensor_probe with clrfx := 3 },
        ⟨[.write_array sensor_colorfx_negative_regs
            (ARRAY_SIZE sensor_colorfx_negative_regs)], []⟩) :=
  set_then_get_round_trip linux_env trace_cci trace_cci ⟨.V4L2_CID_COLORFX, 3⟩ sensor_probe
    { sensor_probe with clrfx := 3 } ⟨[], []⟩
    ⟨[.write_array sensor_colorfx_negative_regs
        (ARRAY_SIZE sensor_colorfx_negative_regs)], []⟩ 0
    (Or.inr (Or.inr (Or.inl rfl))) (by decide)


/-! ## White balance in image capture mode -/

/-- C27: when `capture_mode` is `V4L2_MODE_IMAGE`, `sensor_s_wb` returns 0 for
every preset value, the stored one or not, and hands back the `sensor_info`
(`wb` and `autowb` included) and the bus state it was given: no register is
written.  When `capture_mode` is not `V4L2_MODE_IMAGE` and the value differs
from the stored preset, a `sensor_s_wb` that returns 0 has stored the value in
`wb` and set `autowb` to 1 if the value is `V4L2_WHITE_BALANCE_AUTO` and to 0
otherwise, leaving the other fields alone. -/
theorem s_wb_capture_mode {β : Type} (E : v4l2_env) (B : cci β) (value : Int)
    (info : sensor_info) (b : β) :
    (info.capture_mode = E.V4L2_MODE_IMAGE → sensor_s_wb E B value info b = some (0, info, b)) ∧
    (info.capture_mode ≠ E.V4L2_MODE_IMAGE → info.wb ≠ value →
      ∀ r, sensor_s_wb E B value info b = some r → r.1 = 0 →
        r.2.1 = { info with autowb := (if value = V4L2_WHITE_BALANCE_AUTO then 1 else 0),
                            wb := value }) := by
  constructor
  · intro h
    simp [sensor_s_wb, h]
  · intro hcm hne r h h0
    unfold sensor_s_wb at h
    rw [if_neg hcm, if_neg hne] at h
    split at h
    · cases h
    · exact table_write_stored B b _ info _ r h h0

/-! ## Rounding of the requested size -/

/-- C28, as the code has it: for every request with a pixel code of
`sensor_formats`, whatever its width and height, `sensor_try_fmt` returns 0
with the width and height of the single declared window (640x480) and field
`V4L2_FIELD_NONE`, so the result is never below a declared window.  The size
is rounded down only for a request at least as large as the window: a width of
640 or more comes back no larger than requested, a width below 640 comes back
larger than requested, and likewise for the height against 480.
`sensor_try_fmt` is idempotent: applied to its own output it returns 0 and
changes nothing. -/
theorem try_fmt_rounds_to_window (fmt : v4l2_mbus_framefmt)
    (hcode : ∃ f ∈ sensor_formats, f.mbus_code = fmt.code) :
    sensor_try_fmt fmt =
      (0, { fmt with width := 640, height := 480, field := .V4L2_FIELD_NONE }) ∧
    (∀ w ∈ sensor_win_sizes, w.width = 640 ∧ w.height = 480) ∧
    (∀ w ∈ sensor_win_sizes, w.width ≤ (sensor_try_fmt fmt).2.width ∧
      w.height ≤ (sensor_try_fmt fmt).2.height) ∧
    sensor_try_fmt (sensor_try_fmt fmt).2 = (0, (sensor_try_fmt fmt).2) ∧
    ((sensor_try_fmt fmt).2.width ≤ fmt.width ↔ 640 ≤ fmt.width) ∧
    ((sensor_try_fmt fmt).2.height ≤ fmt.height ↔ 480 ≤ fmt.height) ∧
    (fmt.width < 640 → fmt.width < (sensor_try_fmt fmt).2.width) ∧
    (fmt.height < 480 → fmt.height < (sensor_try_fmt fmt).2.height) := by
  have key : ∀ g : v4l2_mbus_framefmt, (∃ f ∈ sensor_formats, f.mbus_code = g.code) →
      sensor_try_fmt g =
        (0, { g with width := 640, height := 480, field := .V4L2_FIELD_NONE }) := by
    intro g hg
    obtain ⟨h0, -, hw⟩ := try_fmt_internal_supported g hg
    have hi : ¬ N_FMTS ≤ fmt_loop g.code sensor_formats 0 := by
      have := (fmt_loop_supported g.code hg).1
      omega
    have h2 : (sensor_try_fmt_internal g).2.1 =
        { g with field := .V4L2_FIELD_NONE,
                 width := (sensor_win_sizes_at (sensor_try_fmt_internal g).2.2.2).width,
                 height := (sensor_win_sizes_at (sensor_try_fmt_internal g).2.2.2).height } := by
      simp [sensor_try_fmt_internal, hi]
    unfold sensor_try_fmt
    simp only []
    rw [h0, h2, hw]
    rfl
  have h1 := key fmt hcode
  refine ⟨h1, ?_, ?_, ?_, ?_, ?_, ?_, ?_⟩
  · intro w hw
    simp [sensor_win_sizes] at hw
    subst hw
    exact ⟨rfl, rfl⟩
  · intro w hw
    simp [sensor_win_sizes] at hw
    subst hw
    rw [h1]
    exact ⟨le_of_eq rfl, le_of_eq rfl⟩
  · rw [h1]
    exact key _ hcode
  · rw [h1]
  · rw [h1]
  · rw [h1]
    exact id
  · rw [h1]
    exact id

/-- Witness of `try_fmt_rounds_to_window`: a 1280x720 VYUY request comes
back as 640x480. -/
theorem try_fmt_rounds_to_window_witness :
    sensor_try_fmt ⟨1280, 720, .V4L2_MBUS_FMT_VYUY8_2X8, .other 4, 8⟩ =
      (0, ⟨640, 480, .V4L2_MBUS_FMT_VYUY8_2X8, .V4L2_FIELD_NONE, 8⟩) :=
  (try_fmt_rounds_to_window ⟨1280, 720, .V4L2_MBUS_FMT_VYUY8_2X8, .other 4, 8⟩
    ⟨sensor_formats_at 3, by decide, by decide⟩).1

/-- C28 fails as stated: a 320x240 YUYV request comes back as 640x480, larger
than requested in both dimensions, so the size is not rounded down. -/
theorem try_fmt_raises_small_request :
    sensor_try_fmt ⟨320, 240, .V4L2_MBUS_FMT_YUYV8_2X8, .other 0, 0⟩ =
      (0, ⟨640, 480, .V4L2_MBUS_FMT_YUYV8_2X8, .V4L2_FIELD_NONE, 0⟩) ∧
    ¬ ((sensor_try_fmt ⟨320, 240, .V4L2_MBUS_FMT_YUYV8_2X8, .other 0, 0⟩).2.width ≤ 320) ∧
    ¬ ((sensor_try_fmt ⟨320, 240, .V4L2_MBUS_FMT_YUYV8_2X8, .other 0, 0⟩).2.height ≤ 240) := by
  decide

/-! ## The exposure ladder and the page select -/

/-- C29 fails on the code: `sensor_ev[0]` (bias -4) writes 0x50 to the AEC
target register 0xd1, the same as bias 0, while `sensor_ev[1]` (bias -3)
writes 0x38; so the target is not monotone from -4 to -3.  From bias -3 up to
4 the targets (0x38, 0x40, 0x48, 0x50, 0x50, 0x58, 0x60, 0x68) are monotone. -/
theorem ev_target_not_monotone_at_neg4 :
    ev_target (-4) = some 0x50 ∧ ev_target (-3) = some 0x38 ∧ ev_target 0 = some 0x50 ∧
    ¬ (0x50 ≤ 0x38) ∧
    [ev_target (-3), ev_target (-2), ev_target (-1), ev_target 0, ev_target 1, ev_target 2,
      ev_target 3, ev_target 4] =
      [some 0x38, some 0x40, some 0x48, some 0x50, some 0x50, some 0x58, some 0x60, some 0x68] := by
  decide

/-- C30 fails on the code: `sensor_g_autoexp`, `sensor_s_autoexp` and
`sensor_g_autowb` write 0x00 to register 0xfe, not to the page-select register
0xf0, before they read register 0x41, and never write 0xf0; the flip getters
and setters and `sensor_s_autowb` do begin with the page select. -/
theorem autoexp_autowb_write_fe_not_f0 :
    (sensor_g_autoexp trace_cci 0 sensor_probe ⟨[], []⟩).2.2.2.log =
      [.write 0xfe 0x00, .read 0x41] ∧
    (sensor_s_autoexp trace_cci 0 sensor_probe ⟨[], []⟩).2.2.log =
      [.write 0xfe 0x00, .read 0x41, .write 0x41 0x08] ∧
    (sensor_g_autowb trace_cci 0 sensor_probe ⟨[], []⟩).2.2.2.log =
      [.write 0xfe 0x00, .read 0x41] ∧
    first_call_selects_page0 (sensor_g_autoexp trace_cci 0 sensor_probe ⟨[], []⟩).2.2.2.log =
      false ∧
    first_call_selects_page0 (sensor_s_autoexp trace_cci 0 sensor_probe ⟨[], []⟩).2.2.log =
      false ∧
    first_call_selects_page0 (sensor_g_autowb trace_cci 0 sensor_probe ⟨[], []⟩).2.2.2.log =
      false ∧
    first_call_selects_page0 (sensor_g_hflip trace_cci 0 sensor_probe ⟨[], []⟩).2.2.2.log =
      true ∧
    first_call_selects_page0 (sensor_s_hflip trace_cci 0 sensor_probe ⟨[], []⟩).2.2.log =
      true ∧
    first_call_selects_page0 (sensor_g_vflip trace_cci 0 sensor_probe ⟨[], []⟩).2.2.2.log =
      true ∧
    first_call_selects_page0 (sensor_s_vflip trace_cci 0 sensor_probe ⟨[], []⟩).2.2.log =
      true ∧
    first_call_selects_page0 (sensor_s_autowb trace_cci 0 sensor_probe ⟨[], []⟩).2.2.log =
      true ∧
    (sensor_wb ++ sensor_colorfx ++ sensor_ev).all
      (fun c => c.regs.isEmpty || selects_page0_first c.regs) = true ∧
    sensor_formats.all (fun f => selects_page0_first f.regs) = true := by
  decide


/-! ## Range invariant of the stored state -/

/-- A single bit, masked and shifted down, is 0 or 1. -/
theorem masked_bit_boolean (x k : Nat) :
    (((x &&& (1 <<< k)) >>> k : Nat) : Int) = 0 ∨
      (((x &&& (1 <<< k)) >>> k : Nat) : Int) = 1 := by
  rw [Nat.one_shiftLeft, Nat.shiftRight_eq_div_pow]
  have h1 : x &&& 2 ^ k ≤ 2 ^ k := Nat.and_le_right
  have hp : 0 < 2 ^ k := Nat.two_pow_pos k
  have h2 : (x &&& 2 ^ k) / 2 ^ k ≤ 1 :=
    calc (x &&& 2 ^ k) / 2 ^ k ≤ 2 ^ k / 2 ^ k := Nat.div_le_div_right h1
      _ = 1 := Nat.div_self hp
  generalize (x &&& 2 ^ k) / 2 ^ k = n at h2
  omega

/-- The flip write-back stores 0 or 1 when asked to. -/
theorem s_flip_commit_flips {β : Type} (B : cci β) (is_h : Bool) (value : Int)
    (R0f R45 R47 : Nat) (info : sensor_info) (b : β)
    (hv : value = 0 ∨ value = 1) (hs : flips_boolean info) :
    flips_boolean (sensor_s_flip_commit B is_h value R0f R45 R47 info b).2.1 := by
  unfold sensor_s_flip_commit
  obtain ⟨h1, h2⟩ := hs
  cases is_h <;> simp only [] <;> split_ifs <;>
    first | exact ⟨h1, h2⟩ | exact ⟨hv, h2⟩ | exact ⟨h1, hv⟩

/-- The register-backed setters keep both flip flags 0 or 1. -/
theorem register_setters_flips {β : Type} (B : cci β) (value : Int)
    (info : sensor_info) (b : β) (hs : flips_boolean info) :
    flips_boolean (sensor_s_hflip B value info b).2.1 ∧
    flips_boolean (sensor_s_vflip B value info b).2.1 ∧
    flips_boolean (sensor_s_autoexp B value info b).2.1 ∧
    flips_boolean (sensor_s_autowb B value info b).2.1 := by
  refine ⟨?_, ?_, ?_, ?_⟩
  · unfold sensor_s_hflip
    simp only []
    split_ifs with h1 h2 h3 h4 h5 h6 <;>
      first
      | exact hs
      | exact s_flip_commit_flips _ _ _ _ _ _ _ _ (Or.inl h5) hs
      | exact s_flip_commit_flips _ _ _ _ _ _ _ _ (Or.inr h6) hs
  · unfold sensor_s_vflip
    simp only []
    split_ifs with h1 h2 h3 h4 h5 h6 <;>
      first
      | exact hs
      | exact s_flip_commit_flips _ _ _ _ _ _ _ _ (Or.inl h5) hs
      | exact s_flip_commit_flips _ _ _ _ _ _ _ _ (Or.inr h6) hs
  · unfold sensor_s_autoexp
    simp only []
    split_ifs <;> exact hs
  · unfold sensor_s_autowb
    simp only []
    split_ifs <;> exact hs

/-- A table-driven setter that leaves the flips of its new state alone keeps
both flip flags 0 or 1. -/
theorem table_write_flips {β : Type} (B : cci β) (b : β) (c : cfg_array)
    (info new : sensor_info) (r : Int × sensor_info × β)
    (h : (if (B.sensor_write_array b c.regs c.size).1 < 0 then
            some ((B.sensor_write_array b c.regs c.size).1, info,
              (B.sensor_write_array b c.regs c.size).2)
          else some (0, new, (B.sensor_write_array b c.regs c.size).2)) = some r)
    (hnew : new.hflip = info.hflip ∧ new.vflip = info.vflip) (hs : flips_boolean info) :
    flips_boolean r.2.1 := by
  split_ifs at h <;> cases h
  · exact hs
  · unfold flips_boolean
    rw [hnew.1, hnew.2]
    exact hs

/-- The control setter keeps both flip flags 0 or 1. -/
theorem s_ctrl_flips {β : Type} (E : v4l2_env) (B : cci β) (ctrl : v4l2_control)
    (info : sensor_info) (b : β) (r : Int × sensor_info × β)
    (hs : flips_boolean info) (h : sensor_s_ctrl E B ctrl info b = some r) :
    flips_boolean r.2.1 := by
  obtain ⟨id, value⟩ := ctrl
  have hreg := register_setters_flips B value info b hs
  have hexp : ∀ r, sensor_s_exp_bias B value info b = some r → flips_boolean r.2.1 := by
    intro r h
    unfold sensor_s_exp_bias at h
    split_ifs at h
    · cases h; exact hs
    · cases h; exact hs
    · split at h
      · cases h
      · exact table_write_flips B b _ info _ r h ⟨rfl, rfl⟩ hs
  cases id <;>
    simp only [sensor_s_ctrl, sensor_queryctrl, v4l2_ctrl_query_fill, queryctrl_request,
      lt_self_iff_false, if_false, gt_iff_lt] at h
  case V4L2_CID_BRIGHTNESS => simp [EINVAL] at h; subst h; exact hs
  case V4L2_CID_CONTRAST => simp [EINVAL] at h; subst h; exact hs
  case V4L2_CID_SATURATION => simp [EINVAL] at h; subst h; exact hs
  case V4L2_CID_HUE => simp [EINVAL] at h; subst h; exact hs
  case V4L2_CID_GAIN => simp [EINVAL] at h; subst h; exact hs
  case V4L2_CID_AUTOGAIN => simp [EINVAL] at h; subst h; exact hs
  case other n => simp [EINVAL] at h; subst h; exact hs
  case V4L2_CID_VFLIP =>
    split_ifs at h <;> cases h
    · exact hs
    · exact hreg.2.1
  case V4L2_CID_HFLIP =>
    split_ifs at h <;> cases h
    · exact hs
    · exact hreg.1
  case V4L2_CID_EXPOSURE_AUTO =>
    split_ifs at h <;> cases h
    · exact hs
    · exact hreg.2.2.1
  case V4L2_CID_AUTO_WHITE_BALANCE =>
    split_ifs at h <;> cases h
    · exact hs
    · exact hreg.2.2.2
  case V4L2_CID_FLASH_LED_MODE =>
    split_ifs at h <;> cases h
    · exact hs
    · exact hs
  case V4L2_CID_EXPOSURE =>
    split_ifs at h
    · cases h; exact hs
    · exact hexp r h
  case V4L2_CID_AUTO_EXPOSURE_BIAS =>
    split_ifs at h
    · cases h; exact hs
    · exact hexp r h
  case V4L2_CID_AUTO_N_PRESET_WHITE_BALANCE =>
    split_ifs at h
    · cases h; exact hs
    · unfold sensor_s_wb at h
      by_cases h1 : info.capture_mode = E.V4L2_MODE_IMAGE
      · rw [if_pos h1] at h
        cases h; exact hs
      · rw [if_neg h1] at h
        by_cases h2 : info.wb = value
        · rw [if_pos h2] at h
          cases h; exact hs
        · rw [if_neg h2] at h
          split at h
          · cases h
          · exact table_write_flips B b _ info _ r h ⟨rfl, rfl⟩ hs
  case V4L2_CID_COLORFX =>
    split_ifs at h
    · cases h; exact hs
    · unfold sensor_s_colorfx at h
      split_ifs at h
      · cases h; exact hs
      · split at h
        · cases h
        · exact table_write_flips B b _ info _ r h ⟨rfl, rfl⟩ hs

/-- The getters keep both flip flags 0 or 1. -/
theorem g_ctrl_flips {β : Type} (B : cci β) (ctrl : v4l2_control)
    (info : sensor_info) (b : β) (hs : flips_boolean info) :
    flips_boolean (sensor_g_ctrl B ctrl info b).2.2.1 := by
  obtain ⟨id, value⟩ := ctrl
  obtain ⟨h1, h2⟩ := hs
  cases id <;>
    simp only [sensor_g_ctrl, sensor_g_brightness, sensor_g_contrast, sensor_g_saturation,
      sensor_g_hue, sensor_g_vflip, sensor_g_hflip, sensor_g_gain, sensor_g_autogain,
      sensor_g_exp_bias, sensor_g_autoexp, sensor_g_wb, sensor_g_autowb, sensor_g_colorfx,
      sensor_g_flash_mode] <;>
    (try split_ifs) <;>
    first
    | exact ⟨h1, h2⟩
    | exact ⟨masked_bit_boolean _ 4, h2⟩
    | exact ⟨h1, masked_bit_boolean _ 5⟩

/-- Setting a format keeps both flip flags 0 or 1. -/
theorem s_fmt_flips {β : Type} (B : cci β) (fmt : v4l2_mbus_framefmt)
    (info : sensor_info) (b : β) (hs : flips_boolean info) :
    flips_boolean (sensor_s_fmt B fmt info b).2.2.1 := by
  unfold sensor_s_fmt
  simp only []
  split_ifs
  · exact hs
  · exact hs
  · split
    · split_ifs <;> exact hs
    · exact hs

/-- Every reachable state has both flip flags 0 or 1. -/
theorem reachable_flips (E : v4l2_env) (info : sensor_info) (h : reachable E info) :
    flips_boolean info := by
  induction h with
  | probe => exact ⟨Or.inl rfl, Or.inl rfl⟩
  | s_ctrl B ctrl info b r _ hr ih => exact s_ctrl_flips E B ctrl info b r ih hr
  | g_ctrl B ctrl info b _ ih => exact g_ctrl_flips B ctrl info b ih
  | s_fmt B fmt info b _ ih => exact s_fmt_flips B fmt info b ih

/-- C23: starting from the state set up by `sensor_probe`, after any sequence
of `sensor_s_ctrl`, `sensor_g_ctrl` and `sensor_s_fmt` calls with arbitrary
arguments and arbitrary bus outcomes, `exp_bias` is in [-4, 4], `hflip` and
`vflip` are 0 or 1, and `wb` is in [0, 9], `clrfx` in [0, 15] and `flash_mode`
in [0, 4] (for these three the control's type, set by the kernel's control
core, is assumed to be one that `sensor_s_ctrl` range-checks); consequently
`sensor_s_exp_bias` returns `-ERANGE` for every value outside [-4, 4] although
it compares with the stored value first. -/
theorem reachable_state_ranges (E : v4l2_env) (info : sensor_info)
    (hwb : range_checked (E.ctrl_type .V4L2_CID_AUTO_N_PRESET_WHITE_BALANCE) = true)
    (hfx : range_checked (E.ctrl_type .V4L2_CID_COLORFX) = true)
    (hfl : range_checked (E.ctrl_type .V4L2_CID_FLASH_LED_MODE) = true)
    (h : reachable E info) :
    (-4 ≤ info.exp_bias ∧ info.exp_bias ≤ 4) ∧
    (0 ≤ info.wb ∧ info.wb ≤ 9) ∧
    (0 ≤ info.clrfx ∧ info.clrfx ≤ 15) ∧
    (0 ≤ info.flash_mode ∧ info.flash_mode ≤ 4) ∧
    (info.hflip = 0 ∨ info.hflip = 1) ∧
    (info.vflip = 0 ∨ info.vflip = 1) ∧
    (∀ (β : Type) (B : cci β) (value : Int) (b : β), value < -4 ∨ 4 < value →
      sensor_s_exp_bias B value info b = some (-ERANGE, info, b)) := by
  obtain ⟨hb, h2, h3, h4⟩ := reachable_stored_in_range E info h
  obtain ⟨h5, h6⟩ := reachable_flips E info h
  refine ⟨hb, h2 hwb, h3 hfx, h4 hfl, h5, h6, ?_⟩
  intro β B value b hv
  have hne : ¬ info.exp_bias = value := by omega
  simp [sensor_s_exp_bias, hne, hv]

/-- Witness of `reachable_state_ranges`: the state reached from a freshly
probed device by setting colour effect 3, with the control types of the Linux
control core. -/
theorem reachable_state_ranges_witness :
    (0 ≤ ({ sensor_probe with clrfx := 3 } : sensor_info).clrfx ∧
      ({ sensor_probe with clrfx := 3 } : sensor_info).clrfx ≤ 15) ∧
    sensor_s_exp_bias trace_cci 5 { sensor_probe with clrfx := 3 } ⟨[], []⟩ =
      some (-ERANGE, { sensor_probe with clrfx := 3 }, ⟨[], []⟩) :=
  have hr : reachable linux_env { sensor_probe with clrfx := 3 } :=
    reachable.s_ctrl trace_cci ⟨.V4L2_CID_COLORFX, 3⟩ sensor_probe ⟨[], []⟩
      (0, { sensor_probe with clrfx := 3 },
        ⟨[.write_array sensor_colorfx_negative_regs (ARRAY_SIZE sensor_colorfx_negative_regs)],
         []⟩)
      reachable.probe (by decide)
  have h := reachable_state_ranges linux_env { sensor_probe with clrfx := 3 }
    (by decide) (by decide) (by decide) hr
  ⟨h.2.2.1, h.2.2.2.2.2.2 cci_trace trace_cci 5 ⟨[], []⟩ (Or.inr (by decide))⟩


/-! ## The flip setters over the register file -/

/-- Setting bit `k` of an 8-bit value and keeping the low 8 bits sets that bit
and changes no other. -/
theorem set_bit_spec (x k i : Nat) (hx : x < 256) (hk : k < 8) :
    ((x ||| 2 ^ k) % 256).testBit i = if i = k then true else x.testBit i := by
  have h2 : (2 : Nat) ^ k < 2 ^ 8 := Nat.pow_lt_pow_right (by decide) hk
  have hlt : x ||| 2 ^ k < 256 := Nat.or_lt_two_pow (show x < 2 ^ 8 from hx) h2
  rw [Nat.mod_eq_of_lt hlt, Nat.testBit_or, Nat.testBit_two_pow]
  by_cases h : i = k
  · subst h; simp
  · have h' : ¬ k = i := fun e => h e.symm
    simp [h, h']

/-- Clearing bit `k` of an 8-bit value with the mask `255 - 2 ^ k` and keeping
the low 8 bits clears that bit and changes no other. -/
theorem clear_bit_spec (x k i : Nat) (hx : x < 256) (hk : k < 8) :
    ((x &&& (255 - 2 ^ k)) % 256).testBit i = if i = k then false else x.testBit i := by
  have hlt : x &&& (255 - 2 ^ k) < 256 := lt_of_le_of_lt Nat.and_le_left hx
  rw [Nat.mod_eq_of_lt hlt, Nat.testBit_and]
  by_cases hi : i < 8
  · generalize x.testBit i = t
    interval_cases k <;> interval_cases i <;> cases t <;> decide
  · have h8 : (2 : Nat) ^ 8 ≤ 2 ^ i :=
      Nat.pow_le_pow_right (show 0 < 2 by decide) (show 8 ≤ i by omega)
    have hxi : x.testBit i = false :=
      Nat.testBit_lt_two_pow (lt_of_lt_of_le (show x < 2 ^ 8 from hx) h8)
    have hik : ¬ i = k := by omega
    simp [hxi, hik]

/-- What `sensor_s_hflip` does over the register file. -/
theorem s_hflip_regfile (value : Int) (info : sensor_info) (regs : Nat → Nat) :
    sensor_s_hflip regfile_cci value info regs =
      if value = 0 then
        (0, { info with hflip := value },
          reg_set (reg_set (reg_set (reg_set regs 0xf0 0) 0x0f ((regs 0x0f &&& 0xef) % 256))
            0x45 ((regs 0x45 &&& 0xfe) % 256)) 0x47 ((regs 0x47 &&& 0xfb) % 256))
      else if value = 1 then
        (0, { info with hflip := value },
          reg_set (reg_set (reg_set (reg_set regs 0xf0 0) 0x0f ((regs 0x0f ||| 0x10) % 256))
            0x45 ((regs 0x45 ||| 0x01) % 256)) 0x47 ((regs 0x47 ||| 0x04) % 256))
      else (-EINVAL, info, reg_set regs 0xf0 0) := by
  have e1 : reg_set regs 0xf0 0 0x0f = regs 0x0f := by simp [reg_set]
  have e2 : reg_set regs 0xf0 0 0x45 = regs 0x45 := by simp [reg_set]
  have e3 : reg_set regs 0xf0 0 0x47 = regs 0x47 := by simp [reg_set]
  simp only [sensor_s_hflip, sensor_s_flip_commit, regfile_cci, lt_self_iff_false, if_false,
    if_true, Bool.false_eq_true, Nat.zero_mod, e1, e2, e3]

/-- What `sensor_s_vflip` does over the register file. -/
theorem s_vflip_regfile (value : Int) (info : sensor_info) (regs : Nat → Nat) :
    sensor_s_vflip regfile_cci value info regs =
      if value = 0 then
        (0, { info with vflip := value },
          reg_set (reg_set (reg_set (reg_set regs 0xf0 0) 0x0f ((regs 0x0f &&& 0xdf) % 256))
            0x45 ((regs 0x45 &&& 0xfd) % 256)) 0x47 ((regs 0x47 &&& 0xf7) % 256))
      else if value = 1 then
        (0, { info with vflip := value },
          reg_set (reg_set (reg_set (reg_set regs 0xf0 0) 0x0f ((regs 0x0f ||| 0x20) % 256))
            0x45 ((regs 0x45 ||| 0x02) % 256)) 0x47 ((regs 0x47 ||| 0x08) % 256))
      else (-EINVAL, info, reg_set regs 0xf0 0) := by
  have e1 : reg_set regs 0xf0 0 0x0f = regs 0x0f := by simp [reg_set]
  have e2 : reg_set regs 0xf0 0 0x45 = regs 0x45 := by simp [reg_set]
  have e3 : reg_set regs 0xf0 0 0x47 = regs 0x47 := by simp [reg_set]
  simp only [sensor_s_vflip, sensor_s_flip_commit, regfile_cci, lt_self_iff_false, if_false,
    if_true, Bool.false_eq_true, Nat.zero_mod, e1, e2, e3]

/-- C24: over the register file with 8-bit registers, a `sensor_s_hflip` with
`value` 0 or 1 returns 0, stores `value` in `hflip`, sets bit 4 of register
0x0f, bit 0 of 0x45 and bit 2 of 0x47 to `value`, changes no other bit of
these registers, sets the page-select register 0xf0 to 0 and changes no other
register; `sensor_s_vflip` does the same with bit 5 of 0x0f, bit 1 of 0x45 and
bit 3 of 0x47 (so neither setter changes the other's bits).  For any other
`value` both return `-EINVAL` with `sensor_info` unchanged and only the
page-select register written. -/
theorem flip_setters_touch_own_bits (value : Int) (info : sensor_info) (regs : Nat → Nat)
    (h8 : regs 0x0f < 256 ∧ regs 0x45 < 256 ∧ regs 0x47 < 256) :
    (value = 0 ∨ value = 1 →
      (sensor_s_hflip regfile_cci value info regs).1 = 0 ∧
      (sensor_s_hflip regfile_cci value info regs).2.1 = { info with hflip := value } ∧
      (∀ i, ((sensor_s_hflip regfile_cci value info regs).2.2 0x0f).testBit i =
        if i = 4 then decide (value = 1) else (regs 0x0f).testBit i) ∧
      (∀ i, ((sensor_s_hflip regfile_cci value info regs).2.2 0x45).testBit i =
        if i = 0 then decide (value = 1) else (regs 0x45).testBit i) ∧
      (∀ i, ((sensor_s_hflip regfile_cci value info regs).2.2 0x47).testBit i =
        if i = 2 then decide (value = 1) else (regs 0x47).testBit i) ∧
      (sensor_s_hflip regfile_cci value info regs).2.2 0xf0 = 0 ∧
      (∀ reg, reg ∉ [0x0f, 0x45, 0x47, 0xf0] →
        (sensor_s_hflip regfile_cci value info regs).2.2 reg = regs reg)) ∧
    (value = 0 ∨ value = 1 →
      (sensor_s_vflip regfile_cci value info regs).1 = 0 ∧
      (sensor_s_vflip regfile_cci value info regs).2.1 = { info with vflip := value } ∧
      (∀ i, ((sensor_s_vflip regfile_cci value info regs).2.2 0x0f).testBit i =
        if i = 5 then decide (value = 1) else (regs 0x0f).testBit i) ∧
      (∀ i, ((sensor_s_vflip regfile_cci value info regs).2.2 0x45).testBit i =
        if i = 1 then decide (value = 1) else (regs 0x45).testBit i) ∧
      (∀ i, ((sensor_s_vflip regfile_cci value info regs).2.2 0x47).testBit i =
        if i = 3 then decide (value = 1) else (regs 0x47).testBit i) ∧
      (sensor_s_vflip regfile_cci value info regs).2.2 0xf0 = 0 ∧
      (∀ reg, reg ∉ [0x0f, 0x45, 0x47, 0xf0] →
        (sensor_s_vflip regfile_cci value info regs).2.2 reg = regs reg)) ∧
    (value ≠ 0 → value ≠ 1 →
      sensor_s_hflip regfile_cci value info regs = (-EINVAL, info, reg_set regs 0xf0 0) ∧
      sensor_s_vflip regfile_cci value info regs = (-EINVAL, info, reg_set regs 0xf0 0) ∧
      reg_set regs 0xf0 0 0xf0 = 0 ∧
      ∀ reg, reg ≠ 0xf0 → reg_set regs 0xf0 0 reg = regs reg) := by
  obtain ⟨ha, hb, hc⟩ := h8
  have frame : ∀ (x y z : Nat) (reg : Nat), reg ∉ [0x0f, 0x45, 0x47, 0xf0] →
      reg_set (reg_set (reg_set (reg_set regs 0xf0 0) 0x0f x) 0x45 y) 0x47 z reg = regs reg := by
    intro x y z reg hreg
    simp only [List.mem_cons, List.mem_singleton, List.not_mem_nil, or_false, not_or] at hreg
    simp [reg_set, hreg.1, hreg.2.1, hreg.2.2.1, hreg.2.2.2]
  have at0f : ∀ (x y z : Nat),
      reg_set (reg_set (reg_set (reg_set regs 0xf0 0) 0x0f x) 0x45 y) 0x47 z 0x0f = x := by
    intro x y z; simp [reg_set]
  have at45 : ∀ (x y z : Nat),
      reg_set (reg_set (reg_set (reg_set regs 0xf0 0) 0x0f x) 0x45 y) 0x47 z 0x45 = y := by
    intro x y z; simp [reg_set]
  have at47 : ∀ (x y z : Nat),
      reg_set (reg_set (reg_set (reg_set regs 0xf0 0) 0x0f x) 0x45 y) 0x47 z 0x47 = z := by
    intro x y z; simp [reg_set]
  have atf0 : ∀ (x y z : Nat),
      reg_set (reg_set (reg_set (reg_set regs 0xf0 0) 0x0f x) 0x45 y) 0x47 z 0xf0 = 0 := by
    intro x y z; simp [reg_set]
  have hclr : ∀ (x k i : Nat), x < 256 → k < 8 →
      ((x &&& (255 - 2 ^ k)) % 256).testBit i =
        if i = k then decide ((0 : Int) = 1) else x.testBit i := by
    intro x k i hx hk
    rw [clear_bit_spec x k i hx hk]
    simp
  have hset : ∀ (x k i : Nat), x < 256 → k < 8 →
      ((x ||| 2 ^ k) % 256).testBit i =
        if i = k then decide ((1 : Int) = 1) else x.testBit i := by
    intro x k i hx hk
    rw [set_bit_spec x k i hx hk]
    simp
  refine ⟨?_, ?_, ?_⟩
  · rintro (rfl | rfl)
    · rw [s_hflip_regfile]
      simp only [if_true, at0f, at45, at47, atf0]
      exact ⟨trivial, trivial, fun i => hclr _ 4 i ha (by decide),
        fun i => hclr _ 0 i hb (by decide), fun i => hclr _ 2 i hc (by decide),
        trivial, fun reg hreg => frame _ _ _ reg hreg⟩
    · rw [s_hflip_regfile]
      simp only [one_ne_zero, if_false, if_true, at0f, at45, at47, atf0]
      exact ⟨trivial, trivial, fun i => hset _ 4 i ha (by decide),
        fun i => hset _ 0 i hb (by decide), fun i => hset _ 2 i hc (by decide),
        trivial, fun reg hreg => frame _ _ _ reg hreg⟩
  · rintro (rfl | rfl)
    · rw [s_vflip_regfile]
      simp only [if_true, at0f, at45, at47, atf0]
      exact ⟨trivial, trivial, fun i => hclr _ 5 i ha (by decide),
        fun i => hclr _ 1 i hb (by decide), fun i => hclr _ 3 i hc (by decide),
        trivial, fun reg hreg => frame _ _ _ reg hreg⟩
    · rw [s_vflip_regfile]
      simp only [one_ne_zero, if_false, if_true, at0f, at45, at47, atf0]
      exact ⟨trivial, trivial, fun i => hset _ 5 i ha (by decide),
        fun i => hset _ 1 i hb (by decide), fun i => hset _ 3 i hc (by decide),
        trivial, fun reg hreg => frame _ _ _ reg hreg⟩
  · intro h0 h1
    rw [s_hflip_regfile, s_vflip_regfile]
    simp only [h0, h1, if_false]
    refine ⟨trivial, trivial, by simp [reg_set], fun reg hreg => by simp [reg_set, hreg]⟩


/-! ## Flip round trip over the register file -/

/-- A single bit, masked and shifted down, is 1 when the bit is set and 0
when it is not. -/
theorem masked_bit_eq (y k : Nat) :
    (((y &&& (1 <<< k)) >>> k : Nat) : Int) = if y.testBit k then 1 else 0 := by
  rw [Nat.one_shiftLeft, Nat.and_two_pow, Nat.shiftRight_eq_div_pow,
    Nat.mul_div_cancel _ (Nat.two_pow_pos k)]
  cases y.testBit k <;> simp

/-- Bit `k < 8` of the low 8 bits of `x ||| m` and of `x &&& m`. -/
theorem low_bit_or_and (x m k : Nat) (hk : k < 8) :
    ((x ||| m) % 256).testBit k = (x.testBit k || m.testBit k) ∧
    ((x &&& m) % 256).testBit k = (x.testBit k && m.testBit k) := by
  have e : (256 : Nat) = 2 ^ 8 := rfl
  rw [e, Nat.testBit_mod_two_pow, Nat.testBit_mod_two_pow, Nat.testBit_or, Nat.testBit_and]
  simp [hk]

/-- What `sensor_g_hflip` and `sensor_g_vflip` do over the register file. -/
theorem g_flip_regfile (old : Int) (info : sensor_info) (regs : Nat → Nat) :
    sensor_g_hflip regfile_cci old info regs =
      (0, (if (regs 0x0f).testBit 4 then 1 else 0),
        { info with hflip := (if (regs 0x0f).testBit 4 then 1 else 0) }, reg_set regs 0xf0 0) ∧
    sensor_g_vflip regfile_cci old info regs =
      (0, (if (regs 0x0f).testBit 5 then 1 else 0),
        { info with vflip := (if (regs 0x0f).testBit 5 then 1 else 0) }, reg_set regs 0xf0 0) := by
  have e1 : reg_set regs 0xf0 0 0x0f = regs 0x0f := by simp [reg_set]
  simp only [sensor_g_hflip, sensor_g_vflip, regfile_cci, lt_self_iff_false, if_false,
    Nat.zero_mod, e1, masked_bit_eq]
  exact ⟨trivial, trivial⟩

/-- Register 0x0f after the flip setters over the register file: the setter's
own bit holds the value, the other setter's bit is as before. -/
theorem flip_bits_regfile (value : Int) (info : sensor_info) (regs : Nat → Nat) :
    (value = 0 ∨ value = 1 →
      ((sensor_s_hflip regfile_cci value info regs).2.2 0x0f).testBit 4 = decide (value = 1) ∧
      ((sensor_s_vflip regfile_cci value info regs).2.2 0x0f).testBit 5 = decide (value = 1)) ∧
    ((sensor_s_hflip regfile_cci value info regs).2.2 0x0f).testBit 5 = (regs 0x0f).testBit 5 ∧
    ((sensor_s_vflip regfile_cci value info regs).2.2 0x0f).testBit 4 = (regs 0x0f).testBit 4 := by
  have at0f : ∀ (x y z : Nat),
      reg_set (reg_set (reg_set (reg_set regs 0xf0 0) 0x0f x) 0x45 y) 0x47 z 0x0f = x := by
    intro x y z; simp [reg_set]
  have e1 : reg_set regs 0xf0 0 0x0f = regs 0x0f := by simp [reg_set]
  have t1 : Nat.testBit 0xef 4 = false ∧ Nat.testBit 0xef 5 = true ∧
      Nat.testBit 0x10 4 = true ∧ Nat.testBit 0x10 5 = false ∧
      Nat.testBit 0xdf 4 = true ∧ Nat.testBit 0xdf 5 = false ∧
      Nat.testBit 0x20 4 = false ∧ Nat.testBit 0x20 5 = true := by decide
  obtain ⟨m1, m2, m3, m4, m5, m6, m7, m8⟩ := t1
  rw [s_hflip_regfile, s_vflip_regfile]
  refine ⟨?_, ?_, ?_⟩
  · rintro (rfl | rfl)
    · simp only [if_true, at0f]
      rw [(low_bit_or_and _ _ 4 (by decide)).2, (low_bit_or_and _ _ 5 (by decide)).2, m1, m6]
      simp
    · simp only [one_ne_zero, if_false, if_true, at0f]
      rw [(low_bit_or_and _ _ 4 (by decide)).1, (low_bit_or_and _ _ 5 (by decide)).1, m3, m8]
      simp
  · split_ifs
    · simp only [at0f]
      rw [(low_bit_or_and _ _ 5 (by decide)).2, m2]
      simp
    · simp only [at0f]
      rw [(low_bit_or_and _ _ 5 (by decide)).1, m4]
      simp
    · simp only [e1]
  · split_ifs
    · simp only [at0f]
      rw [(low_bit_or_and _ _ 4 (by decide)).2, m5]
      simp
    · simp only [at0f]
      rw [(low_bit_or_and _ _ 4 (by decide)).1, m7]
      simp
    · simp only [e1]

/-- C25: over the register file, for every register contents and `value` 0 or
1: `sensor_s_hflip` returns 0 and a following `sensor_g_hflip` returns 0 with
that value, also when a `sensor_s_vflip` with any argument comes in between;
and `sensor_s_vflip` returns 0 and a following `sensor_g_vflip` returns 0 with
that value, also when a `sensor_s_hflip` with any argument comes in between. -/
theorem flip_round_trip (value other old : Int) (info : sensor_info) (regs : Nat → Nat)
    (hv : value = 0 ∨ value = 1) :
    ((sensor_s_hflip regfile_cci value info regs).1 = 0 ∧
      (sensor_g_hflip regfile_cci old (sensor_s_hflip regfile_cci value info regs).2.1
        (sensor_s_hflip regfile_cci value info regs).2.2).1 = 0 ∧
      (sensor_g_hflip regfile_cci old (sensor_s_hflip regfile_cci value info regs).2.1
        (sensor_s_hflip regfile_cci value info regs).2.2).2.1 = value ∧
      (sensor_g_hflip regfile_cci old
        (sensor_s_vflip regfile_cci other (sensor_s_hflip regfile_cci value info regs).2.1
          (sensor_s_hflip regfile_cci value info regs).2.2).2.1
        (sensor_s_vflip regfile_cci other (sensor_s_hflip regfile_cci value info regs).2.1
          (sensor_s_hflip regfile_cci value info regs).2.2).2.2).1 = 0 ∧
      (sensor_g_hflip regfile_cci old
        (sensor_s_vflip regfile_cci other (sensor_s_hflip regfile_cci value info regs).2.1
          (sensor_s_hflip regfile_cci value info regs).2.2).2.1
        (sensor_s_vflip regfile_cci other (sensor_s_hflip regfile_cci value info regs).2.1
          (sensor_s_hflip regfile_cci value info regs).2.2).2.2).2.1 = value) ∧
    ((sensor_s_vflip regfile_cci value info regs).1 = 0 ∧
      (sensor_g_vflip regfile_cci old (sensor_s_vflip regfile_cci value info regs).2.1
        (sensor_s_vflip regfile_cci value info regs).2.2).1 = 0 ∧
      (sensor_g_vflip regfile_cci old (sensor_s_vflip regfile_cci value info regs).2.1
        (sensor_s_vflip regfile_cci value info regs).2.2).2.1 = value ∧
      (sensor_g_vflip regfile_cci old
        (sensor_s_hflip regfile_cci other (sensor_s_vflip regfile_cci value info regs).2.1
          (sensor_s_vflip regfile_cci value info regs).2.2).2.1
        (sensor_s_hflip regfile_cci other (sensor_s_vflip regfile_cci value info regs).2.1
          (sensor_s_vflip regfile_cci value info regs).2.2).2.2).1 = 0 ∧
      (sensor_g_vflip regfile_cci old
        (sensor_s_hflip regfile_cci other (sensor_s_vflip regfile_cci value info regs).2.1
          (sensor_s_vflip regfile_cci value info regs).2.2).2.1
        (sensor_s_hflip regfile_cci other (sensor_s_vflip regfile_cci value info regs).2.1
          (sensor_s_vflip regfile_cci value info regs).2.2).2.2).2.1 = value) := by
  have hval : (if decide (value = 1) = true then (1 : Int) else 0) = value := by
    rcases hv with rfl | rfl <;> simp
  have hret : (sensor_s_hflip regfile_cci value info regs).1 = 0 ∧
      (sensor_s_vflip regfile_cci value info regs).1 = 0 := by
    rw [s_hflip_regfile, s_vflip_regfile]
    rcases hv with rfl | rfl <;> simp
  obtain ⟨hown, -, -⟩ := flip_bits_regfile value info regs
  obtain ⟨h4, h5⟩ := hown hv
  have k5 := (flip_bits_regfile other (sensor_s_vflip regfile_cci value info regs).2.1
    (sensor_s_vflip regfile_cci value info regs).2.2).2.1
  have k4 := (flip_bits_regfile other (sensor_s_hflip regfile_cci value info regs).2.1
    (sensor_s_hflip regfile_cci value info regs).2.2).2.2
  refine ⟨⟨hret.1, ?_, ?_, ?_, ?_⟩, ⟨hret.2, ?_, ?_, ?_, ?_⟩⟩
  · rw [(g_flip_regfile _ _ _).1]
  · rw [(g_flip_regfile _ _ _).1]
    simp only [h4]
    exact hval
  · rw [(g_flip_regfile _ _ _).1]
  · rw [(g_flip_regfile _ _ _).1]
    simp only [k4, h4]
    exact hval
  · rw [(g_flip_regfile _ _ _).2]
  · rw [(g_flip_regfile _ _ _).2]
    simp only [h5]
    exact hval
  · rw [(g_flip_regfile _ _ _).2]
  · rw [(g_flip_regfile _ _ _).2]
    simp only [k5, h5]
    exact hval

/-- Witness of `flip_round_trip`: mirror on, with an upside-down write in
between, over a register file that holds 0xa2 everywhere. -/
theorem flip_round_trip_witness :
    (sensor_s_hflip regfile_cci 1 sensor_probe (fun _ => 0xa2)).1 = 0 ∧
    (sensor_g_hflip regfile_cci 7
      (sensor_s_vflip regfile_cci 1 (sensor_s_hflip regfile_cci 1 sensor_probe
        (fun _ => 0xa2)).2.1
        (sensor_s_hflip regfile_cci 1 sensor_probe (fun _ => 0xa2)).2.2).2.1
      (sensor_s_vflip regfile_cci 1 (sensor_s_hflip regfile_cci 1 sensor_probe
        (fun _ => 0xa2)).2.1
        (sensor_s_hflip regfile_cci 1 sensor_probe (fun _ => 0xa2)).2.2).2.2).2.1 = 1 :=
  ⟨(flip_round_trip 1 1 7 sensor_probe (fun _ => 0xa2) (Or.inr rfl)).1.1,
   (flip_round_trip 1 1 7 sensor_probe (fun _ => 0xa2) (Or.inr rfl)).1.2.2.2.2⟩

/-- Witness of `flip_setters_touch_own_bits`: mirror on over a register file
that holds 0xa2 everywhere; register 0x0f becomes 0xb2. -/
theorem flip_setters_touch_own_bits_witness :
    (sensor_s_hflip regfile_cci 1 sensor_probe (fun _ => 0xa2)).1 = 0 ∧
    (sensor_s_hflip regfile_cci 1 sensor_probe (fun _ => 0xa2)).2.1 =
      { sensor_probe with hflip := 1 } ∧
    (sensor_s_hflip regfile_cci 1 sensor_probe (fun _ => 0xa2)).2.2 0xf0 = 0 ∧
    (sensor_s_hflip regfile_cci 1 sensor_probe (fun _ => 0xa2)).2.2 0x0f = 0xb2 :=
  have h := (flip_setters_touch_own_bits 1 sensor_probe (fun _ => 0xa2)
    ⟨by decide, by decide, by decide⟩).1 (Or.inr rfl)
  ⟨h.1, h.2.1, h.2.2.2.2.2.1, by decide⟩

end gc0307
namespace boot0

/-- With every member aligned to its element size the aligned layout is the
natural one. -/
theorem aligned_end_natural (ms : List member) (off : Nat) :
    aligned_end ms (ms.map member.align) off = natural_end ms off := by
  induction ms generalizing off with
  | nil => rfl
  | cons m ms ih => simp [aligned_end, natural_end, ih]

/-- C10, as the code has it: `boot0_private_head_t` is never 512 bytes long.
For every size `s` of `normal_gpio_cfg` with `32 * s <= 512` the sizes of its
members sum to `656 + 7 * s` (712 for `s = 8`): the storage GPIO table and the
reserved region make up 512 bytes and the members before them the other
`144 + 7 * s`.  For every alignment `a` of `normal_gpio_cfg` (a power of two
dividing `s`), the size of the structure in C is at least that sum, so it is
not 512, and it is exactly that sum, with no padding, if and only if `s` is a
multiple of 4 and `a` is at most 4. -/
theorem private_head_total (s a : Nat) (h : 32 * s ≤ 512) (hs : 0 < s)
    (ha : ∃ k, a = 2 ^ k) (hdvd : a ∣ s) :
    sum_of_sizes (boot0_private_head_t s) = 656 + 7 * s ∧
    656 + 7 * s ≤ aligned_sizeof (boot0_private_head_t s) (boot0_private_head_align a) ∧
    aligned_sizeof (boot0_private_head_t s) (boot0_private_head_align a) ≠ 512 ∧
    (aligned_sizeof (boot0_private_head_t s) (boot0_private_head_align a) = 656 + 7 * s ↔
      s % 4 = 0 ∧ a ≤ 4) := by
  obtain ⟨k, rfl⟩ := ha
  have hle : 2 ^ k ≤ s := Nat.le_of_dvd hs hdvd
  have hk : k ≤ 4 := by
    by_contra hk
    have h5 : 2 ^ 5 ≤ 2 ^ k := Nat.pow_le_pow_right (show 0 < 2 by decide) (by omega)
    have h32 : (2 : Nat) ^ 5 = 32 := by decide
    omega
  have hs16 : s ≤ 16 := by omega
  refine ⟨?_, ?_⟩
  · simp [sum_of_sizes, boot0_private_head_t, member.bytes]
    omega
  · clear h hle
    interval_cases k <;> interval_cases s <;> revert hdvd <;> decide

/-- Witness of `private_head_total` at `sizeof(normal_gpio_cfg) = 8` with
`normal_gpio_cfg` aligned to 1 byte: the members sum to 712 bytes and the
structure is 712 bytes long. -/
theorem private_head_total_witness :
    sum_of_sizes (boot0_private_head_t 8) = 656 + 7 * 8 ∧
    aligned_sizeof (boot0_private_head_t 8) (boot0_private_head_align 1) = 656 + 7 * 8 :=
  ⟨(private_head_total 8 1 (by decide) (by decide) ⟨0, rfl⟩ ⟨8, rfl⟩).1,
   (private_head_total 8 1 (by decide) (by decide) ⟨0, rfl⟩ ⟨8, rfl⟩).2.2.2.mpr
     ⟨by decide, by decide⟩⟩

/-- C10 fails as stated: with `sizeof(normal_gpio_cfg) = 8` the members of
`boot0_private_head_t` sum to 712 bytes, not 512, and the structure is 712
bytes long when `normal_gpio_cfg` is aligned to 1, 2 or 4 bytes and 720 when
it is aligned to 8. -/
theorem private_head_not_512 :
    32 * 8 ≤ 512 ∧ sum_of_sizes (boot0_private_head_t 8) = 712 ∧
    sum_of_sizes (boot0_private_head_t 8) ≠ 512 ∧
    aligned_sizeof (boot0_private_head_t 8) (boot0_private_head_align 1) = 712 ∧
    aligned_sizeof (boot0_private_head_t 8) (boot0_private_head_align 2) = 712 ∧
    aligned_sizeof (boot0_private_head_t 8) (boot0_private_head_align 4) = 712 ∧
    aligned_sizeof (boot0_private_head_t 8) (boot0_private_head_align 8) = 720 := by
  decide

/-- Padding in `boot0_private_head_t` when `sizeof(normal_gpio_cfg)` is not a
multiple of 4: 700 bytes against a member sum of 698 for size 6 aligned to 2,
and 668 against 663 for size 1. -/
theorem private_head_padding_examples :
    aligned_sizeof (boot0_private_head_t 6) (boot0_private_head_align 2) = 700 ∧
    sum_of_sizes (boot0_private_head_t 6) = 698 ∧
    aligned_sizeof (boot0_private_head_t 1) (boot0_private_head_align 1) = 668 ∧
    sum_of_sizes (boot0_private_head_t 1) = 663 := by
  decide

/-- The aligned size with every member aligned to its element size is
`natural_sizeof`. -/
theorem aligned_sizeof_natural (ms : List member) :
    aligned_sizeof ms (ms.map member.align) = natural_sizeof ms := by
  simp [aligned_sizeof, natural_sizeof, aligned_end_natural]


/-- C11: in `boot0_private_head_t` the reserved region `storage_data` has
`512 - 32 * s` bytes, and the storage GPIO table `storage_gpio[32]` together
with `storage_data` takes exactly 512 bytes, for every size `s` of
`normal_gpio_cfg` with `32 * s <= 512`; these two are the last two members. -/
theorem storage_area_512 (s : Nat) (h : 32 * s ≤ 512) :
    member_bytes (boot0_private_head_t s) "storage_data" = 512 - 32 * s ∧
    member_bytes (boot0_private_head_t s) "storage_gpio" = 32 * s ∧
    member_bytes (boot0_private_head_t s) "storage_gpio" +
      member_bytes (boot0_private_head_t s) "storage_data" = 512 ∧
    ((boot0_private_head_t s).drop 7).map member.name = ["storage_gpio", "storage_data"] := by
  have h1 : member_bytes (boot0_private_head_t s) "storage_data" = 512 - s * 32 := by
    simp [member_bytes, boot0_private_head_t, member.bytes, List.find?]
  have h2 : member_bytes (boot0_private_head_t s) "storage_gpio" = s * 32 := by
    simp [member_bytes, boot0_private_head_t, member.bytes, List.find?]
  refine ⟨by omega, by omega, by omega, ?_⟩
  simp [boot0_private_head_t]

/-- Witness of `storage_area_512` at `sizeof(normal_gpio_cfg) = 8`: 256 bytes
of GPIO table and 256 reserved bytes. -/
theorem storage_area_512_witness :
    member_bytes (boot0_private_head_t 8) "storage_data" = 256 ∧
    member_bytes (boot0_private_head_t 8) "storage_gpio" = 256 ∧
    member_bytes (boot0_private_head_t 8) "storage_gpio" +
      member_bytes (boot0_private_head_t 8) "storage_data" = 512 :=
  ⟨(storage_area_512 8 (by decide)).1, (storage_area_512 8 (by decide)).2.1,
   (storage_area_512 8 (by decide)).2.2.1⟩

/-- C12: `standard_boot_file_head_t` is 48 bytes long and has no padding:
laying its ten members out in declaration order with natural alignment gives
the offsets of the packed layout (0, 4, 12, 16, 20, 24, 28, 32, 36, 40), the
naturally aligned size is the sum of the member sizes, and that size is a
multiple of 4. -/
theorem standard_head_48_no_padding :
    sum_of_sizes standard_boot_file_head_t = 48 ∧
    standard_boot_file_head_t.map member.name =
      ["jump_instruction", "magic", "check_sum", "length", "pub_head_size", "pub_head_vsn",
       "ret_addr", "run_addr", "eGON_vsn", "platform"] ∧
    standard_boot_file_head_t.map member.align = [4, 1, 4, 4, 4, 1, 4, 4, 1, 1] ∧
    natural_offsets standard_boot_file_head_t 0 = [0, 4, 12, 16, 20, 24, 28, 32, 36, 40] ∧
    natural_offsets standard_boot_file_head_t 0 = packed_offsets standard_boot_file_head_t 0 ∧
    natural_sizeof standard_boot_file_head_t = sum_of_sizes standard_boot_file_head_t ∧
    sum_of_sizes standard_boot_file_head_t % 4 = 0 := by
  decide

/-- C13, as the code has it: `boot0_extend_config` and `fes_extend_config` are
each exactly 512 bytes long (8 bytes of magic, 4 of power-saving flag, 500
reserved), and the two structures have the same members. -/
theorem extend_config_512 :
    sum_of_sizes boot0_extend_config = 512 ∧ sum_of_sizes fes_extend_config = 512 ∧
    boot0_extend_config.map member.bytes = [8, 4, 500] ∧
    boot0_extend_config = fes_extend_config ∧
    natural_sizeof boot0_extend_config = 512 := by
  decide

/-- C13 fails as stated: the members of `boot0_extend_config` and of
`fes_extend_config` sum to 512 bytes, not 508. -/
theorem extend_config_not_508 :
    sum_of_sizes boot0_extend_config ≠ 508 ∧ sum_of_sizes fes_extend_config ≠ 508 := by
  decide

end boot0
